import Mathlib

/-!
# iSensor FX3 firmware: GPIO timing routines of `PinFunctions.c`

A shallow embedding of the pulse drive, pulse wait, busy-pulse measurement and
edge-interval measurement routines.  Machine words are natural numbers reduced modulo `2 ^ 32` wherever
the C arithmetic can wrap.  The hardware is an explicit environment: every
status returned by the GPIO driver and every value read from the timer or a
pin register is an input, and every driver call or register access the routine
performs is appended to a log in program order.  A busy-wait loop runs over a
finite trace of samples and yields `none` when the trace ends while the loop is
still spinning.
-/

namespace FX3

/-! ## Machine words and the request buffer -/

/-- Truncation to `uint32_t`. -/
def u32 (n : Nat) : Nat := n % 2 ^ 32

/-- Truncation to `uint16_t`. -/
def u16 (n : Nat) : Nat := n % 2 ^ 16

/-- Truncation to `uint8_t`. -/
def u8 (n : Nat) : Nat := n % 2 ^ 8

/-- Status code `CY_U3P_SUCCESS` of the driver library. -/
def CY_U3P_SUCCESS : Nat := 0

/-- Status code `CY_U3P_ERROR_BAD_ARGUMENT` of the driver library. -/
def CY_U3P_ERROR_BAD_ARGUMENT : Nat := 0x40

/-- Bit of a simple GPIO register that holds the input level
(`CY_U3P_LPP_GPIO_IN_VALUE`, bit 1: the source shifts it down by one). -/
def CY_U3P_LPP_GPIO_IN_VALUE : Nat := 2

/-- Element `USBBuffer[i]`, a `uint8_t`. -/
def usbByte (USBBuffer : List Nat) (i : Nat) : Nat := u8 (USBBuffer.getD i 0)

/-- A 16-bit little-endian field: `x = USBBuffer[i]; x = x + (USBBuffer[i+1] << 8)`. -/
def usbWord16 (USBBuffer : List Nat) (i : Nat) : Nat :=
  u16 (usbByte USBBuffer i + (usbByte USBBuffer (i + 1) <<< 8))

/-- A 32-bit little-endian field, assembled byte by byte as in the source. -/
def usbWord32 (USBBuffer : List Nat) (i : Nat) : Nat :=
  u32 (u32 (u32 (usbByte USBBuffer i + (usbByte USBBuffer (i + 1) <<< 8))
    + (usbByte USBBuffer (i + 2) <<< 16)) + (usbByte USBBuffer (i + 3) <<< 24))

/-- Input level of a pin register sample:
`(GPIO->lpp_gpio_simple[pin] & CY_U3P_LPP_GPIO_IN_VALUE) >> 1`. -/
def pinLevel (reg : Nat) : Nat := (reg &&& CY_U3P_LPP_GPIO_IN_VALUE) >>> 1

/-- Bitwise complement `~x` of a 32-bit `CyBool_t` (an `int`), as an unsigned word. -/
def bitNot32 (x : Nat) : Nat := u32 x ^^^ 0xFFFFFFFF

/-- Logical negation `!x` of a `CyBool_t`. -/
def logNot (x : Nat) : Nat := if x = 0 then 1 else 0

/-- The four bytes stored for a 32-bit value `x`:
`x & 0xFF`, `(x & 0xFF00) >> 8`, `(x & 0xFF0000) >> 16`, `(x & 0xFF000000) >> 24`,
each truncated to the `uint8_t` buffer element. -/
def storeLE32 (x : Nat) : List Nat :=
  [u8 (x &&& 0xFF), u8 ((x &&& 0xFF00) >>> 8), u8 ((x &&& 0xFF0000) >>> 16),
    u8 ((x &&& 0xFF000000) >>> 24)]

/-- Host-side reading of four little-endian bytes. -/
def readLE32 (bytes : List Nat) : Nat :=
  bytes.getD 0 0 + 256 * bytes.getD 1 0 + 65536 * bytes.getD 2 0 + 16777216 * bytes.getD 3 0

/-! ## Hardware interface -/

/-- Fields of `CyU3PGpioSimpleConfig_t` (the interrupt mode is `CY_U3P_GPIO_NO_INTR`
in every configuration built by these routines). -/
structure CyU3PGpioSimpleConfig_t where
  outValue : Nat
  inputEn : Bool
  driveLowEn : Bool
  driveHighEn : Bool
  deriving DecidableEq, Repr

/-- The input configuration: `outValue = CyFalse`, `inputEn = CyTrue`, both drivers off. -/
def inputConfig : CyU3PGpioSimpleConfig_t :=
  { outValue := 0, inputEn := true, driveLowEn := false, driveHighEn := false }

/-- The driven-output configuration with initial level `v`. -/
def outputConfig (v : Nat) : CyU3PGpioSimpleConfig_t :=
  { outValue := v, inputEn := false, driveLowEn := true, driveHighEn := true }

/-- Driver calls and register accesses, as they appear in the source. -/
inductive HwAction where
  | GpioSimpleGetValue (pin : Nat)
  | GpioSetSimpleConfig (pin : Nat) (cfg : CyU3PGpioSimpleConfig_t)
  | SpiTransmitWords (byte0 byte1 : Nat)
  | DeviceGpioOverride (pin : Nat) (isSimple : Bool)
  | GpioDisable (pin : Nat)
  | TimerZero
  | TimerIntrOff
  | TimerPeriodMax
  | TimerSampleNow
  | PinRegRead (pin : Nat)
  | GpioSimpleSetValue (pin : Nat) (value : Nat)
  | GpioSetValue (pin : Nat) (value : Nat)
  | DebugPrint
  | DmaSend (count : Nat)
  deriving DecidableEq, Repr

/-- Compile-time constants of the missing headers and the fields of `FX3State`
read by these routines, taken as parameters. -/
structure Board where
  MS_TO_TICKS_MULT : Nat
  ADI_MICROSECONDS_SLEEP_OFFSET : Nat
  StallTime : Nat
  deriving DecidableEq, Repr

/-- What a routine leaves behind: its return status, the hardware log, and the
bytes `BulkBuffer[0 .. count-1]` handed to the DMA channel (empty when nothing
was sent). -/
structure Outcome where
  status : Nat
  log : List HwAction
  BulkBuffer : List Nat
  count : Nat
  deriving DecidableEq, Repr

/-! ## Busy-wait loops over a sample trace -/

/-- A loop `while (!done) body` whose body consumes one sample per iteration.
Returns the final state and the unread samples, or `none` if the trace is
exhausted before the loop condition fails. -/
def pollLoop {σ α : Type} (done : σ → Bool) (body : σ → α → σ) : σ → List α → Option (σ × List α)
  | s, [] => if done s then some (s, []) else none
  | s, x :: xs => if done s then some (s, x :: xs) else pollLoop done body (body s x) xs

/-- State of the loop variables after `j` iterations of the body, exits ignored. -/
def stateAfter {σ α : Type} (body : σ → α → σ) (s : σ) (xs : List α) (j : Nat) : σ :=
  (xs.take j).foldl body s

/-- Wrapping subtraction `a - b` on `uint32_t`. -/
def sub32 (a b : Nat) : Nat := u32 (u32 a + (2 ^ 32 - u32 b))

/-- Variables of a loop that only samples the timer. -/
structure ClockState where
  currentTime : Nat
  log : List HwAction
  deriving DecidableEq, Repr

/-- One sample-now cycle: start the sample, wait for it to finish, read `threshold`. -/
def clockBody (s : ClockState) (sample : Nat) : ClockState :=
  { currentTime := sample, log := s.log ++ [HwAction.TimerSampleNow] }

/-- Variables of a rollover-tracking poll loop (`rolloverCount` and `exit` in
`AdiPulseDrive`). -/
structure PollState where
  currentTime : Nat
  lastTime : Nat
  rollOverCount : Nat
  exitCondition : Bool
  log : List HwAction
  deriving DecidableEq, Repr

/-- Read of a pin with one recovery attempt, shared by `AdiMeasureBusyPulse`
(lines 66-87) and `AdiPulseWait` (lines 566-588): returns `status`, `validPin`
and the driver calls made.  The status of the reconfiguration is overwritten by
the second read. -/
def validateInputPin (pin getValue1 getValue2 : Nat) : Nat × Bool × List HwAction :=
  if getValue1 ≠ CY_U3P_SUCCESS then
    (getValue2, decide (getValue2 = CY_U3P_SUCCESS),
      [HwAction.GpioSimpleGetValue pin, HwAction.GpioSetSimpleConfig pin inputConfig,
        HwAction.GpioSimpleGetValue pin])
  else
    (getValue1, true, [HwAction.GpioSimpleGetValue pin])

/-! ## `AdiSleepForMicroSeconds` (lines 705-748) -/

/-- The microsecond stall.  `clock` is the trace of timer samples. -/
def AdiSleepForMicroSeconds (b : Board) (numMicroSeconds : Nat) (clock : List Nat) :
    Option (Nat × List HwAction) :=
  let status := CY_U3P_SUCCESS
  if numMicroSeconds > b.ADI_MICROSECONDS_SLEEP_OFFSET then
    let numMicroSeconds := numMicroSeconds - b.ADI_MICROSECONDS_SLEEP_OFFSET
    if numMicroSeconds > 426172 then
      some (CY_U3P_ERROR_BAD_ARGUMENT, [HwAction.TimerZero, HwAction.DebugPrint])
    else
      let finalTickCount := u32 (numMicroSeconds * b.MS_TO_TICKS_MULT) / 1000
      match pollLoop (fun s => !decide (s.currentTime < finalTickCount)) clockBody
          { currentTime := 0, log := [HwAction.TimerZero] } clock with
      | none => none
      | some (s, _) => some (status, s.log)
  else
    some (status, [HwAction.TimerZero])

/-! ## `AdiPulseDrive` (lines 419-512) -/

/-- Environment of `AdiPulseDrive`: the statuses of the three configuration
calls and the trace of timer samples. -/
structure PulseDriveEnv where
  setConfig1 : Nat
  setConfig2 : Nat
  clock : List Nat
  setConfigRestore : Nat
  deriving DecidableEq, Repr

/-- Body of the drive loop (lines 474-490). -/
def pulseDriveBody (timerTicks timerRollovers : Nat) (s : PollState) (sample : Nat) : PollState :=
  let lastTime := s.currentTime
  let currentTime := sample
  let rolloverCount := if currentTime < lastTime then u32 (s.rollOverCount + 1) else s.rollOverCount
  { currentTime := currentTime
    lastTime := lastTime
    rollOverCount := rolloverCount
    exitCondition := decide (currentTime ≥ timerTicks) && decide (rolloverCount ≥ timerRollovers)
    log := s.log ++ [HwAction.TimerSampleNow] }

/-- The drive loop (lines 468-491), started from the given log. -/
def pulseDriveLoop (timerTicks timerRollovers : Nat) (log : List HwAction) (clock : List Nat) :
    Option (PollState × List Nat) :=
  pollLoop (fun s => s.exitCondition) (pulseDriveBody timerTicks timerRollovers)
    { currentTime := 0, lastTime := 0, rollOverCount := 0, exitCondition := false, log := log } clock

/-- Configuration of the pin as a driven output, timer setup and, after a
failed configuration, the recovery calls (lines 439-466): the log on entry to
the drive loop. -/
def pulseDriveEntryLog (USBBuffer : List Nat) (env : PulseDriveEnv) : List HwAction :=
  let pinNumber := usbWord16 USBBuffer 0
  let gpioConfig := outputConfig (usbByte USBBuffer 2)
  let log0 := [HwAction.GpioSetSimpleConfig pinNumber gpioConfig, HwAction.TimerZero,
    HwAction.TimerIntrOff, HwAction.TimerPeriodMax]
  if env.setConfig1 ≠ CY_U3P_SUCCESS then
    log0 ++ [HwAction.DeviceGpioOverride pinNumber true, HwAction.GpioDisable pinNumber,
      HwAction.GpioSetSimpleConfig pinNumber gpioConfig]
  else log0

/-- The whole routine. -/
def AdiPulseDrive (USBBuffer : List Nat) (env : PulseDriveEnv) : Option Outcome :=
  let pinNumber := usbWord16 USBBuffer 0
  let polarity := usbByte USBBuffer 2
  let timerTicks := usbWord32 USBBuffer 3
  let timerRollovers := usbWord32 USBBuffer 7
  if env.setConfig1 ≠ CY_U3P_SUCCESS ∧ env.setConfig2 ≠ CY_U3P_SUCCESS then
    some { status := env.setConfig2
           log := pulseDriveEntryLog USBBuffer env ++ [HwAction.DebugPrint]
           BulkBuffer := [], count := 0 }
  else
    match pulseDriveLoop timerTicks timerRollovers (pulseDriveEntryLog USBBuffer env)
        env.clock with
    | none => none
    | some (s, _) =>
      some { status := env.setConfigRestore
             log := s.log ++ [HwAction.GpioSetValue pinNumber (logNot polarity),
               HwAction.DeviceGpioOverride pinNumber true, HwAction.GpioDisable pinNumber,
               HwAction.GpioSetSimpleConfig pinNumber inputConfig]
             BulkBuffer := [], count := 0 }

/-! ## `AdiPulseWait` (lines 528-667) -/

/-- Environment of `AdiPulseWait`.  `uninitRollOverCount` is the value the
local `rollOverCount` happens to hold when it is read without having been
assigned.  `poll` pairs each timer sample of the level-wait loop with the pin
register sample of the same iteration. -/
structure PulseWaitEnv where
  getValue1 : Nat
  getValue2 : Nat
  uninitRollOverCount : Nat
  delayClock : List Nat
  poll : List (Nat × Nat)
  deriving DecidableEq, Repr

/-- Body of the level-wait loop (lines 614-635). -/
def pulseWaitBody (pin polarity timeoutTicks timeoutRollover : Nat) (s : PollState)
    (x : Nat × Nat) : PollState :=
  let lastTime := s.currentTime
  let currentTime := x.1
  let rollOverCount := if currentTime < lastTime then u32 (s.rollOverCount + 1) else s.rollOverCount
  let pinValue := pinLevel x.2
  { currentTime := currentTime
    lastTime := lastTime
    rollOverCount := rollOverCount
    exitCondition := (pinValue == polarity) ||
      (decide (currentTime ≥ timeoutTicks) && decide (rollOverCount ≥ timeoutRollover))
    log := s.log ++ [HwAction.TimerSampleNow, HwAction.PinRegRead pin] }

/-- The level-wait loop (lines 611-636), entered with the `currentTime` left by
the delay phase. -/
def pulseWaitLoop (pin polarity timeoutTicks timeoutRollover currentTime : Nat)
    (log : List HwAction) (poll : List (Nat × Nat)) : Option (PollState × List (Nat × Nat)) :=
  pollLoop (fun s => s.exitCondition) (pulseWaitBody pin polarity timeoutTicks timeoutRollover)
    { currentTime := currentTime, lastTime := 0, rollOverCount := 0, exitCondition := false,
      log := log } poll

/-- The delay phase (lines 598-609). -/
def pulseWaitDelay (delay : Nat) (log : List HwAction) (clock : List Nat) :
    Option (ClockState × List Nat) :=
  if delay > 0 then
    pollLoop (fun s => !decide (s.currentTime < delay)) clockBody
      { currentTime := 0, log := log } clock
  else
    some ({ currentTime := 0, log := log }, clock)

/-- The result record and its hand-over to the DMA channel (lines 645-666). -/
def pulseWaitSend (status currentTime rollOverCount : Nat) (log : List HwAction) : Outcome :=
  { status := status
    log := log ++ [HwAction.DmaSend 12]
    BulkBuffer := storeLE32 status ++ storeLE32 currentTime ++ storeLE32 rollOverCount
    count := 12 }

/-- Timer setup at entry (lines 536-541) followed by the pin validation
(lines 566-588): `status`, `validPin` and the log so far. -/
def pulseWaitEntry (USBBuffer : List Nat) (env : PulseWaitEnv) : Nat × Bool × List HwAction :=
  let v := validateInputPin (usbWord16 USBBuffer 0) env.getValue1 env.getValue2
  (v.1, v.2.1, [HwAction.TimerIntrOff, HwAction.TimerPeriodMax, HwAction.TimerZero] ++ v.2.2)

/-- The delay phase of a request: `delay` is the millisecond field scaled by
`MS_TO_TICKS_MULT` (line 564). -/
def pulseWaitDelayPhase (b : Board) (USBBuffer : List Nat) (env : PulseWaitEnv) :
    Option (ClockState × List Nat) :=
  pulseWaitDelay (u32 (usbWord32 USBBuffer 3 * b.MS_TO_TICKS_MULT))
    (pulseWaitEntry USBBuffer env).2.2 env.delayClock

/-- The whole routine. -/
def AdiPulseWait (b : Board) (USBBuffer : List Nat) (env : PulseWaitEnv) : Option Outcome :=
  let pin := usbWord16 USBBuffer 0
  let polarity := usbByte USBBuffer 2
  let timeoutTicks := usbWord32 USBBuffer 7
  let timeoutRollover := usbWord32 USBBuffer 11
  let status := (pulseWaitEntry USBBuffer env).1
  let validPin := (pulseWaitEntry USBBuffer env).2.1
  if validPin then
    match pulseWaitDelayPhase b USBBuffer env with
    | none => none
    | some (d, _) =>
      match pulseWaitLoop pin polarity timeoutTicks timeoutRollover d.currentTime d.log env.poll with
      | none => none
      | some (s, _) => some (pulseWaitSend status s.currentTime s.rollOverCount s.log)
  else
    some (pulseWaitSend status 0xFFFFFFFF env.uninitRollOverCount (pulseWaitEntry USBBuffer env).2.2)

/-! ## `AdiMeasureBusyPulse` (lines 39-300) -/

/-- Environment of `AdiMeasureBusyPulse`: driver statuses in call order, the
value the unassigned local `rollOverCount` happens to hold, the timer samples of
the stall, the pin register samples of the wait for the busy level (line 174),
the timer sample taken after it in pin mode (line 184), and the (timer, pin
register) samples of the measurement loop. -/
structure BusyPulseEnv where
  getValue1 : Nat
  getValue2 : Nat
  uninitRollOverCount : Nat
  stallClock : List Nat
  overrideStatus : Nat
  disableStatus : Nat
  setConfigTrigger : Nat
  busyWait : List Nat
  baseline : Nat
  poll : List (Nat × Nat)
  setConfigRestore : Nat
  deriving DecidableEq, Repr

/-- Variables of the measurement loop. -/
structure BusyState where
  currentTime : Nat
  lastTime : Nat
  rollOverCount : Nat
  exitCondition : Bool
  SpiTriggerMode : Bool
  log : List HwAction
  deriving DecidableEq, Repr

/-- Body of the measurement loop (lines 203-242). -/
def busyPulseBody (busyPin busyPolarity timeout triggerPin triggerPolarity driveTime : Nat)
    (s : BusyState) (x : Nat × Nat) : BusyState :=
  let lastTime := s.currentTime
  let currentTime := x.1
  let pinValue := pinLevel x.2
  let rollOverCount := if currentTime < lastTime then u32 (s.rollOverCount + 1) else s.rollOverCount
  let exitCondition :=
    if timeout ≠ 0 then (pinValue != busyPolarity) || decide (currentTime ≥ timeout)
    else (pinValue != busyPolarity)
  let log1 := s.log ++ [HwAction.TimerSampleNow, HwAction.PinRegRead busyPin]
  let log2 :=
    if !s.SpiTriggerMode then
      if currentTime > driveTime then
        log1 ++ [HwAction.GpioSimpleSetValue triggerPin (bitNot32 triggerPolarity)]
      else log1
    else log1
  { currentTime := currentTime
    lastTime := lastTime
    rollOverCount := rollOverCount
    exitCondition := exitCondition
    SpiTriggerMode := if !s.SpiTriggerMode then true else s.SpiTriggerMode
    log := log2 }

/-- The measurement loop (lines 194-243). -/
def busyPulseLoop (busyPin busyPolarity timeout triggerPin triggerPolarity driveTime : Nat)
    (SpiTriggerMode : Bool) (log : List HwAction) (poll : List (Nat × Nat)) :
    Option (BusyState × List (Nat × Nat)) :=
  pollLoop (fun s => s.exitCondition)
    (busyPulseBody busyPin busyPolarity timeout triggerPin triggerPolarity driveTime)
    { currentTime := 0, lastTime := 0, rollOverCount := 0, exitCondition := false,
      SpiTriggerMode := SpiTriggerMode, log := log } poll

/-- The latency correction (lines 245-254): the corrected `currentTime` and
`rollOverCount`. -/
def busyPulseFudge (currentTime rollOverCount : Nat) : Nat × Nat :=
  if currentTime < 0xFFFFFFFF - 20 then (currentTime + 20, rollOverCount)
  else (0, u32 (rollOverCount + 1))

/-- Restoration of the trigger pin and transmission of the result (lines 262-299). -/
def busyPulseFinish (b : Board) (status triggerPin currentTime rollOverCount : Nat)
    (log : List HwAction) (setConfigRestore : Nat) : Outcome :=
  let status := if triggerPin ≠ 0xFFFF then setConfigRestore else status
  let log :=
    if triggerPin ≠ 0xFFFF then
      log ++ [HwAction.GpioDisable triggerPin, HwAction.GpioSetSimpleConfig triggerPin inputConfig]
    else log
  { status := status
    log := log ++ [HwAction.DmaSend 16]
    BulkBuffer := storeLE32 status ++ storeLE32 currentTime ++ storeLE32 rollOverCount
      ++ storeLE32 b.MS_TO_TICKS_MULT
    count := 16 }

/-- The wait for the busy level (line 174): the pin register is read until its
input level equals `busyPolarity`.  The state is the outcome of the last
comparison and the log. -/
def busyPulseWaitLevel (busyPin busyPolarity : Nat) (log : List HwAction) (busyWait : List Nat) :
    Option ((Bool × List HwAction) × List Nat) :=
  pollLoop (fun (w : Bool × List HwAction) => w.1)
    (fun w reg => (pinLevel reg == busyPolarity, w.2 ++ [HwAction.PinRegRead busyPin]))
    (false, log) busyWait

/-- Wait for the busy level, baseline subtraction, measurement loop, correction
and result (lines 173-299), for a trigger already issued. -/
def busyPulseMeasure (b : Board) (busyPin busyPolarity timeout status : Nat)
    (SpiTriggerMode : Bool) (triggerPin triggerPolarity driveTime : Nat)
    (log : List HwAction) (env : BusyPulseEnv) : Option Outcome :=
  match busyPulseWaitLevel busyPin busyPolarity log env.busyWait with
  | none => none
  | some (w, _) =>
    let driveTime := if !SpiTriggerMode then sub32 driveTime env.baseline else driveTime
    let log1 := if !SpiTriggerMode then w.2 ++ [HwAction.TimerSampleNow] else w.2
    let log2 := log1 ++ [HwAction.TimerZero, HwAction.TimerIntrOff, HwAction.TimerPeriodMax]
    match busyPulseLoop busyPin busyPolarity timeout triggerPin triggerPolarity driveTime
        SpiTriggerMode log2 env.poll with
    | none => none
    | some (s, _) =>
      let f := busyPulseFudge s.currentTime s.rollOverCount
      some (busyPulseFinish b status triggerPin f.1 f.2 s.log env.setConfigRestore)

/-- The tick timeout of a request (lines 55-64). -/
def busyPulseTimeout (b : Board) (USBBuffer : List Nat) : Nat :=
  u32 (usbWord32 USBBuffer 3 * b.MS_TO_TICKS_MULT)

/-- The whole routine. -/
def AdiMeasureBusyPulse (b : Board) (USBBuffer : List Nat) (env : BusyPulseEnv) : Option Outcome :=
  let busyPin := usbWord16 USBBuffer 0
  let busyPolarity := usbByte USBBuffer 2
  let timeout := busyPulseTimeout b USBBuffer
  let SpiTriggerMode := usbByte USBBuffer 7 != 0
  let v := validateInputPin busyPin env.getValue1 env.getValue2
  let status := v.1
  let validPin := v.2.1
  let log0 := v.2.2
  if validPin then
    if SpiTriggerMode then
      let RegAddr := usbWord16 USBBuffer 8
      let RegValue := usbWord16 USBBuffer 10
      let log1 := log0 ++ [HwAction.SpiTransmitWords (u8 (RegAddr ||| 0x80)) (u8 (RegValue &&& 0xFF))]
      match AdiSleepForMicroSeconds b b.StallTime env.stallClock with
      | none => none
      | some (_, stallLog) =>
        let log2 := log1 ++ stallLog ++
          [HwAction.SpiTransmitWords (u8 ((RegAddr + 1) ||| 0x80)) (u8 ((RegValue &&& 0xFF00) >>> 8))]
        busyPulseMeasure b busyPin busyPolarity timeout status SpiTriggerMode 0xFFFF 0 0 log2 env
    else
      let triggerPin := usbWord16 USBBuffer 8
      let triggerPolarity := usbByte USBBuffer 10
      let driveTime := u32 (usbWord32 USBBuffer 11 * b.MS_TO_TICKS_MULT)
      let log1 := log0 ++ [HwAction.DeviceGpioOverride triggerPin true]
      if env.overrideStatus ≠ CY_U3P_SUCCESS then
        some { status := env.overrideStatus, log := log1 ++ [HwAction.DebugPrint],
               BulkBuffer := [], count := 0 }
      else
        let log2 := log1 ++ [HwAction.GpioDisable triggerPin]
        let log3 := if env.disableStatus ≠ CY_U3P_SUCCESS then log2 ++ [HwAction.DebugPrint] else log2
        let log4 := log3 ++ [HwAction.TimerZero, HwAction.TimerIntrOff, HwAction.TimerPeriodMax,
          HwAction.GpioSetSimpleConfig triggerPin (outputConfig triggerPolarity)]
        let log5 := if env.setConfigTrigger ≠ CY_U3P_SUCCESS then log4 ++ [HwAction.DebugPrint] else log4
        busyPulseMeasure b busyPin busyPolarity timeout env.setConfigTrigger SpiTriggerMode
          triggerPin triggerPolarity driveTime log5 env
  else
    some (busyPulseFinish b status 0xFFFF 0xFFFFFFFF env.uninitRollOverCount log0
      env.setConfigRestore)

/-! ## `AdiMeasureDR` (lines 896-1182) -/

/-- `AdiMStoTicks` (lines 803-806). -/
def AdiMStoTicks (b : Board) (timeInMS : Nat) : Nat := u32 (timeInMS * b.MS_TO_TICKS_MULT)

/-- The test `pinRegValue & CY_U3P_LPP_GPIO_IN_VALUE` of the wait loops. -/
def drHigh (pinRegValue : Nat) : Bool := (pinRegValue &&& CY_U3P_LPP_GPIO_IN_VALUE) != 0

/-- Variables of the wait loops of `AdiMeasureDR`. -/
structure DRState where
  currentTime : Nat
  pinRegValue : Nat
  timeoutCounter : Nat
  log : List HwAction
  deriving DecidableEq, Repr

/-- Window test of the rollover branch (lines 980, 992, 1008, 1022):
`currentTime >= startTime || currentTime <= sampleEndTime`. -/
def drWindowRoll (startTime sampleEndTime t : Nat) : Bool :=
  decide (t ≥ startTime) || decide (t ≤ sampleEndTime)

/-- Counting test of the rollover branch (lines 985, 997, 1015, 1027):
`currentTime <= startTime || currentTime >= sampleEndTime`. -/
def drMissRoll (startTime sampleEndTime t : Nat) : Bool :=
  decide (t ≤ startTime) || decide (t ≥ sampleEndTime)

/-- Window test of the branch without rollover (lines 1043, 1055, 1071, 1085):
`currentTime < sampleEndTime`. -/
def drWindowPlain (sampleEndTime t : Nat) : Bool := decide (t < sampleEndTime)

/-- Counting test of the branch without rollover (lines 1048, 1060, 1078, 1090):
`currentTime > sampleEndTime`. -/
def drMissPlain (sampleEndTime t : Nat) : Bool := decide (t > sampleEndTime)

/-- The increment `timeoutCounter++` of a `uint32_t`. -/
def drCountMiss (timeoutCounter : Nat) : Nat := u32 (timeoutCounter + 1)

/-- Body of a wait loop of the branches with a timeout: sample the timer, read
the pin register, count the sample if the counting test holds. -/
def drTimedBody (pin : Nat) (miss : Nat → Bool) (s : DRState) (x : Nat × Nat) : DRState :=
  { currentTime := x.1
    pinRegValue := x.2
    timeoutCounter := if miss x.1 then drCountMiss s.timeoutCounter else s.timeoutCounter
    log := s.log ++ [HwAction.TimerSampleNow, HwAction.PinRegRead pin] }

/-- Body of a wait loop of the branch without timeout (lines 1108-1135): only
the pin register is read; the timer component of the trace entry is not used. -/
def drUntimedBody (pin : Nat) (s : DRState) (x : Nat × Nat) : DRState :=
  { currentTime := s.currentTime
    pinRegValue := x.2
    timeoutCounter := s.timeoutCounter
    log := s.log ++ [HwAction.PinRegRead pin] }

/-- The level part of a loop condition: a loop that awaits the high level runs
while `!(pinRegValue & IN_VALUE)`, one that awaits the low level runs while
`pinRegValue & IN_VALUE`. -/
def drLevelKeep (awaitHigh : Bool) (pinRegValue : Nat) : Bool :=
  if awaitHigh then !drHigh pinRegValue else drHigh pinRegValue

/-- A wait loop `while (level && window) body`. -/
def drWait (awaitHigh : Bool) (window : Nat → Bool) (body : DRState → Nat × Nat → DRState)
    (s : DRState) (trace : List (Nat × Nat)) : Option (DRState × List (Nat × Nat)) :=
  pollLoop (fun s => !(drLevelKeep awaitHigh s.pinRegValue && window s.currentTime)) body s trace

/-- Hardware values met by one pass of the sample loop: the pin register read
that opens it, the (timer, pin register) samples of its two wait loops, and the
timer sample taken after them (line 1139). -/
structure DREdgeEnv where
  first : Nat
  phase1 : List (Nat × Nat)
  phase2 : List (Nat × Nat)
  edgeTime : Nat
  deriving DecidableEq, Repr

/-- The two wait phases of one pass, for a given window test and loop body.
The six branches of the source (lines 971-1136) have this one shape and differ
in the window test and the body only.  For `polarity == 1` the first loop,
entered if the pin is high, awaits the low level and the second the high level,
both under the window test; otherwise the first loop is entered if the pin is
low and the window test holds and then awaits the high level with no window test
of its own, and the second awaits the low level under the window test. -/
def drPhases (pin polarity : Nat) (window : Nat → Bool)
    (body : DRState → Nat × Nat → DRState) (s : DRState) (e : DREdgeEnv) : Option DRState :=
  let s1 : DRState :=
    { currentTime := s.currentTime, pinRegValue := e.first, timeoutCounter := s.timeoutCounter,
      log := s.log ++ [HwAction.PinRegRead pin] }
  if polarity = 1 then
    match (if drHigh s1.pinRegValue then drWait false window body s1 e.phase1
           else some (s1, e.phase1)) with
    | none => none
    | some (s2, _) =>
      match drWait true window body s2 e.phase2 with
      | none => none
      | some (s3, _) => some s3
  else
    match (if !drHigh s1.pinRegValue && window s1.currentTime then
             drWait true (fun _ => true) body s1 e.phase1
           else some (s1, e.phase1)) with
    | none => none
    | some (s2, _) =>
      match drWait false window body s2 e.phase2 with
      | none => none
      | some (s3, _) => some s3

/-- The wait for one edge (lines 967-1137): branch on `timeout`, then on
`sampleRollover`. -/
def drEdge (pin polarity timeout : Nat) (sampleRollover : Bool) (startTime sampleEndTime : Nat)
    (s : DRState) (e : DREdgeEnv) : Option DRState :=
  if timeout ≠ 0 then
    if sampleRollover then
      drPhases pin polarity (drWindowRoll startTime sampleEndTime)
        (drTimedBody pin (drMissRoll startTime sampleEndTime)) s e
    else
      drPhases pin polarity (drWindowPlain sampleEndTime)
        (drTimedBody pin (drMissPlain sampleEndTime)) s e
  else
    drPhases pin polarity (fun _ => true) (drUntimedBody pin) s e

/-- The time waited recorded after an edge (lines 1140-1147). -/
def drElapsed (startTime currentTime : Nat) : Nat :=
  if currentTime > startTime then currentTime - startTime
  else u32 (currentTime + (0xFFFFFFFF - startTime))

/-- Variables of the sample loop: the wait-loop variables, the stores into
`timeWaited` as (index, value) pairs in program order, and the hardware values
still to come.  A store with an index outside the two-element array is recorded
like the others and is taken to leave every other variable as it was. -/
structure DRLoopState where
  vars : DRState
  stores : List (Nat × Nat)
  edges : List DREdgeEnv
  deriving DecidableEq, Repr

/-- Body of the sample loop for index `i` (lines 967-1147). -/
def drSampleBody (pin polarity timeout : Nat) (sampleRollover : Bool)
    (startTime sampleEndTime : Nat) (i : Nat) (s : DRLoopState) : Option DRLoopState :=
  match s.edges with
  | [] => none
  | e :: es =>
    match drEdge pin polarity timeout sampleRollover startTime sampleEndTime s.vars e with
    | none => none
    | some v =>
      some { vars := { currentTime := e.edgeTime, pinRegValue := v.pinRegValue,
                       timeoutCounter := v.timeoutCounter,
                       log := v.log ++ [HwAction.TimerSampleNow] }
             stores := s.stores ++ [(i, drElapsed startTime e.edgeTime)]
             edges := es }

/-- A counting loop `for (i = from; ...; i++)` that makes `n` passes. -/
def forFrom {σ : Type} (body : Nat → σ → Option σ) : Nat → Nat → σ → Option σ
  | 0, _, s => some s
  | n + 1, i, s =>
    match body i s with
    | none => none
    | some s' => forFrom body n (i + 1) s'

/-- The sample loop `for (uint32_t i = 0; i <= 2; i++)` (line 965): the indices
from 0 that satisfy `i <= 2` are `2 + 1` in number. -/
def drSampleLoop (pin polarity timeout : Nat) (sampleRollover : Bool)
    (startTime sampleEndTime : Nat) (s : DRLoopState) : Option DRLoopState :=
  forFrom (drSampleBody pin polarity timeout sampleRollover startTime sampleEndTime) (2 + 1) 0 s

/-- Value of `timeWaited[k]` after a sequence of stores (0 if never stored). -/
def timeWaitedAt (stores : List (Nat × Nat)) (k : Nat) : Nat :=
  (((stores.filter (fun st => st.1 == k)).getLast?).map Prod.snd).getD 0

/-- Environment of `AdiMeasureDR`: the timer sample at entry, the statuses of
the two pin reads, the value the local `validPin` holds when it is read without
having been assigned, the hardware values of the passes of the sample loop, and
the status of the DMA hand-over. -/
structure MeasureDREnv where
  startTime : Nat
  getValue1 : Nat
  getValue2 : Nat
  uninitValidPin : Nat
  edges : List DREdgeEnv
  dmaStatus : Nat
  deriving DecidableEq, Repr

/-- The local `validPin` after the pin check (lines 934-959): assigned `CyTrue`
when the first read succeeds, `CyFalse` when both reads fail, and not assigned
when only the second read succeeds. -/
def drValidPin (env : MeasureDREnv) : Nat :=
  if env.getValue1 ≠ CY_U3P_SUCCESS then
    if env.getValue2 ≠ CY_U3P_SUCCESS then 0 else env.uninitValidPin
  else 1

/-- `sampleRollover` (line 922). -/
def drSampleRollover (timeout startTime : Nat) : Bool :=
  decide (timeout > 0) && decide (startTime > 0xFFFFFFFF - timeout)

/-- `sampleEndTime` (lines 925-932). -/
def drSampleEndTime (timeout startTime : Nat) : Nat :=
  if drSampleRollover timeout startTime then sub32 timeout (0xFFFFFFFF - startTime)
  else u32 (timeout + startTime)

/-- The result record and its hand-over to the DMA channel (lines 1157-1181). -/
def measureDRSend (b : Board) (deltat timeoutCounter : Nat) (log : List HwAction)
    (dmaStatus : Nat) : Outcome :=
  { status := dmaStatus
    log := if dmaStatus ≠ CY_U3P_SUCCESS then log ++ [HwAction.DmaSend 9, HwAction.DebugPrint]
           else log ++ [HwAction.DmaSend 9]
    BulkBuffer := storeLE32 deltat ++
      [u8 (b.MS_TO_TICKS_MULT &&& 0xFF), u8 ((b.MS_TO_TICKS_MULT &&& 0xFF00) >>> 8),
        u8 ((b.MS_TO_TICKS_MULT &&& 0xFF00) >>> 16), u8 ((b.MS_TO_TICKS_MULT &&& 0xFF00) >>> 24),
        u8 timeoutCounter]
    count := 9 }

/-- The log on entry to the sample loop: the timer sample at entry (line 906)
and the pin check. -/
def measureDREntryLog (USBBuffer : List Nat) (env : MeasureDREnv) : List HwAction :=
  [HwAction.TimerSampleNow]
    ++ (validateInputPin (usbWord16 USBBuffer 0) env.getValue1 env.getValue2).2.2

/-- The sample loop of a request, from its initial variables. -/
def measureDRSamples (b : Board) (USBBuffer : List Nat) (env : MeasureDREnv) :
    Option DRLoopState :=
  let timeout := AdiMStoTicks b (usbWord32 USBBuffer 7)
  drSampleLoop (usbWord16 USBBuffer 0) (usbByte USBBuffer 2) timeout
    (drSampleRollover timeout env.startTime) env.startTime
    (drSampleEndTime timeout env.startTime)
    { vars := { currentTime := env.startTime, pinRegValue := 0, timeoutCounter := 0,
                log := measureDREntryLog USBBuffer env }
      stores := [], edges := env.edges }

/-- The whole routine. -/
def AdiMeasureDR (b : Board) (USBBuffer : List Nat) (env : MeasureDREnv) : Option Outcome :=
  if drValidPin env ≠ 0 then
    match measureDRSamples b USBBuffer env with
    | none => none
    | some s =>
      some (measureDRSend b (sub32 (timeWaitedAt s.stores 1) (timeWaitedAt s.stores 0))
        s.vars.timeoutCounter s.vars.log env.dmaStatus)
  else
    some (measureDRSend b 0xFFFFFFFF 0 (measureDREntryLog USBBuffer env) env.dmaStatus)

/-- The window test of the wait loops of a request with a timeout, by branch. -/
def drWindow (sampleRollover : Bool) (startTime sampleEndTime : Nat) : Nat → Bool :=
  if sampleRollover then drWindowRoll startTime sampleEndTime else drWindowPlain sampleEndTime

/-- The counting test of the wait loops of a request with a timeout, by branch. -/
def drMiss (sampleRollover : Bool) (startTime sampleEndTime : Nat) : Nat → Bool :=
  if sampleRollover then drMissRoll startTime sampleEndTime else drMissPlain sampleEndTime

/-- The little-endian encoding of a 32-bit value, least significant byte first. -/
def littleEndian32 (x : Nat) : List Nat :=
  [x % 256, x / 256 % 256, x / 65536 % 256, x / 16777216 % 256]

/-! ## Reading a loop sample by sample -/

/-- Value of the rollover counter after a run of timer samples: from the
previous sample `last` and the count `roll`, every sample that is below its
predecessor adds one (lines 204-220, 475-488, 615-628). -/
def rollCount (last roll : Nat) : List Nat → Nat
  | [] => roll
  | t :: ts => rollCount t (if t < last then u32 (roll + 1) else roll) ts

/-- Timer sample of poll iteration `j` (counted from 0). -/
def clockAt (poll : List (Nat × Nat)) (j : Nat) : Nat := (poll.getD j (0, 0)).1

/-- Pin level sampled in poll iteration `j` (counted from 0). -/
def pinAt (poll : List (Nat × Nat)) (j : Nat) : Nat := pinLevel (poll.getD j (0, 0)).2

/-- Rollover counter after poll iteration `j` (counted from 0) of a loop
entered with `currentTime = start` and a zero counter. -/
def rollAt (start : Nat) (poll : List (Nat × Nat)) (j : Nat) : Nat :=
  rollCount start 0 ((poll.take (j + 1)).map Prod.fst)

/-- The log entries of `k` poll iterations of a (timer, pin) loop. -/
def pollLog (pin : Nat) : Nat → List HwAction
  | 0 => []
  | k + 1 => pollLog pin k ++ [HwAction.TimerSampleNow, HwAction.PinRegRead pin]

/-- The log entries of `k` iterations of a timer-only loop. -/
def clockLog : Nat → List HwAction
  | 0 => []
  | k + 1 => clockLog k ++ [HwAction.TimerSampleNow]

/-- Exit test of the level wait of `AdiPulseWait` at poll iteration `j`, in the
words of its contract: the pin sample equals the target polarity, or the timer
sample is at least `timeoutTicks` and the rollover counter at least
`timeoutRollover`. -/
def pulseWaitHit (polarity timeoutTicks timeoutRollover start : Nat) (poll : List (Nat × Nat))
    (j : Nat) : Prop :=
  pinAt poll j = polarity ∨
    (timeoutTicks ≤ clockAt poll j ∧ timeoutRollover ≤ rollAt start poll j)

instance (polarity timeoutTicks timeoutRollover start : Nat) (poll : List (Nat × Nat)) (j : Nat) :
    Decidable (pulseWaitHit polarity timeoutTicks timeoutRollover start poll j) := by
  unfold pulseWaitHit; infer_instance

/-- Exit test of the drive loop of `AdiPulseDrive` at timer sample `j`: the
sample is at least `timerTicks` and the rollover counter at least
`timerRollovers`. -/
def pulseDriveHit (timerTicks timerRollovers : Nat) (clock : List Nat) (j : Nat) : Prop :=
  timerTicks ≤ clock.getD j 0 ∧ timerRollovers ≤ rollCount 0 0 (clock.take (j + 1))

instance (timerTicks timerRollovers : Nat) (clock : List Nat) (j : Nat) :
    Decidable (pulseDriveHit timerTicks timerRollovers clock j) := by
  unfold pulseDriveHit; infer_instance

/-- Exit test of the measurement loop of `AdiMeasureBusyPulse` at poll iteration
`j`: the busy pin sample differs from `busyPolarity`, or the tick timeout is
nonzero and the timer sample has reached it. -/
def busyPulseHit (busyPolarity timeout : Nat) (poll : List (Nat × Nat)) (j : Nat) : Prop :=
  pinAt poll j ≠ busyPolarity ∨ (timeout ≠ 0 ∧ timeout ≤ clockAt poll j)

instance (busyPolarity timeout : Nat) (poll : List (Nat × Nat)) (j : Nat) :
    Decidable (busyPulseHit busyPolarity timeout poll j) := by
  unfold busyPulseHit; infer_instance

/-- Truth value of a `CyBool_t` argument as the driver takes it: any nonzero
word is true (level high). -/
def cyBoolLevel (value : Nat) : Nat := if value ≠ 0 then 1 else 0

/-- Number of descents of a run of timer samples: the samples that are
numerically below their predecessor, `last` being the predecessor of the
first. -/
def descents (last : Nat) : List Nat → Nat
  | [] => 0
  | t :: ts => (if t < last then 1 else 0) + descents t ts

/-! ## The counted polls of `AdiMeasureDR` as a number -/

/-- Body of a timed wait loop with the counted polls tallied in a natural number,
which cannot wrap: the field `timeoutCounter` holds the number of polls counted
so far.  Everything else is as in `drTimedBody`. -/
def drTallyBody (pin : Nat) (miss : Nat → Bool) (s : DRState) (x : Nat × Nat) : DRState :=
  { currentTime := x.1
    pinRegValue := x.2
    timeoutCounter := if miss x.1 then s.timeoutCounter + 1 else s.timeoutCounter
    log := s.log ++ [HwAction.TimerSampleNow, HwAction.PinRegRead pin] }

/-- The wait for one edge with the counted polls tallied: `drEdge` with
`drTallyBody` for `drTimedBody`. -/
def drEdgeTally (pin polarity timeout : Nat) (sampleRollover : Bool)
    (startTime sampleEndTime : Nat) (s : DRState) (e : DREdgeEnv) : Option DRState :=
  if timeout ≠ 0 then
    if sampleRollover then
      drPhases pin polarity (drWindowRoll startTime sampleEndTime)
        (drTallyBody pin (drMissRoll startTime sampleEndTime)) s e
    else
      drPhases pin polarity (drWindowPlain sampleEndTime)
        (drTallyBody pin (drMissPlain sampleEndTime)) s e
  else
    drPhases pin polarity (fun _ => true) (drUntimedBody pin) s e

/-- Body of the sample loop with the counted polls tallied. -/
def drSampleBodyTally (pin polarity timeout : Nat) (sampleRollover : Bool)
    (startTime sampleEndTime : Nat) (i : Nat) (s : DRLoopState) : Option DRLoopState :=
  match s.edges with
  | [] => none
  | e :: es =>
    match drEdgeTally pin polarity timeout sampleRollover startTime sampleEndTime s.vars e with
    | none => none
    | some v =>
      some { vars := { currentTime := e.edgeTime, pinRegValue := v.pinRegValue,
                       timeoutCounter := v.timeoutCounter,
                       log := v.log ++ [HwAction.TimerSampleNow] }
             stores := s.stores ++ [(i, drElapsed startTime e.edgeTime)]
             edges := es }

/-- The number of polls a run of `AdiMeasureDR` on a valid pin counts as misses:
the tally at the end of the sample loop, `none` if the run is still waiting when
the trace ends. -/
def measureDRMisses (b : Board) (USBBuffer : List Nat) (env : MeasureDREnv) : Option Nat :=
  let timeout := AdiMStoTicks b (usbWord32 USBBuffer 7)
  (forFrom (drSampleBodyTally (usbWord16 USBBuffer 0) (usbByte USBBuffer 2) timeout
      (drSampleRollover timeout env.startTime) env.startTime
      (drSampleEndTime timeout env.startTime)) (2 + 1) 0
    { vars := { currentTime := env.startTime, pinRegValue := 0, timeoutCounter := 0,
                log := measureDREntryLog USBBuffer env }
      stores := [], edges := env.edges }).map (fun s => s.vars.timeoutCounter)

/-- The wait-loop variables with the tally reduced to a `uint32_t`. -/
def drWrap (s : DRState) : DRState :=
  { currentTime := s.currentTime, pinRegValue := s.pinRegValue,
    timeoutCounter := u32 s.timeoutCounter, log := s.log }

/-- The sample-loop variables with the tally reduced to a `uint32_t`. -/
def drLoopWrap (s : DRLoopState) : DRLoopState :=
  { vars := drWrap s.vars, stores := s.stores, edges := s.edges }

/-! ## The wait loops of `AdiMeasureDR` sample by sample -/

/-- The pin register sample of poll iteration `j`. -/
def pinRegAt (trace : List (Nat × Nat)) (j : Nat) : Nat := (trace.getD j (0, 0)).2

/-- Poll iteration `j` stops a wait loop: its pin sample shows the awaited level
(high if `awaitHigh`, low otherwise), or its timer sample is outside the
window. -/
def drStops (awaitHigh : Bool) (window : Nat → Bool) (trace : List (Nat × Nat)) (j : Nat) :
    Prop :=
  drHigh (pinRegAt trace j) = awaitHigh ∨ window (clockAt trace j) = false

instance (awaitHigh : Bool) (window : Nat → Bool) (trace : List (Nat × Nat)) (j : Nat) :
    Decidable (drStops awaitHigh window trace j) := by
  unfold drStops; infer_instance

/-- Poll iteration `k` is the first of the trace that stops the wait loop. -/
def drFirstStop (awaitHigh : Bool) (window : Nat → Bool) (trace : List (Nat × Nat)) (k : Nat) :
    Prop :=
  k < trace.length ∧ drStops awaitHigh window trace k
    ∧ ∀ j, j < k → ¬ drStops awaitHigh window trace j

instance (awaitHigh : Bool) (window : Nat → Bool) (trace : List (Nat × Nat)) (k : Nat) :
    Decidable (drFirstStop awaitHigh window trace k) := by
  unfold drFirstStop; infer_instance

/-! ## Theorems -/

/-! ### Generic facts about poll loops -/

theorem stateAfter_zero {σ α : Type} (body : σ → α → σ) (s : σ) (xs : List α) :
    stateAfter body s xs 0 = s := by
  simp [stateAfter]

theorem stateAfter_cons_succ {σ α : Type} (body : σ → α → σ) (s : σ) (x : α) (xs : List α)
    (j : Nat) : stateAfter body s (x :: xs) (j + 1) = stateAfter body (body s x) xs j := by
  simp [stateAfter]

theorem stateAfter_succ {σ α : Type} (body : σ → α → σ) (dflt : α) (xs : List α) :
    ∀ (s : σ) (j : Nat), j < xs.length →
      stateAfter body s xs (j + 1) = body (stateAfter body s xs j) (xs.getD j dflt) := by
  induction xs with
  | nil => intro s j hj; simp at hj
  | cons x xs ih =>
    intro s j hj
    cases j with
    | zero => simp [stateAfter]
    | succ j =>
      rw [stateAfter_cons_succ, stateAfter_cons_succ, ih _ _ (by simpa using hj)]
      simp

theorem pollLoop_eq_some_iff {σ α : Type} (done : σ → Bool) (body : σ → α → σ) (xs : List α) :
    ∀ (s s' : σ) (rest : List α), pollLoop done body s xs = some (s', rest) ↔
      ∃ k, k ≤ xs.length ∧ rest = xs.drop k ∧ s' = stateAfter body s xs k ∧ done s' = true ∧
        ∀ j, j < k → done (stateAfter body s xs j) = false := by
  induction xs with
  | nil =>
    intro s s' rest
    by_cases hd : done s = true
    · simp only [pollLoop, hd, if_true, Option.some.injEq, Prod.mk.injEq]
      constructor
      · rintro ⟨rfl, rfl⟩
        exact ⟨0, le_refl _, rfl, by simp [stateAfter], hd, by intro j hj; omega⟩
      · rintro ⟨k, hk, hrest, hs, _, _⟩
        simp [stateAfter] at hs
        simp at hrest
        exact ⟨hs.symm, hrest.symm⟩
    · simp only [pollLoop, hd]
      constructor
      · intro h; simp at h
      · rintro ⟨k, hk, hrest, hs, hdone, _⟩
        simp [stateAfter] at hs
        rw [hs] at hdone
        exact absurd hdone hd
  | cons x xs ih =>
    intro s s' rest
    by_cases hd : done s = true
    · simp only [pollLoop, hd, if_true, Option.some.injEq, Prod.mk.injEq]
      constructor
      · rintro ⟨rfl, rfl⟩
        exact ⟨0, Nat.zero_le _, rfl, by simp [stateAfter], hd, by intro j hj; omega⟩
      · rintro ⟨k, hk, hrest, hs, _, hfirst⟩
        cases k with
        | zero =>
          simp [stateAfter] at hs
          simp at hrest
          exact ⟨hs.symm, hrest.symm⟩
        | succ k =>
          have := hfirst 0 (Nat.succ_pos k)
          rw [stateAfter_zero] at this
          rw [this] at hd
          exact absurd hd (by simp)
    · have hd' : done s = false := by simpa using hd
      simp only [pollLoop, hd', Bool.false_eq_true, if_false]
      rw [ih]
      constructor
      · rintro ⟨k, hk, hrest, hs, hdone, hfirst⟩
        refine ⟨k + 1, by simpa using hk, by simpa using hrest, ?_, hdone, ?_⟩
        · rw [stateAfter_cons_succ]; exact hs
        · intro j hj
          cases j with
          | zero => rw [stateAfter_zero]; exact hd'
          | succ j => rw [stateAfter_cons_succ]; exact hfirst j (by omega)
      · rintro ⟨k, hk, hrest, hs, hdone, hfirst⟩
        cases k with
        | zero =>
          rw [stateAfter_zero] at hs
          rw [hs, hd'] at hdone
          exact absurd hdone (by simp)
        | succ k =>
          refine ⟨k, by simpa using hk, by simpa using hrest, ?_, hdone, ?_⟩
          · rw [stateAfter_cons_succ] at hs; exact hs
          · intro j hj
            have := hfirst (j + 1) (by omega)
            rw [stateAfter_cons_succ] at this
            exact this

/-- A loop entered with its condition still open leaves at the first iteration
whose state closes it. -/
theorem pollLoop_first_hit {σ α : Type} (done : σ → Bool) (body : σ → α → σ) (s : σ)
    (xs : List α) (k : Nat) (hstart : done s = false) (hk : k < xs.length)
    (hhit : done (stateAfter body s xs (k + 1)) = true)
    (hfirst : ∀ j, j < k → done (stateAfter body s xs (j + 1)) = false) :
    pollLoop done body s xs = some (stateAfter body s xs (k + 1), xs.drop (k + 1)) := by
  rw [pollLoop_eq_some_iff]
  refine ⟨k + 1, hk, rfl, rfl, hhit, ?_⟩
  intro j hj
  cases j with
  | zero => rw [stateAfter_zero]; exact hstart
  | succ j => exact hfirst j (by omega)

/-- Conversely, a loop that returns has run to the first closing iteration. -/
theorem pollLoop_some_first_hit {σ α : Type} (done : σ → Bool) (body : σ → α → σ) (s s' : σ)
    (xs rest : List α) (hstart : done s = false)
    (h : pollLoop done body s xs = some (s', rest)) :
    ∃ k, k < xs.length ∧ rest = xs.drop (k + 1) ∧ s' = stateAfter body s xs (k + 1) ∧
      done (stateAfter body s xs (k + 1)) = true ∧
      ∀ j, j < k → done (stateAfter body s xs (j + 1)) = false := by
  rw [pollLoop_eq_some_iff] at h
  obtain ⟨k, hk, hrest, hs, hdone, hfirst⟩ := h
  cases k with
  | zero =>
    rw [stateAfter_zero] at hs
    rw [hs, hstart] at hdone
    exact absurd hdone (by simp)
  | succ k =>
    exact ⟨k, hk, hrest, hs, hs ▸ hdone, fun j hj => hfirst (j + 1) (by omega)⟩

/-- A loop whose trace never closes the condition is still spinning at its end. -/
theorem pollLoop_none_of_no_hit {σ α : Type} (done : σ → Bool) (body : σ → α → σ) (s : σ)
    (xs : List α) (hopen : ∀ j, j ≤ xs.length → done (stateAfter body s xs j) = false) :
    pollLoop done body s xs = none := by
  cases h : pollLoop done body s xs with
  | none => rfl
  | some r =>
    obtain ⟨s', rest⟩ := r
    rw [pollLoop_eq_some_iff] at h
    obtain ⟨k, hk, _, hs, hdone, _⟩ := h
    rw [hs, hopen k hk] at hdone
    exact absurd hdone (by simp)

/-! ### The loops read sample by sample -/

theorem pollLog_length_free (pin : Nat) (l : List HwAction) (k : Nat) :
    l ++ pollLog pin (k + 1) = (l ++ pollLog pin k) ++
      [HwAction.TimerSampleNow, HwAction.PinRegRead pin] := by
  simp [pollLog]

theorem pulseWait_roll (pin polarity tt tr : Nat) (xs : List (Nat × Nat)) :
    ∀ (s : PollState) (j : Nat),
      (stateAfter (pulseWaitBody pin polarity tt tr) s xs j).rollOverCount
        = rollCount s.currentTime s.rollOverCount ((xs.take j).map Prod.fst) := by
  induction xs with
  | nil => intro s j; simp [stateAfter, rollCount]
  | cons x xs ih =>
    intro s j
    cases j with
    | zero => simp [stateAfter, rollCount]
    | succ j =>
      rw [stateAfter_cons_succ, ih]
      simp [rollCount, pulseWaitBody]

theorem pulseWait_log (pin polarity tt tr : Nat) (xs : List (Nat × Nat)) (s : PollState) :
    ∀ j, j ≤ xs.length →
      (stateAfter (pulseWaitBody pin polarity tt tr) s xs j).log = s.log ++ pollLog pin j := by
  intro j
  induction j with
  | zero => intro _; simp [stateAfter, pollLog]
  | succ j ih =>
    intro hj
    rw [stateAfter_succ _ (0, 0) _ _ _ (by omega), pollLog_length_free, ← ih (by omega)]
    rfl

theorem pulseWait_cur (pin polarity tt tr : Nat) (xs : List (Nat × Nat)) (s : PollState)
    (j : Nat) (hj : j < xs.length) :
    (stateAfter (pulseWaitBody pin polarity tt tr) s xs (j + 1)).currentTime = clockAt xs j := by
  rw [stateAfter_succ _ (0, 0) _ _ _ hj]
  rfl

theorem pulseWait_exit_iff (pin polarity tt tr : Nat) (xs : List (Nat × Nat)) (s : PollState)
    (hs : s.rollOverCount = 0) (j : Nat) (hj : j < xs.length) :
    (stateAfter (pulseWaitBody pin polarity tt tr) s xs (j + 1)).exitCondition = true ↔
      pulseWaitHit polarity tt tr s.currentTime xs j := by
  have hroll := pulseWait_roll pin polarity tt tr xs s (j + 1)
  rw [hs] at hroll
  rw [stateAfter_succ _ (0, 0) _ _ _ hj] at hroll ⊢
  simp only [pulseWaitBody] at hroll ⊢
  rw [hroll]
  simp [pulseWaitHit, pinAt, clockAt, rollAt]

theorem pulseDrive_roll (tt tr : Nat) (xs : List Nat) :
    ∀ (s : PollState) (j : Nat),
      (stateAfter (pulseDriveBody tt tr) s xs j).rollOverCount
        = rollCount s.currentTime s.rollOverCount (xs.take j) := by
  induction xs with
  | nil => intro s j; simp [stateAfter, rollCount]
  | cons x xs ih =>
    intro s j
    cases j with
    | zero => simp [stateAfter, rollCount]
    | succ j =>
      rw [stateAfter_cons_succ, ih]
      simp [rollCount, pulseDriveBody]

theorem pulseDrive_log (tt tr : Nat) (xs : List Nat) (s : PollState) :
    ∀ j, j ≤ xs.length →
      (stateAfter (pulseDriveBody tt tr) s xs j).log = s.log ++ clockLog j := by
  intro j
  induction j with
  | zero => intro _; simp [stateAfter, clockLog]
  | succ j ih =>
    intro hj
    rw [stateAfter_succ _ 0 _ _ _ (by omega)]
    simp only [pulseDriveBody, clockLog]
    rw [ih (by omega), List.append_assoc]

theorem pulseDrive_cur (tt tr : Nat) (xs : List Nat) (s : PollState) (j : Nat)
    (hj : j < xs.length) :
    (stateAfter (pulseDriveBody tt tr) s xs (j + 1)).currentTime = xs.getD j 0 := by
  rw [stateAfter_succ _ 0 _ _ _ hj]
  rfl

theorem pulseDrive_exit_iff (tt tr : Nat) (xs : List Nat) (s : PollState)
    (hc : s.currentTime = 0) (hs : s.rollOverCount = 0) (j : Nat) (hj : j < xs.length) :
    (stateAfter (pulseDriveBody tt tr) s xs (j + 1)).exitCondition = true ↔
      pulseDriveHit tt tr xs j := by
  have hroll := pulseDrive_roll tt tr xs s (j + 1)
  rw [hs, hc] at hroll
  rw [stateAfter_succ _ 0 _ _ _ hj] at hroll ⊢
  simp only [pulseDriveBody] at hroll ⊢
  rw [hroll]
  simp [pulseDriveHit]

theorem busyPulse_roll (busyPin busyPolarity timeout triggerPin triggerPolarity driveTime : Nat)
    (xs : List (Nat × Nat)) :
    ∀ (s : BusyState) (j : Nat),
      (stateAfter (busyPulseBody busyPin busyPolarity timeout triggerPin triggerPolarity driveTime)
        s xs j).rollOverCount
        = rollCount s.currentTime s.rollOverCount ((xs.take j).map Prod.fst) := by
  induction xs with
  | nil => intro s j; simp [stateAfter, rollCount]
  | cons x xs ih =>
    intro s j
    cases j with
    | zero => simp [stateAfter, rollCount]
    | succ j =>
      rw [stateAfter_cons_succ, ih]
      simp [rollCount, busyPulseBody]

theorem busyPulse_cur (busyPin busyPolarity timeout triggerPin triggerPolarity driveTime : Nat)
    (xs : List (Nat × Nat)) (s : BusyState) (j : Nat) (hj : j < xs.length) :
    (stateAfter (busyPulseBody busyPin busyPolarity timeout triggerPin triggerPolarity driveTime)
      s xs (j + 1)).currentTime = clockAt xs j := by
  rw [stateAfter_succ _ (0, 0) _ _ _ hj]
  rfl

theorem busyPulse_exit_iff (busyPin busyPolarity timeout triggerPin triggerPolarity driveTime : Nat)
    (xs : List (Nat × Nat)) (s : BusyState) (j : Nat) (hj : j < xs.length) :
    (stateAfter (busyPulseBody busyPin busyPolarity timeout triggerPin triggerPolarity driveTime)
      s xs (j + 1)).exitCondition = true ↔ busyPulseHit busyPolarity timeout xs j := by
  rw [stateAfter_succ _ (0, 0) _ _ _ hj]
  simp only [busyPulseBody, busyPulseHit, pinAt, clockAt]
  by_cases ht : timeout = 0
  · simp [ht]
  · simp [ht]

/-! ### Byte encoding -/

theorem and_shiftRight_distrib (x m i : Nat) : (x &&& m) >>> i = (x >>> i) &&& (m >>> i) := by
  apply Nat.eq_of_testBit_eq
  intro j
  simp

theorem u8_and_byte0 (x : Nat) : u8 (x &&& 0xFF) = x % 256 := by
  have h : x &&& 0xFF = x % 2 ^ 8 := Nat.and_pow_two_sub_one_eq_mod x 8
  rw [h]; simp [u8]

theorem u8_and_byte1 (x : Nat) : u8 ((x &&& 0xFF00) >>> 8) = x / 256 % 256 := by
  have h : (x &&& 0xFF00) >>> 8 = (x >>> 8) &&& 0xFF := by
    rw [and_shiftRight_distrib]; rfl
  have h2 : (x >>> 8) &&& 0xFF = (x >>> 8) % 2 ^ 8 := Nat.and_pow_two_sub_one_eq_mod _ 8
  rw [h, h2, Nat.shiftRight_eq_div_pow]; simp [u8]

theorem u8_and_byte2 (x : Nat) : u8 ((x &&& 0xFF0000) >>> 16) = x / 65536 % 256 := by
  have h : (x &&& 0xFF0000) >>> 16 = (x >>> 16) &&& 0xFF := by
    rw [and_shiftRight_distrib]; rfl
  have h2 : (x >>> 16) &&& 0xFF = (x >>> 16) % 2 ^ 8 := Nat.and_pow_two_sub_one_eq_mod _ 8
  rw [h, h2, Nat.shiftRight_eq_div_pow]; simp [u8]

theorem u8_and_byte3 (x : Nat) : u8 ((x &&& 0xFF000000) >>> 24) = x / 16777216 % 256 := by
  have h : (x &&& 0xFF000000) >>> 24 = (x >>> 24) &&& 0xFF := by
    rw [and_shiftRight_distrib]; rfl
  have h2 : (x >>> 24) &&& 0xFF = (x >>> 24) % 2 ^ 8 := Nat.and_pow_two_sub_one_eq_mod _ 8
  rw [h, h2, Nat.shiftRight_eq_div_pow]; simp [u8]

theorem storeLE32_eq (x : Nat) :
    storeLE32 x = [x % 256, x / 256 % 256, x / 65536 % 256, x / 16777216 % 256] := by
  simp only [storeLE32, u8_and_byte0, u8_and_byte1, u8_and_byte2, u8_and_byte3]

theorem readLE32_storeLE32 (x : Nat) (hx : x < 2 ^ 32) : readLE32 (storeLE32 x) = x := by
  rw [storeLE32_eq]
  simp only [readLE32, List.getD_cons_zero, List.getD_cons_succ]
  omega

/-! ### Pin validation -/

theorem validateInputPin_readable (pin g1 g2 : Nat)
    (h : g1 = CY_U3P_SUCCESS ∨ g2 = CY_U3P_SUCCESS) :
    (validateInputPin pin g1 g2).1 = CY_U3P_SUCCESS ∧ (validateInputPin pin g1 g2).2.1 = true := by
  unfold validateInputPin
  by_cases h1 : g1 = CY_U3P_SUCCESS
  · simp [h1]
  · have h2 : g2 = CY_U3P_SUCCESS := by
      cases h with
      | inl h => exact absurd h h1
      | inr h => exact h
    simp [h1, h2]

theorem validateInputPin_unreadable (pin g1 g2 : Nat)
    (h1 : g1 ≠ CY_U3P_SUCCESS) (h2 : g2 ≠ CY_U3P_SUCCESS) :
    validateInputPin pin g1 g2 = (g2, false,
      [HwAction.GpioSimpleGetValue pin, HwAction.GpioSetSimpleConfig pin inputConfig,
        HwAction.GpioSimpleGetValue pin]) := by
  unfold validateInputPin
  simp [h1, h2]

/-! ### Claims on `AdiPulseWait` -/

/-- C1, counterexample: a request for pin 5, target polarity 1, no delay and the
timeout pair (0, 0) on a readable pin.  The first poll reads timer 7 and a low
pin; the level wait ends there, with the second sample unread, and the routine
reports 7 elapsed ticks, although the pin sample of that iteration is not the
target polarity. -/
theorem pulseWait_zero_timeout_exits_on_other_level :
    pulseWaitLoop 5 1 0 0 0 [] [(7, 0), (9, 2)]
      = some ({ currentTime := 7, lastTime := 0, rollOverCount := 0, exitCondition := true,
                log := [HwAction.TimerSampleNow, HwAction.PinRegRead 5] }, [(9, 2)])
    ∧ pinAt [(7, 0), (9, 2)] 0 ≠ 1
    ∧ (AdiPulseWait { MS_TO_TICKS_MULT := 10078, ADI_MICROSECONDS_SLEEP_OFFSET := 0, StallTime := 0 }
        [5, 0, 1, 0, 0, 0, 0, 0, 0, 0, 0, 0, 0, 0, 0]
        { getValue1 := 0, getValue2 := 0, uninitRollOverCount := 0, delayClock := [],
          poll := [(7, 0), (9, 2)] }).map (fun o => o.BulkBuffer)
      = some [0, 0, 0, 0, 7, 0, 0, 0, 0, 0, 0, 0] := by
  decide

/-- C1, amended: in `AdiPulseWait` on a readable pin the timeout pair (0, 0) is
not an infinite timeout.  The timeout test `currentTime >= 0 && rollOverCount >= 0`
holds at every sample, so whatever the clock and pin samples are, the level wait
ends at its first poll iteration, whether or not that pin sample equals the
target polarity, and the result carries that first timer sample. -/
theorem AdiPulseWait_zero_timeout_first_poll (b : Board) (USBBuffer : List Nat)
    (env : PulseWaitEnv) (d : ClockState) (drest : List Nat) (x : Nat × Nat)
    (xs : List (Nat × Nat))
    (hread : env.getValue1 = CY_U3P_SUCCESS ∨ env.getValue2 = CY_U3P_SUCCESS)
    (hticks : usbWord32 USBBuffer 7 = 0) (hroll : usbWord32 USBBuffer 11 = 0)
    (hdelay : pulseWaitDelayPhase b USBBuffer env = some (d, drest))
    (hpoll : env.poll = x :: xs) :
    (∃ s, pulseWaitLoop (usbWord16 USBBuffer 0) (usbByte USBBuffer 2) (usbWord32 USBBuffer 7)
        (usbWord32 USBBuffer 11) d.currentTime d.log env.poll = some (s, xs)
      ∧ s.currentTime = x.1
      ∧ s.log = d.log ++ [HwAction.TimerSampleNow, HwAction.PinRegRead (usbWord16 USBBuffer 0)])
    ∧ AdiPulseWait b USBBuffer env
      = some (pulseWaitSend CY_U3P_SUCCESS x.1 (if x.1 < d.currentTime then 1 else 0)
          (d.log ++ [HwAction.TimerSampleNow, HwAction.PinRegRead (usbWord16 USBBuffer 0)])) := by
  have hv := validateInputPin_readable (usbWord16 USBBuffer 0) env.getValue1 env.getValue2 hread
  have hloop : pulseWaitLoop (usbWord16 USBBuffer 0) (usbByte USBBuffer 2) (usbWord32 USBBuffer 7)
      (usbWord32 USBBuffer 11) d.currentTime d.log env.poll
      = some (pulseWaitBody (usbWord16 USBBuffer 0) (usbByte USBBuffer 2) 0 0
          { currentTime := d.currentTime, lastTime := 0, rollOverCount := 0,
            exitCondition := false, log := d.log } x, xs) := by
    rw [hpoll, hticks, hroll]
    cases xs <;> simp [pulseWaitLoop, pollLoop, pulseWaitBody]
  refine ⟨⟨_, hloop, rfl, rfl⟩, ?_⟩
  simp only [AdiPulseWait, pulseWaitEntry, hv.1, hv.2, if_true, hdelay, hloop]
  simp [pulseWaitBody, u32]

/-- C1, amended, at a concrete request: timeout pair (0, 0), no delay, first
poll reads timer 7 with the pin low while the target polarity is 1. -/
theorem AdiPulseWait_zero_timeout_first_poll_witness :
    AdiPulseWait { MS_TO_TICKS_MULT := 10078, ADI_MICROSECONDS_SLEEP_OFFSET := 0, StallTime := 0 }
        [5, 0, 1, 0, 0, 0, 0, 0, 0, 0, 0, 0, 0, 0, 0]
        { getValue1 := 0, getValue2 := 0, uninitRollOverCount := 0, delayClock := [],
          poll := [(7, 0), (9, 2)] }
      = some (pulseWaitSend CY_U3P_SUCCESS 7 0
          ([HwAction.TimerIntrOff, HwAction.TimerPeriodMax, HwAction.TimerZero,
            HwAction.GpioSimpleGetValue 5] ++ [HwAction.TimerSampleNow, HwAction.PinRegRead 5])) :=
  (AdiPulseWait_zero_timeout_first_poll
    { MS_TO_TICKS_MULT := 10078, ADI_MICROSECONDS_SLEEP_OFFSET := 0, StallTime := 0 }
    [5, 0, 1, 0, 0, 0, 0, 0, 0, 0, 0, 0, 0, 0, 0]
    { getValue1 := 0, getValue2 := 0, uninitRollOverCount := 0, delayClock := [],
      poll := [(7, 0), (9, 2)] }
    { currentTime := 0, log := [HwAction.TimerIntrOff, HwAction.TimerPeriodMax,
        HwAction.TimerZero, HwAction.GpioSimpleGetValue 5] }
    [] (7, 0) [(9, 2)] (Or.inl rfl) (by decide) (by decide) (by decide) rfl).2

/-- C2: in `AdiPulseWait` on a readable pin, whatever the timeout pair (the
finite ones included), if poll iteration `k` is the first at which the pin
sample equals the target polarity or the timer sample is at least `timeoutTicks`
with the rollover counter at least `timeoutRollover`, then the level wait ends
exactly there, having read `k + 1` samples and no more, and the result record
carries the timer sample and the rollover counter of that iteration, whichever
of the two conditions held. -/
theorem AdiPulseWait_exits_at_first_hit (b : Board) (USBBuffer : List Nat) (env : PulseWaitEnv)
    (d : ClockState) (drest : List Nat) (k : Nat)
    (hread : env.getValue1 = CY_U3P_SUCCESS ∨ env.getValue2 = CY_U3P_SUCCESS)
    (hdelay : pulseWaitDelayPhase b USBBuffer env = some (d, drest))
    (hk : k < env.poll.length)
    (hhit : pulseWaitHit (usbByte USBBuffer 2) (usbWord32 USBBuffer 7) (usbWord32 USBBuffer 11)
      d.currentTime env.poll k)
    (hfirst : ∀ j, j < k → ¬ pulseWaitHit (usbByte USBBuffer 2) (usbWord32 USBBuffer 7)
      (usbWord32 USBBuffer 11) d.currentTime env.poll j) :
    (∃ s, pulseWaitLoop (usbWord16 USBBuffer 0) (usbByte USBBuffer 2) (usbWord32 USBBuffer 7)
        (usbWord32 USBBuffer 11) d.currentTime d.log env.poll = some (s, env.poll.drop (k + 1))
      ∧ s.currentTime = clockAt env.poll k
      ∧ s.rollOverCount = rollAt d.currentTime env.poll k
      ∧ s.log = d.log ++ pollLog (usbWord16 USBBuffer 0) (k + 1))
    ∧ (∃ o, AdiPulseWait b USBBuffer env = some o
      ∧ o.BulkBuffer = storeLE32 CY_U3P_SUCCESS ++ storeLE32 (clockAt env.poll k)
          ++ storeLE32 (rollAt d.currentTime env.poll k)
      ∧ o.count = 12
      ∧ o.log = d.log ++ pollLog (usbWord16 USBBuffer 0) (k + 1) ++ [HwAction.DmaSend 12]) := by
  have hv := validateInputPin_readable (usbWord16 USBBuffer 0) env.getValue1 env.getValue2 hread
  have hloop := pollLoop_first_hit (fun s : PollState => s.exitCondition)
    (pulseWaitBody (usbWord16 USBBuffer 0) (usbByte USBBuffer 2) (usbWord32 USBBuffer 7)
      (usbWord32 USBBuffer 11))
    { currentTime := d.currentTime, lastTime := 0, rollOverCount := 0, exitCondition := false,
      log := d.log } env.poll k rfl hk
    ((pulseWait_exit_iff _ _ _ _ _ _ rfl k hk).2 hhit)
    (fun j hj => by
      have hn := hfirst j hj
      rw [← pulseWait_exit_iff (usbWord16 USBBuffer 0) _ _ _ env.poll
        { currentTime := d.currentTime, lastTime := 0, rollOverCount := 0,
          exitCondition := false, log := d.log } rfl j (by omega)] at hn
      simpa using hn)
  have hcur := pulseWait_cur (usbWord16 USBBuffer 0) (usbByte USBBuffer 2)
    (usbWord32 USBBuffer 7) (usbWord32 USBBuffer 11) env.poll
    { currentTime := d.currentTime, lastTime := 0, rollOverCount := 0, exitCondition := false,
      log := d.log } k hk
  have hroll := pulseWait_roll (usbWord16 USBBuffer 0) (usbByte USBBuffer 2)
    (usbWord32 USBBuffer 7) (usbWord32 USBBuffer 11) env.poll
    { currentTime := d.currentTime, lastTime := 0, rollOverCount := 0, exitCondition := false,
      log := d.log } (k + 1)
  have hlog := pulseWait_log (usbWord16 USBBuffer 0) (usbByte USBBuffer 2)
    (usbWord32 USBBuffer 7) (usbWord32 USBBuffer 11) env.poll
    { currentTime := d.currentTime, lastTime := 0, rollOverCount := 0, exitCondition := false,
      log := d.log } (k + 1) hk
  have hroll' : (stateAfter (pulseWaitBody (usbWord16 USBBuffer 0) (usbByte USBBuffer 2)
      (usbWord32 USBBuffer 7) (usbWord32 USBBuffer 11))
      { currentTime := d.currentTime, lastTime := 0, rollOverCount := 0, exitCondition := false,
        log := d.log } env.poll (k + 1)).rollOverCount = rollAt d.currentTime env.poll k := hroll
  have hlog' : (stateAfter (pulseWaitBody (usbWord16 USBBuffer 0) (usbByte USBBuffer 2)
      (usbWord32 USBBuffer 7) (usbWord32 USBBuffer 11))
      { currentTime := d.currentTime, lastTime := 0, rollOverCount := 0, exitCondition := false,
        log := d.log } env.poll (k + 1)).log
      = d.log ++ pollLog (usbWord16 USBBuffer 0) (k + 1) := hlog
  have hfun : AdiPulseWait b USBBuffer env = some (pulseWaitSend CY_U3P_SUCCESS
      (clockAt env.poll k) (rollAt d.currentTime env.poll k)
      (d.log ++ pollLog (usbWord16 USBBuffer 0) (k + 1))) := by
    simp only [AdiPulseWait, pulseWaitEntry, hv.1, hv.2, if_true, hdelay]
    unfold pulseWaitLoop
    rw [hloop]
    simp only [hcur, hroll', hlog']
  exact ⟨⟨_, hloop, hcur, hroll', hlog'⟩, _, hfun, rfl, rfl, rfl⟩

/-- C2 at a concrete request: pin 5, target polarity 1, no delay, timeout pair
(1000, 0).  The pin stays low; the third poll is the first whose timer sample
reaches 1000, and the record carries that sample (1200 = 0x04B0). -/
theorem AdiPulseWait_exits_at_first_hit_witness :
    ∃ o, AdiPulseWait { MS_TO_TICKS_MULT := 10078, ADI_MICROSECONDS_SLEEP_OFFSET := 0, StallTime := 0 }
        [5, 0, 1, 0, 0, 0, 0, 0xE8, 3, 0, 0, 0, 0, 0, 0]
        { getValue1 := 0, getValue2 := 0, uninitRollOverCount := 0, delayClock := [],
          poll := [(400, 0), (800, 0), (1200, 0), (1600, 2)] } = some o
      ∧ o.BulkBuffer = storeLE32 CY_U3P_SUCCESS
          ++ storeLE32 (clockAt [(400, 0), (800, 0), (1200, 0), (1600, 2)] 2)
          ++ storeLE32 (rollAt 0 [(400, 0), (800, 0), (1200, 0), (1600, 2)] 2)
      ∧ o.count = 12
      ∧ o.log = [HwAction.TimerIntrOff, HwAction.TimerPeriodMax, HwAction.TimerZero,
          HwAction.GpioSimpleGetValue 5] ++ pollLog 5 3 ++ [HwAction.DmaSend 12] :=
  (AdiPulseWait_exits_at_first_hit
    { MS_TO_TICKS_MULT := 10078, ADI_MICROSECONDS_SLEEP_OFFSET := 0, StallTime := 0 }
    [5, 0, 1, 0, 0, 0, 0, 0xE8, 3, 0, 0, 0, 0, 0, 0]
    { getValue1 := 0, getValue2 := 0, uninitRollOverCount := 0, delayClock := [],
      poll := [(400, 0), (800, 0), (1200, 0), (1600, 2)] }
    { currentTime := 0, log := [HwAction.TimerIntrOff, HwAction.TimerPeriodMax,
        HwAction.TimerZero, HwAction.GpioSimpleGetValue 5] }
    [] 2 (Or.inl rfl) (by decide) (by decide) (by decide) (by decide)).2

/-- C3, the code at a failing input: pin 5, target polarity 1, no delay, timeout
pair (0xFFFFFFFB, 0), pin low throughout.  The timer reads 0xFFFFFFF6, then
wraps once and reads 3: at that second poll the elapsed time `1 * 2^32 + 3` has
passed the timeout `0 * 2^32 + 0xFFFFFFFB` (it had not at the first poll), yet
the exit test `currentTime >= timeoutTicks && rollOverCount >= timeoutRollover`
fails there and at the later samples 4000 and 0xFFFFFFFA, and the routine is
still polling when the trace ends. -/
theorem AdiPulseWait_misses_timeout_after_wrap :
    AdiPulseWait { MS_TO_TICKS_MULT := 10078, ADI_MICROSECONDS_SLEEP_OFFSET := 0, StallTime := 0 }
        [5, 0, 1, 0, 0, 0, 0, 0xFB, 0xFF, 0xFF, 0xFF, 0, 0, 0, 0]
        { getValue1 := 0, getValue2 := 0, uninitRollOverCount := 0, delayClock := [],
          poll := [(0xFFFFFFF6, 0), (3, 0), (4000, 0), (0xFFFFFFFA, 0)] } = none
    ∧ usbWord32 [5, 0, 1, 0, 0, 0, 0, 0xFB, 0xFF, 0xFF, 0xFF, 0, 0, 0, 0] 7 = 0xFFFFFFFB
    ∧ usbWord32 [5, 0, 1, 0, 0, 0, 0, 0xFB, 0xFF, 0xFF, 0xFF, 0, 0, 0, 0] 11 = 0
    ∧ rollAt 0 [(0xFFFFFFF6, 0), (3, 0), (4000, 0), (0xFFFFFFFA, 0)] 0 * 2 ^ 32
        + clockAt [(0xFFFFFFF6, 0), (3, 0), (4000, 0), (0xFFFFFFFA, 0)] 0 < 0 * 2 ^ 32 + 0xFFFFFFFB
    ∧ 0 * 2 ^ 32 + 0xFFFFFFFB ≤ rollAt 0 [(0xFFFFFFF6, 0), (3, 0), (4000, 0), (0xFFFFFFFA, 0)] 1 * 2 ^ 32
        + clockAt [(0xFFFFFFF6, 0), (3, 0), (4000, 0), (0xFFFFFFFA, 0)] 1
    ∧ (stateAfter (pulseWaitBody 5 1 0xFFFFFFFB 0)
        { currentTime := 0, lastTime := 0, rollOverCount := 0, exitCondition := false, log := [] }
        [(0xFFFFFFF6, 0), (3, 0), (4000, 0), (0xFFFFFFFA, 0)] 2).exitCondition = false := by
  decide

/-! ### Claims on `AdiPulseDrive` -/

/-- C4: in `AdiPulseDrive`, once the pin is configured as an output (at the
first attempt or by the recovery), if timer sample `k` is the first at which
the sample is at least `timerTicks` and the rollover counter at least
`timerRollovers`, the drive loop ends exactly there, having taken `k + 1`
samples and no more, and the routine goes on to its end.  With
`timerRollovers = 0` the final sample is at least `timerTicks` and every earlier
sample is below it, on every trace, those without a rollover included. -/
theorem AdiPulseDrive_exits_at_first_hit (USBBuffer : List Nat) (env : PulseDriveEnv) (k : Nat)
    (hcfg : env.setConfig1 = CY_U3P_SUCCESS ∨ env.setConfig2 = CY_U3P_SUCCESS)
    (hk : k < env.clock.length)
    (hhit : pulseDriveHit (usbWord32 USBBuffer 3) (usbWord32 USBBuffer 7) env.clock k)
    (hfirst : ∀ j, j < k →
      ¬ pulseDriveHit (usbWord32 USBBuffer 3) (usbWord32 USBBuffer 7) env.clock j) :
    (∃ s, pulseDriveLoop (usbWord32 USBBuffer 3) (usbWord32 USBBuffer 7)
        (pulseDriveEntryLog USBBuffer env) env.clock = some (s, env.clock.drop (k + 1))
      ∧ s.currentTime = env.clock.getD k 0
      ∧ s.rollOverCount = rollCount 0 0 (env.clock.take (k + 1))
      ∧ s.log = pulseDriveEntryLog USBBuffer env ++ clockLog (k + 1))
    ∧ (∃ o, AdiPulseDrive USBBuffer env = some o
      ∧ o.log = pulseDriveEntryLog USBBuffer env ++ clockLog (k + 1)
          ++ [HwAction.GpioSetValue (usbWord16 USBBuffer 0) (logNot (usbByte USBBuffer 2)),
            HwAction.DeviceGpioOverride (usbWord16 USBBuffer 0) true,
            HwAction.GpioDisable (usbWord16 USBBuffer 0),
            HwAction.GpioSetSimpleConfig (usbWord16 USBBuffer 0) inputConfig])
    ∧ (usbWord32 USBBuffer 7 = 0 →
        usbWord32 USBBuffer 3 ≤ env.clock.getD k 0
        ∧ ∀ j, j < k → env.clock.getD j 0 < usbWord32 USBBuffer 3) := by
  have hloop := pollLoop_first_hit (fun s : PollState => s.exitCondition)
    (pulseDriveBody (usbWord32 USBBuffer 3) (usbWord32 USBBuffer 7))
    { currentTime := 0, lastTime := 0, rollOverCount := 0, exitCondition := false,
      log := pulseDriveEntryLog USBBuffer env } env.clock k rfl hk
    ((pulseDrive_exit_iff _ _ _ _ rfl rfl k hk).2 hhit)
    (fun j hj => by
      have hn := hfirst j hj
      rw [← pulseDrive_exit_iff _ _ env.clock
        { currentTime := 0, lastTime := 0, rollOverCount := 0, exitCondition := false,
          log := pulseDriveEntryLog USBBuffer env } rfl rfl j (by omega)] at hn
      simpa using hn)
  have hcur := pulseDrive_cur (usbWord32 USBBuffer 3) (usbWord32 USBBuffer 7) env.clock
    { currentTime := 0, lastTime := 0, rollOverCount := 0, exitCondition := false,
      log := pulseDriveEntryLog USBBuffer env } k hk
  have hroll : (stateAfter (pulseDriveBody (usbWord32 USBBuffer 3) (usbWord32 USBBuffer 7))
      { currentTime := 0, lastTime := 0, rollOverCount := 0, exitCondition := false,
        log := pulseDriveEntryLog USBBuffer env } env.clock (k + 1)).rollOverCount
      = rollCount 0 0 (env.clock.take (k + 1)) :=
    pulseDrive_roll (usbWord32 USBBuffer 3) (usbWord32 USBBuffer 7) env.clock _ (k + 1)
  have hlog : (stateAfter (pulseDriveBody (usbWord32 USBBuffer 3) (usbWord32 USBBuffer 7))
      { currentTime := 0, lastTime := 0, rollOverCount := 0, exitCondition := false,
        log := pulseDriveEntryLog USBBuffer env } env.clock (k + 1)).log
      = pulseDriveEntryLog USBBuffer env ++ clockLog (k + 1) :=
    pulseDrive_log (usbWord32 USBBuffer 3) (usbWord32 USBBuffer 7) env.clock _ (k + 1) hk
  have hnot : ¬ (env.setConfig1 ≠ CY_U3P_SUCCESS ∧ env.setConfig2 ≠ CY_U3P_SUCCESS) := by
    rintro ⟨h1, h2⟩
    cases hcfg with
    | inl h => exact h1 h
    | inr h => exact h2 h
  have hfun : AdiPulseDrive USBBuffer env = some
      { status := env.setConfigRestore
        log := pulseDriveEntryLog USBBuffer env ++ clockLog (k + 1)
          ++ [HwAction.GpioSetValue (usbWord16 USBBuffer 0) (logNot (usbByte USBBuffer 2)),
            HwAction.DeviceGpioOverride (usbWord16 USBBuffer 0) true,
            HwAction.GpioDisable (usbWord16 USBBuffer 0),
            HwAction.GpioSetSimpleConfig (usbWord16 USBBuffer 0) inputConfig]
        BulkBuffer := [], count := 0 } := by
    simp only [AdiPulseDrive, hnot, if_false]
    unfold pulseDriveLoop
    rw [hloop]
    simp only [hlog]
  refine ⟨⟨_, hloop, hcur, hroll, hlog⟩, ⟨_, hfun, rfl⟩, ?_⟩
  intro hz
  rw [hz] at hhit hfirst
  refine ⟨hhit.1, fun j hj => ?_⟩
  have hn := hfirst j hj
  simp only [pulseDriveHit, Nat.zero_le, and_true, not_le] at hn
  exact hn

/-- C4 at a concrete request: pin 5, polarity 1, `timerTicks = 1000`,
`timerRollovers = 0`, on a trace without rollover; the third sample is the first
to reach 1000. -/
theorem AdiPulseDrive_exits_at_first_hit_witness :
    (∃ o, AdiPulseDrive [5, 0, 1, 0xE8, 3, 0, 0, 0, 0, 0, 0]
        { setConfig1 := 0, setConfig2 := 0, clock := [400, 800, 1200, 1600],
          setConfigRestore := 0 } = some o
      ∧ o.log = pulseDriveEntryLog [5, 0, 1, 0xE8, 3, 0, 0, 0, 0, 0, 0]
            { setConfig1 := 0, setConfig2 := 0, clock := [400, 800, 1200, 1600],
              setConfigRestore := 0 } ++ clockLog 3
          ++ [HwAction.GpioSetValue 5 0, HwAction.DeviceGpioOverride 5 true,
            HwAction.GpioDisable 5, HwAction.GpioSetSimpleConfig 5 inputConfig])
    ∧ (1000 ≤ [400, 800, 1200, 1600].getD 2 0
      ∧ ∀ j, j < 2 → [400, 800, 1200, 1600].getD j 0 < 1000) :=
  have h := AdiPulseDrive_exits_at_first_hit [5, 0, 1, 0xE8, 3, 0, 0, 0, 0, 0, 0]
    { setConfig1 := 0, setConfig2 := 0, clock := [400, 800, 1200, 1600], setConfigRestore := 0 }
    2 (Or.inl rfl) (by decide) (by decide) (by decide)
  ⟨h.2.1, h.2.2 (by decide)⟩

/-! ### Claims on `AdiMeasureBusyPulse` -/

/-- C5: in `AdiMeasureBusyPulse`, if the busy pin cannot be read at first and
still cannot be read after it is reconfigured as an input, the routine makes
exactly three driver calls, the two reads of the busy pin and its input
configuration in between, and then hands over the result: no SPI word, no
override, disable, configuration or write of a trigger pin, no timer or pin
poll.  The record has 16 bytes; its status is that of the failed second read,
which is not success, and its elapsed ticks are `0xFFFFFFFF`. -/
theorem AdiMeasureBusyPulse_unreadable_pin (b : Board) (USBBuffer : List Nat)
    (env : BusyPulseEnv)
    (h1 : env.getValue1 ≠ CY_U3P_SUCCESS) (h2 : env.getValue2 ≠ CY_U3P_SUCCESS)
    (hword : env.getValue2 < 2 ^ 32) :
    ∃ o, AdiMeasureBusyPulse b USBBuffer env = some o
      ∧ o.log = [HwAction.GpioSimpleGetValue (usbWord16 USBBuffer 0),
          HwAction.GpioSetSimpleConfig (usbWord16 USBBuffer 0) inputConfig,
          HwAction.GpioSimpleGetValue (usbWord16 USBBuffer 0), HwAction.DmaSend 16]
      ∧ o.status = env.getValue2 ∧ o.status ≠ CY_U3P_SUCCESS
      ∧ o.count = 16 ∧ o.BulkBuffer.length = 16
      ∧ readLE32 (o.BulkBuffer.take 4) = env.getValue2
      ∧ readLE32 ((o.BulkBuffer.drop 4).take 4) = 0xFFFFFFFF := by
  have hv := validateInputPin_unreadable (usbWord16 USBBuffer 0) env.getValue1 env.getValue2 h1 h2
  refine ⟨busyPulseFinish b env.getValue2 0xFFFF 0xFFFFFFFF env.uninitRollOverCount
    [HwAction.GpioSimpleGetValue (usbWord16 USBBuffer 0),
      HwAction.GpioSetSimpleConfig (usbWord16 USBBuffer 0) inputConfig,
      HwAction.GpioSimpleGetValue (usbWord16 USBBuffer 0)] env.setConfigRestore, ?_, ?_, ?_, ?_,
    ?_, ?_, ?_, ?_⟩
  · simp only [AdiMeasureBusyPulse, hv]
    simp
  · simp [busyPulseFinish]
  · simp [busyPulseFinish]
  · simpa [busyPulseFinish] using h2
  · simp [busyPulseFinish]
  · simp [busyPulseFinish, storeLE32]
  · have hs := readLE32_storeLE32 env.getValue2 hword
    simp only [busyPulseFinish, storeLE32_eq] at hs ⊢
    simpa using hs
  · simp only [busyPulseFinish, storeLE32_eq]
    simp [readLE32]

/-- C5 at a concrete request: both reads of busy pin 4 fail with status 0x45. -/
theorem AdiMeasureBusyPulse_unreadable_pin_witness :
    ∃ o, AdiMeasureBusyPulse { MS_TO_TICKS_MULT := 10078, ADI_MICROSECONDS_SLEEP_OFFSET := 0, StallTime := 0 }
        [4, 0, 1, 0, 0, 0, 0, 0, 7, 0, 1, 1, 0, 0, 0]
        { getValue1 := 0x45, getValue2 := 0x45, uninitRollOverCount := 77, stallClock := [],
          overrideStatus := 0, disableStatus := 0, setConfigTrigger := 0, busyWait := [0, 2],
          baseline := 5, poll := [(3, 2), (9, 0)], setConfigRestore := 0 } = some o
      ∧ o.log = [HwAction.GpioSimpleGetValue 4, HwAction.GpioSetSimpleConfig 4 inputConfig,
          HwAction.GpioSimpleGetValue 4, HwAction.DmaSend 16]
      ∧ o.status = 0x45 ∧ o.status ≠ CY_U3P_SUCCESS
      ∧ o.count = 16 ∧ o.BulkBuffer.length = 16
      ∧ readLE32 (o.BulkBuffer.take 4) = 0x45
      ∧ readLE32 ((o.BulkBuffer.drop 4).take 4) = 0xFFFFFFFF :=
  AdiMeasureBusyPulse_unreadable_pin
    { MS_TO_TICKS_MULT := 10078, ADI_MICROSECONDS_SLEEP_OFFSET := 0, StallTime := 0 }
    [4, 0, 1, 0, 0, 0, 0, 0, 7, 0, 1, 1, 0, 0, 0]
    { getValue1 := 0x45, getValue2 := 0x45, uninitRollOverCount := 77, stallClock := [],
      overrideStatus := 0, disableStatus := 0, setConfigTrigger := 0, busyWait := [0, 2],
      baseline := 5, poll := [(3, 2), (9, 0)], setConfigRestore := 0 }
    (by decide) (by decide) (by decide)

/-- C6, the code at a failing input: busy pin 4 with busy polarity 1, no
timeout, pin trigger on pin 7 with polarity 1 and a drive time of 1 ms, which is
10078 ticks.  The busy pin reaches the busy level at the second read and the
timer then reads 20000, so the time since the start of the drive exceeds the
drive duration.  The subtraction `driveTime - threshold` wraps to 4294957374,
the first poll (timer 3) is not above it, and the log of the whole run holds no
write to pin 7: the pin is only disabled and made an input at the end. -/
theorem AdiMeasureBusyPulse_late_busy_no_flip :
    (AdiMeasureBusyPulse { MS_TO_TICKS_MULT := 10078, ADI_MICROSECONDS_SLEEP_OFFSET := 0, StallTime := 0 }
        [4, 0, 1, 0, 0, 0, 0, 0, 7, 0, 1, 1, 0, 0, 0]
        { getValue1 := 0, getValue2 := 0, uninitRollOverCount := 0, stallClock := [],
          overrideStatus := 0, disableStatus := 0, setConfigTrigger := 0, busyWait := [0, 2],
          baseline := 20000, poll := [(3, 2), (9, 0)], setConfigRestore := 0 }).map
        (fun o => o.log)
      = some [HwAction.GpioSimpleGetValue 4, HwAction.DeviceGpioOverride 7 true,
          HwAction.GpioDisable 7, HwAction.TimerZero, HwAction.TimerIntrOff,
          HwAction.TimerPeriodMax, HwAction.GpioSetSimpleConfig 7 (outputConfig 1),
          HwAction.PinRegRead 4, HwAction.PinRegRead 4, HwAction.TimerSampleNow,
          HwAction.TimerZero, HwAction.TimerIntrOff, HwAction.TimerPeriodMax,
          HwAction.TimerSampleNow, HwAction.PinRegRead 4,
          HwAction.TimerSampleNow, HwAction.PinRegRead 4,
          HwAction.GpioDisable 7, HwAction.GpioSetSimpleConfig 7 inputConfig,
          HwAction.DmaSend 16]
    ∧ u32 (usbWord32 [4, 0, 1, 0, 0, 0, 0, 0, 7, 0, 1, 1, 0, 0, 0] 11 * 10078) = 10078
    ∧ 10078 < 20000
    ∧ sub32 10078 20000 = 4294957374 := by
  decide

/-- C7, the code at a failing input: the request of C6 with a drive time of
0 ms and trigger polarity 1, the timer reading 0 after the wait for the busy
level.  The first poll (timer 3) is above the remaining drive time 0, so the
drive-stop branch is taken, and the value written to pin 7 is
`~triggerPolarity = 0xFFFFFFFE`: a nonzero, hence true, `CyBool_t`, level high,
where the logical opposite of polarity 1 is 0, level low. -/
theorem AdiMeasureBusyPulse_drive_stop_writes_high :
    (AdiMeasureBusyPulse { MS_TO_TICKS_MULT := 10078, ADI_MICROSECONDS_SLEEP_OFFSET := 0, StallTime := 0 }
        [4, 0, 1, 0, 0, 0, 0, 0, 7, 0, 1, 0, 0, 0, 0]
        { getValue1 := 0, getValue2 := 0, uninitRollOverCount := 0, stallClock := [],
          overrideStatus := 0, disableStatus := 0, setConfigTrigger := 0, busyWait := [0, 2],
          baseline := 0, poll := [(3, 2), (9, 0)], setConfigRestore := 0 }).map
        (fun o => o.log)
      = some [HwAction.GpioSimpleGetValue 4, HwAction.DeviceGpioOverride 7 true,
          HwAction.GpioDisable 7, HwAction.TimerZero, HwAction.TimerIntrOff,
          HwAction.TimerPeriodMax, HwAction.GpioSetSimpleConfig 7 (outputConfig 1),
          HwAction.PinRegRead 4, HwAction.PinRegRead 4, HwAction.TimerSampleNow,
          HwAction.TimerZero, HwAction.TimerIntrOff, HwAction.TimerPeriodMax,
          HwAction.TimerSampleNow, HwAction.PinRegRead 4,
          HwAction.GpioSimpleSetValue 7 0xFFFFFFFE,
          HwAction.TimerSampleNow, HwAction.PinRegRead 4,
          HwAction.GpioDisable 7, HwAction.GpioSetSimpleConfig 7 inputConfig,
          HwAction.DmaSend 16]
    ∧ bitNot32 1 = 0xFFFFFFFE
    ∧ cyBoolLevel (bitNot32 1) = 1
    ∧ logNot 1 = 0 := by
  decide

/-- C8, the code at a failing input: with `MS_TO_TICKS_MULT = 10078`, the scale
factor for which the overflow bound 426172 of `AdiSleepForMicroSeconds` is
exact, the timeout field `0x80000000` (bytes 00 00 00 80), which is not zero,
scales to the tick timeout 0, as it does for every even scale factor.  The
measurement loop then has no timeout: with the busy pin held at the busy level
it is still polling after timer samples up to `0xFFFFFFFF`. -/
theorem AdiMeasureBusyPulse_timeout_wraps_to_zero :
    (∀ m sleepOffset stall : Nat,
      busyPulseTimeout { MS_TO_TICKS_MULT := 2 * m, ADI_MICROSECONDS_SLEEP_OFFSET := sleepOffset,
                         StallTime := stall }
        [4, 0, 1, 0, 0, 0, 0x80, 0, 7, 0, 1, 0, 0, 0, 0] = 0)
    ∧ usbWord32 [4, 0, 1, 0, 0, 0, 0x80, 0, 7, 0, 1, 0, 0, 0, 0] 3 = 0x80000000
    ∧ busyPulseTimeout { MS_TO_TICKS_MULT := 10078, ADI_MICROSECONDS_SLEEP_OFFSET := 0, StallTime := 0 }
        [4, 0, 1, 0, 0, 0, 0x80, 0, 7, 0, 1, 0, 0, 0, 0] = 0
    ∧ AdiMeasureBusyPulse { MS_TO_TICKS_MULT := 10078, ADI_MICROSECONDS_SLEEP_OFFSET := 0, StallTime := 0 }
        [4, 0, 1, 0, 0, 0, 0x80, 0, 7, 0, 1, 0, 0, 0, 0]
        { getValue1 := 0, getValue2 := 0, uninitRollOverCount := 0, stallClock := [],
          overrideStatus := 0, disableStatus := 0, setConfigTrigger := 0, busyWait := [0, 2],
          baseline := 0, poll := [(1000, 2), (0x7FFFFFFF, 2), (0xFFFFFFFF, 2)],
          setConfigRestore := 0 } = none
    ∧ 426172 * 10078 ≤ 0xFFFFFFFF ∧ 0xFFFFFFFF < 426173 * 10078 := by
  refine ⟨fun m sleepOffset stall => ?_, by decide⟩
  have hw : usbWord32 [4, 0, 1, 0, 0, 0, 0x80, 0, 7, 0, 1, 0, 0, 0, 0] 3 = 2 ^ 31 := by decide
  simp only [busyPulseTimeout, hw, u32]
  omega

/-- The wait for the busy level returns as soon as one sample of the trace shows
the busy level, whatever the log so far. -/
theorem busyPulseWaitLevel_some (busyPin busyPolarity : Nat) (busyWait : List Nat)
    (h : ∃ x ∈ busyWait, pinLevel x = busyPolarity) :
    ∀ log : List HwAction,
      ∃ w rest, busyPulseWaitLevel busyPin busyPolarity log busyWait = some (w, rest) := by
  induction busyWait with
  | nil =>
    obtain ⟨x, hx, _⟩ := h
    simp at hx
  | cons y ys ih =>
    intro log
    by_cases hy : pinLevel y = busyPolarity
    · have hb : (pinLevel y == busyPolarity) = true := by simpa using hy
      cases ys with
      | nil =>
        exact ⟨(true, log ++ [HwAction.PinRegRead busyPin]), [], by
          simp only [busyPulseWaitLevel, pollLoop, hb, Bool.false_eq_true, if_false, if_true]⟩
      | cons z zs =>
        exact ⟨(true, log ++ [HwAction.PinRegRead busyPin]), z :: zs, by
          simp only [busyPulseWaitLevel, pollLoop, hb, Bool.false_eq_true, if_false, if_true]⟩
    · have hb : (pinLevel y == busyPolarity) = false := by simpa using hy
      obtain ⟨x, hx, hxp⟩ := h
      have hx2 : x ∈ ys := by
        cases List.mem_cons.1 hx with
        | inl e => exact absurd (e ▸ hxp) hy
        | inr e => exact e
      obtain ⟨w, rest, hw⟩ := ih ⟨x, hx2, hxp⟩ (log ++ [HwAction.PinRegRead busyPin])
      refine ⟨w, rest, ?_⟩
      simp only [busyPulseWaitLevel] at hw ⊢
      simp only [pollLoop, hb, Bool.false_eq_true, if_false]
      exact hw

/-- The measurement loop of `AdiMeasureBusyPulse`: if poll iteration `k` is the
first exit iteration, the loop ends exactly there with the time and rollover
count of that iteration. -/
theorem busyPulseLoop_first_hit
    (busyPin busyPolarity timeout triggerPin triggerPolarity drive : Nat) (SpiTriggerMode : Bool)
    (entry : List HwAction) (poll : List (Nat × Nat)) (k : Nat) (hk : k < poll.length)
    (hhit : busyPulseHit busyPolarity timeout poll k)
    (hfirst : ∀ j, j < k → ¬ busyPulseHit busyPolarity timeout poll j) :
    ∃ s, busyPulseLoop busyPin busyPolarity timeout triggerPin triggerPolarity drive
        SpiTriggerMode entry poll = some (s, poll.drop (k + 1))
      ∧ s.currentTime = clockAt poll k ∧ s.rollOverCount = rollAt 0 poll k := by
  refine ⟨_, pollLoop_first_hit (fun s : BusyState => s.exitCondition) _ _ poll k rfl hk
    ((busyPulse_exit_iff _ _ _ _ _ _ _ _ k hk).2 hhit) (fun j hj => ?_),
    busyPulse_cur _ _ _ _ _ _ _ _ k hk, busyPulse_roll _ _ _ _ _ _ _ _ (k + 1)⟩
  have hn := hfirst j hj
  rw [← busyPulse_exit_iff busyPin busyPolarity timeout triggerPin triggerPolarity drive
    poll
    { currentTime := 0, lastTime := 0, rollOverCount := 0, exitCondition := false,
      SpiTriggerMode := SpiTriggerMode, log := entry } j (by omega)] at hn
  simpa using hn

/-- Conversely a measurement loop that ends has ended at a first exit iteration,
with the time and rollover count of that iteration. -/
theorem busyPulseLoop_some
    (busyPin busyPolarity timeout triggerPin triggerPolarity drive : Nat) (SpiTriggerMode : Bool)
    (entry : List HwAction) (poll : List (Nat × Nat)) (s : BusyState) (rest : List (Nat × Nat))
    (h : busyPulseLoop busyPin busyPolarity timeout triggerPin triggerPolarity drive
        SpiTriggerMode entry poll = some (s, rest)) :
    ∃ k, k < poll.length ∧ rest = poll.drop (k + 1)
      ∧ busyPulseHit busyPolarity timeout poll k
      ∧ (∀ j, j < k → ¬ busyPulseHit busyPolarity timeout poll j)
      ∧ s.currentTime = clockAt poll k ∧ s.rollOverCount = rollAt 0 poll k := by
  obtain ⟨k, hk, hrest, hs, hdone, hfirst⟩ :=
    pollLoop_some_first_hit (fun s : BusyState => s.exitCondition) _ _ _ _ _ rfl h
  have hhit := (busyPulse_exit_iff _ _ _ _ _ _ _ _ k hk).1 hdone
  refine ⟨k, hk, hrest, hhit, fun j hj => ?_, ?_, ?_⟩
  · have hn := hfirst j hj
    rw [← busyPulse_exit_iff busyPin busyPolarity timeout triggerPin triggerPolarity drive
      poll
      { currentTime := 0, lastTime := 0, rollOverCount := 0, exitCondition := false,
        SpiTriggerMode := SpiTriggerMode, log := entry } j (by omega)]
    simpa using hn
  · rw [hs]
    exact busyPulse_cur _ _ _ _ _ _ _ _ k hk
  · rw [hs]
    exact busyPulse_roll _ _ _ _ _ _ _ _ (k + 1)

/-- C9: `AdiMeasureBusyPulse` on a readable busy pin.  With
`busyPolarity = USBBuffer[2]` and the tick timeout of the request, call poll
iteration `k` of the measurement loop an exit iteration if its busy pin sample
differs from `busyPolarity`, or the tick timeout is nonzero and its timer sample
has reached it.  If the trigger has been issued (SPI trigger with the stall
returning, or pin trigger with the override accepted), the busy level is seen
and `k` is the first exit iteration, then the measurement loop ends exactly
there, with `k + 1` samples read, and the routine sends the record built from
the corrected time and rollover count of iteration `k`.  Conversely every
16-byte record the routine sends on a readable pin carries in bytes 4..11 the
corrected values of a first exit iteration, so the loop has ended at no earlier
and no later iteration, and with a zero tick timeout the pin sample of that
iteration differs from `busyPolarity`. -/
theorem AdiMeasureBusyPulse_exits_at_first_hit (b : Board) (USBBuffer : List Nat)
    (env : BusyPulseEnv)
    (hread : env.getValue1 = CY_U3P_SUCCESS ∨ env.getValue2 = CY_U3P_SUCCESS) :
    (∀ k, usbByte USBBuffer 7 ≠ 0 →
      (AdiSleepForMicroSeconds b b.StallTime env.stallClock).isSome = true →
      (∃ x ∈ env.busyWait, pinLevel x = usbByte USBBuffer 2) →
      k < env.poll.length →
      busyPulseHit (usbByte USBBuffer 2) (busyPulseTimeout b USBBuffer) env.poll k →
      (∀ j, j < k →
        ¬ busyPulseHit (usbByte USBBuffer 2) (busyPulseTimeout b USBBuffer) env.poll j) →
      ∃ entry s,
        busyPulseLoop (usbWord16 USBBuffer 0) (usbByte USBBuffer 2) (busyPulseTimeout b USBBuffer)
            0xFFFF 0 0 true entry env.poll = some (s, env.poll.drop (k + 1))
        ∧ AdiMeasureBusyPulse b USBBuffer env
          = some (busyPulseFinish b CY_U3P_SUCCESS 0xFFFF
              (busyPulseFudge (clockAt env.poll k) (rollAt 0 env.poll k)).1
              (busyPulseFudge (clockAt env.poll k) (rollAt 0 env.poll k)).2 s.log
              env.setConfigRestore))
    ∧ (∀ k, usbByte USBBuffer 7 = 0 → env.overrideStatus = CY_U3P_SUCCESS →
      (∃ x ∈ env.busyWait, pinLevel x = usbByte USBBuffer 2) →
      k < env.poll.length →
      busyPulseHit (usbByte USBBuffer 2) (busyPulseTimeout b USBBuffer) env.poll k →
      (∀ j, j < k →
        ¬ busyPulseHit (usbByte USBBuffer 2) (busyPulseTimeout b USBBuffer) env.poll j) →
      ∃ entry s,
        busyPulseLoop (usbWord16 USBBuffer 0) (usbByte USBBuffer 2) (busyPulseTimeout b USBBuffer)
            (usbWord16 USBBuffer 8) (usbByte USBBuffer 10)
            (sub32 (u32 (usbWord32 USBBuffer 11 * b.MS_TO_TICKS_MULT)) env.baseline) false entry
            env.poll = some (s, env.poll.drop (k + 1))
        ∧ AdiMeasureBusyPulse b USBBuffer env
          = some (busyPulseFinish b env.setConfigTrigger (usbWord16 USBBuffer 8)
              (busyPulseFudge (clockAt env.poll k) (rollAt 0 env.poll k)).1
              (busyPulseFudge (clockAt env.poll k) (rollAt 0 env.poll k)).2 s.log
              env.setConfigRestore))
    ∧ (∀ o, AdiMeasureBusyPulse b USBBuffer env = some o → o.count = 16 →
      ∃ k, k < env.poll.length
        ∧ busyPulseHit (usbByte USBBuffer 2) (busyPulseTimeout b USBBuffer) env.poll k
        ∧ (∀ j, j < k →
          ¬ busyPulseHit (usbByte USBBuffer 2) (busyPulseTimeout b USBBuffer) env.poll j)
        ∧ (busyPulseTimeout b USBBuffer = 0 → pinAt env.poll k ≠ usbByte USBBuffer 2)
        ∧ (o.BulkBuffer.drop 4).take 8
            = storeLE32 (busyPulseFudge (clockAt env.poll k) (rollAt 0 env.poll k)).1
              ++ storeLE32 (busyPulseFudge (clockAt env.poll k) (rollAt 0 env.poll k)).2)
    ∧ (∀ status triggerPin currentTime rollOverCount log,
      (busyPulseFinish b status triggerPin currentTime rollOverCount log
          env.setConfigRestore).count = 16
      ∧ ((busyPulseFinish b status triggerPin currentTime rollOverCount log
          env.setConfigRestore).BulkBuffer.drop 4).take 8
        = storeLE32 currentTime ++ storeLE32 rollOverCount) := by
  have hv := validateInputPin_readable (usbWord16 USBBuffer 0) env.getValue1 env.getValue2 hread
  have hfwd : ∀ (status : Nat) (spi : Bool) (trig pol drive : Nat) (log : List HwAction)
      (k : Nat), (∃ x ∈ env.busyWait, pinLevel x = usbByte USBBuffer 2) → k < env.poll.length →
      busyPulseHit (usbByte USBBuffer 2) (busyPulseTimeout b USBBuffer) env.poll k →
      (∀ j, j < k →
        ¬ busyPulseHit (usbByte USBBuffer 2) (busyPulseTimeout b USBBuffer) env.poll j) →
      ∃ entry s,
        busyPulseLoop (usbWord16 USBBuffer 0) (usbByte USBBuffer 2) (busyPulseTimeout b USBBuffer)
            trig pol (if !spi then sub32 drive env.baseline else drive) spi entry env.poll
          = some (s, env.poll.drop (k + 1))
        ∧ busyPulseMeasure b (usbWord16 USBBuffer 0) (usbByte USBBuffer 2)
            (busyPulseTimeout b USBBuffer) status spi trig pol drive log env
          = some (busyPulseFinish b status trig
              (busyPulseFudge (clockAt env.poll k) (rollAt 0 env.poll k)).1
              (busyPulseFudge (clockAt env.poll k) (rollAt 0 env.poll k)).2 s.log
              env.setConfigRestore) := by
    intro status spi trig pol drive log k hbusy hk hhit hfirst
    obtain ⟨w, wrest, hw⟩ := busyPulseWaitLevel_some (usbWord16 USBBuffer 0)
      (usbByte USBBuffer 2) env.busyWait hbusy log
    obtain ⟨s, hs, hcur, hroll⟩ := busyPulseLoop_first_hit (usbWord16 USBBuffer 0)
      (usbByte USBBuffer 2) (busyPulseTimeout b USBBuffer) trig pol
      (if !spi then sub32 drive env.baseline else drive) spi
      ((if !spi then w.2 ++ [HwAction.TimerSampleNow] else w.2)
        ++ [HwAction.TimerZero, HwAction.TimerIntrOff, HwAction.TimerPeriodMax]) env.poll k hk
      hhit hfirst
    refine ⟨_, s, hs, ?_⟩
    simp only [busyPulseMeasure, hw, hs, hcur, hroll]
  refine ⟨?_, ?_, ?_, ?_⟩
  · intro k hspi hstall hbusy hk hhit hfirst
    have hspi2 : (usbByte USBBuffer 7 != 0) = true := by simpa using hspi
    obtain ⟨r, hr⟩ := Option.isSome_iff_exists.1 hstall
    obtain ⟨entry, s, hs, hm⟩ := hfwd CY_U3P_SUCCESS true 0xFFFF 0 0
      ((validateInputPin (usbWord16 USBBuffer 0) env.getValue1 env.getValue2).2.2
        ++ [HwAction.SpiTransmitWords (u8 (usbWord16 USBBuffer 8 ||| 0x80))
              (u8 (usbWord16 USBBuffer 10 &&& 0xFF))]
        ++ r.2
        ++ [HwAction.SpiTransmitWords (u8 ((usbWord16 USBBuffer 8 + 1) ||| 0x80))
              (u8 ((usbWord16 USBBuffer 10 &&& 0xFF00) >>> 8))])
      k hbusy hk hhit hfirst
    refine ⟨entry, s, hs, ?_⟩
    rw [← hm]
    simp only [AdiMeasureBusyPulse, hv.1, hv.2, hspi2, hr, if_true]
  · intro k hspi hover hbusy hk hhit hfirst
    have hspi2 : (usbByte USBBuffer 7 != 0) = false := by simpa using hspi
    obtain ⟨entry, s, hs, hm⟩ := hfwd env.setConfigTrigger false
      (usbWord16 USBBuffer 8) (usbByte USBBuffer 10)
      (u32 (usbWord32 USBBuffer 11 * b.MS_TO_TICKS_MULT))
      (if env.setConfigTrigger ≠ CY_U3P_SUCCESS then
        (if env.disableStatus ≠ CY_U3P_SUCCESS then
          (validateInputPin (usbWord16 USBBuffer 0) env.getValue1 env.getValue2).2.2
            ++ [HwAction.DeviceGpioOverride (usbWord16 USBBuffer 8) true]
            ++ [HwAction.GpioDisable (usbWord16 USBBuffer 8)] ++ [HwAction.DebugPrint]
         else
          (validateInputPin (usbWord16 USBBuffer 0) env.getValue1 env.getValue2).2.2
            ++ [HwAction.DeviceGpioOverride (usbWord16 USBBuffer 8) true]
            ++ [HwAction.GpioDisable (usbWord16 USBBuffer 8)])
          ++ [HwAction.TimerZero, HwAction.TimerIntrOff, HwAction.TimerPeriodMax,
              HwAction.GpioSetSimpleConfig (usbWord16 USBBuffer 8)
                (outputConfig (usbByte USBBuffer 10))]
          ++ [HwAction.DebugPrint]
       else
        (if env.disableStatus ≠ CY_U3P_SUCCESS then
          (validateInputPin (usbWord16 USBBuffer 0) env.getValue1 env.getValue2).2.2
            ++ [HwAction.DeviceGpioOverride (usbWord16 USBBuffer 8) true]
            ++ [HwAction.GpioDisable (usbWord16 USBBuffer 8)] ++ [HwAction.DebugPrint]
         else
          (validateInputPin (usbWord16 USBBuffer 0) env.getValue1 env.getValue2).2.2
            ++ [HwAction.DeviceGpioOverride (usbWord16 USBBuffer 8) true]
            ++ [HwAction.GpioDisable (usbWord16 USBBuffer 8)])
          ++ [HwAction.TimerZero, HwAction.TimerIntrOff, HwAction.TimerPeriodMax,
              HwAction.GpioSetSimpleConfig (usbWord16 USBBuffer 8)
                (outputConfig (usbByte USBBuffer 10))])
      k hbusy hk hhit hfirst
    refine ⟨entry, s, hs, ?_⟩
    rw [← hm]
    simp only [AdiMeasureBusyPulse, hv.2, hspi2, hover, if_true, ne_eq, not_true_eq_false,
      if_false, Bool.false_eq_true]
  · intro o h hcount
    simp only [AdiMeasureBusyPulse, hv.2, if_true] at h
    have key : ∀ status spi trig pol drive log,
        busyPulseMeasure b (usbWord16 USBBuffer 0) (usbByte USBBuffer 2)
          (busyPulseTimeout b USBBuffer) status spi trig pol drive log env = some o →
        ∃ k, k < env.poll.length
          ∧ busyPulseHit (usbByte USBBuffer 2) (busyPulseTimeout b USBBuffer) env.poll k
          ∧ (∀ j, j < k →
            ¬ busyPulseHit (usbByte USBBuffer 2) (busyPulseTimeout b USBBuffer) env.poll j)
          ∧ (busyPulseTimeout b USBBuffer = 0 → pinAt env.poll k ≠ usbByte USBBuffer 2)
          ∧ (o.BulkBuffer.drop 4).take 8
              = storeLE32 (busyPulseFudge (clockAt env.poll k) (rollAt 0 env.poll k)).1
                ++ storeLE32 (busyPulseFudge (clockAt env.poll k) (rollAt 0 env.poll k)).2 := by
      intro status spi trig pol drive log hm
      simp only [busyPulseMeasure] at hm
      split at hm
      · simp at hm
      · split at hm
        · simp at hm
        · rename_i s rest hloop
          obtain ⟨k, hk, _, hhit, hfirst, hcur, hroll⟩ :=
            busyPulseLoop_some _ _ _ _ _ _ _ _ _ _ _ hloop
          simp only [Option.some.injEq] at hm
          subst hm
          refine ⟨k, hk, hhit, hfirst, fun hz => ?_, ?_⟩
          · cases hhit with
            | inl hp => exact hp
            | inr ht => exact absurd hz ht.1
          · rw [hcur, hroll]
            simp only [busyPulseFinish, storeLE32_eq]
            simp
    split at h
    · split at h
      · simp at h
      · exact key _ _ _ _ _ _ h
    · split at h
      · simp only [Option.some.injEq] at h
        subst h
        simp at hcount
      · exact key _ _ _ _ _ _ h
  · intro status triggerPin currentTime rollOverCount log
    refine ⟨rfl, ?_⟩
    simp only [busyPulseFinish, storeLE32_eq]
    simp

/-- C9 at a concrete run: busy pin 4, busy polarity 1, timeout 1 ms (10078
ticks), SPI trigger.  The busy pin stays high for two polls and is low at the
third (timer 900), which is the first exit iteration; the 16-byte record carries
900 + 20 = 0x398 ticks and 0 rollovers in bytes 4..11. -/
theorem AdiMeasureBusyPulse_exits_at_first_hit_witness :
    (∃ entry s,
      busyPulseLoop 4 1 10078 0xFFFF 0 0 true entry [(300, 2), (600, 2), (900, 0), (1200, 0)]
        = some (s, [(1200, 0)])
      ∧ AdiMeasureBusyPulse
          { MS_TO_TICKS_MULT := 10078, ADI_MICROSECONDS_SLEEP_OFFSET := 0, StallTime := 0 }
          [4, 0, 1, 1, 0, 0, 0, 1, 0x3E, 0, 0x04, 0, 0, 0, 0]
          { getValue1 := 0, getValue2 := 0, uninitRollOverCount := 0, stallClock := [],
            overrideStatus := 0, disableStatus := 0, setConfigTrigger := 0, busyWait := [0, 2],
            baseline := 0, poll := [(300, 2), (600, 2), (900, 0), (1200, 0)],
            setConfigRestore := 0 }
        = some (busyPulseFinish
            { MS_TO_TICKS_MULT := 10078, ADI_MICROSECONDS_SLEEP_OFFSET := 0, StallTime := 0 }
            0 0xFFFF 920 0 s.log 0))
    ∧ (AdiMeasureBusyPulse
          { MS_TO_TICKS_MULT := 10078, ADI_MICROSECONDS_SLEEP_OFFSET := 0, StallTime := 0 }
          [4, 0, 1, 1, 0, 0, 0, 1, 0x3E, 0, 0x04, 0, 0, 0, 0]
          { getValue1 := 0, getValue2 := 0, uninitRollOverCount := 0, stallClock := [],
            overrideStatus := 0, disableStatus := 0, setConfigTrigger := 0, busyWait := [0, 2],
            baseline := 0, poll := [(300, 2), (600, 2), (900, 0), (1200, 0)],
            setConfigRestore := 0 }).map (fun o => (o.BulkBuffer, o.log))
      = some ([0, 0, 0, 0, 0x98, 0x03, 0, 0, 0, 0, 0, 0, 0x5E, 0x27, 0, 0],
          [HwAction.GpioSimpleGetValue 4, HwAction.SpiTransmitWords 0xBE 0x04,
            HwAction.TimerZero, HwAction.SpiTransmitWords 0xBF 0,
            HwAction.PinRegRead 4, HwAction.PinRegRead 4,
            HwAction.TimerZero, HwAction.TimerIntrOff, HwAction.TimerPeriodMax,
            HwAction.TimerSampleNow, HwAction.PinRegRead 4,
            HwAction.TimerSampleNow, HwAction.PinRegRead 4,
            HwAction.TimerSampleNow, HwAction.PinRegRead 4,
            HwAction.DmaSend 16]) :=
  ⟨(AdiMeasureBusyPulse_exits_at_first_hit
    { MS_TO_TICKS_MULT := 10078, ADI_MICROSECONDS_SLEEP_OFFSET := 0, StallTime := 0 }
    [4, 0, 1, 1, 0, 0, 0, 1, 0x3E, 0, 0x04, 0, 0, 0, 0]
    { getValue1 := 0, getValue2 := 0, uninitRollOverCount := 0, stallClock := [],
      overrideStatus := 0, disableStatus := 0, setConfigTrigger := 0, busyWait := [0, 2],
      baseline := 0, poll := [(300, 2), (600, 2), (900, 0), (1200, 0)],
      setConfigRestore := 0 }
    (Or.inl rfl)).1 2 (by decide) (by decide) (by decide) (by decide) (by decide) (by decide),
    by decide⟩

/-- C10, the code at a failing input: the measurement loop ends with the raw
tick value `0xFFFFFFEB` and 0 rollovers.  `0xFFFFFFEB + 20` is `0xFFFFFFFF`,
which does not exceed the 32-bit range, yet the test
`currentTime < 0xFFFFFFFF - 20` fails and the routine reports 0 elapsed ticks
and 1 rollover (bytes 4..11 of the record). -/
theorem busyPulseFudge_boundary_counts_rollover :
    0xFFFFFFEB + 20 ≤ 0xFFFFFFFF
    ∧ busyPulseFudge 0xFFFFFFEB 0 = (0, 1)
    ∧ (AdiMeasureBusyPulse { MS_TO_TICKS_MULT := 10078, ADI_MICROSECONDS_SLEEP_OFFSET := 0, StallTime := 0 }
        [4, 0, 1, 0, 0, 0, 0, 0, 7, 0, 1, 0, 0, 0, 0]
        { getValue1 := 0, getValue2 := 0, uninitRollOverCount := 0, stallClock := [],
          overrideStatus := 0, disableStatus := 0, setConfigTrigger := 0, busyWait := [0, 2],
          baseline := 0, poll := [(0x7FFFFFFF, 2), (0xFFFFFFEB, 0)],
          setConfigRestore := 0 }).map (fun o => o.BulkBuffer)
      = some [0, 0, 0, 0, 0, 0, 0, 0, 1, 0, 0, 0, 0x5E, 0x27, 0, 0] := by
  decide

/-! ### The sample loop of `AdiMeasureDR` -/

/-- C11, the code at a failing input: a request for pin 5, polarity 1, no
timeout, on a readable pin that is high at entry and shows three low-to-high
edges.  The sample loop `for (i = 0; i <= 2; i++)` makes three passes and stores
into `timeWaited` at the indices 0, 1 and 2, the last one outside the
two-element array; with the hardware values of two passes only, the routine
is still waiting for a third edge. -/
theorem AdiMeasureDR_sample_loop_three_passes :
    (measureDRSamples { MS_TO_TICKS_MULT := 10078, ADI_MICROSECONDS_SLEEP_OFFSET := 0, StallTime := 0 }
        [5, 0, 1, 0, 0, 0, 0, 0, 0, 0, 0]
        { startTime := 1000, getValue1 := 0, getValue2 := 0, uninitValidPin := 0,
          edges := [{ first := 2, phase1 := [(0, 2), (0, 0)], phase2 := [(0, 0), (0, 2)],
                      edgeTime := 1500 },
                    { first := 2, phase1 := [(0, 0)], phase2 := [(0, 2)], edgeTime := 2500 },
                    { first := 2, phase1 := [(0, 0)], phase2 := [(0, 2)], edgeTime := 3500 }],
          dmaStatus := 0 }).map (fun s => s.stores)
      = some [(0, 500), (1, 1500), (2, 2500)]
    ∧ AdiMeasureDR { MS_TO_TICKS_MULT := 10078, ADI_MICROSECONDS_SLEEP_OFFSET := 0, StallTime := 0 }
        [5, 0, 1, 0, 0, 0, 0, 0, 0, 0, 0]
        { startTime := 1000, getValue1 := 0, getValue2 := 0, uninitValidPin := 0,
          edges := [{ first := 2, phase1 := [(0, 2), (0, 0)], phase2 := [(0, 0), (0, 2)],
                      edgeTime := 1500 },
                    { first := 2, phase1 := [(0, 0)], phase2 := [(0, 2)], edgeTime := 2500 }],
          dmaStatus := 0 } = none := by
  decide

/-- C12, the code at a failing input: pin 5, polarity 1, no timeout, pin high
at entry, start tick `0xFFFFFFF0`.  The tick after the first low-to-high edge is
`t1 = 0xFFFFFFF8`; the counter then wraps once and the tick after the second
edge is `t2 = 5`.  `(t2 - t1) mod 2^32` is 13, but the recorded times are
`t1 - start = 8` and `t2 + (0xFFFFFFFF - start) = 20`, and the reported delta
is 12. -/
theorem AdiMeasureDR_delta_across_wrap_off_by_one :
    (AdiMeasureDR { MS_TO_TICKS_MULT := 10078, ADI_MICROSECONDS_SLEEP_OFFSET := 0, StallTime := 0 }
        [5, 0, 1, 0, 0, 0, 0, 0, 0, 0, 0]
        { startTime := 0xFFFFFFF0, getValue1 := 0, getValue2 := 0, uninitValidPin := 0,
          edges := [{ first := 2, phase1 := [(0, 2), (0, 0)], phase2 := [(0, 0), (0, 2)],
                      edgeTime := 0xFFFFFFF8 },
                    { first := 2, phase1 := [(0, 0)], phase2 := [(0, 2)], edgeTime := 5 },
                    { first := 2, phase1 := [(0, 0)], phase2 := [(0, 2)], edgeTime := 100 }],
          dmaStatus := 0 }).map (fun o => o.BulkBuffer.take 4)
      = some [12, 0, 0, 0]
    ∧ readLE32 [12, 0, 0, 0] = 12
    ∧ sub32 5 0xFFFFFFF8 = 13
    ∧ drElapsed 0xFFFFFFF0 0xFFFFFFF8 = 8
    ∧ drElapsed 0xFFFFFFF0 5 = 20 := by
  decide

theorem drTimed_cur (pin : Nat) (miss : Nat → Bool) (trace : List (Nat × Nat)) (s : DRState)
    (j : Nat) (hj : j < trace.length) :
    (stateAfter (drTimedBody pin miss) s trace (j + 1)).currentTime = clockAt trace j
    ∧ (stateAfter (drTimedBody pin miss) s trace (j + 1)).pinRegValue
        = (trace.getD j (0, 0)).2 := by
  rw [stateAfter_succ _ (0, 0) _ _ _ hj]
  exact ⟨rfl, rfl⟩

theorem drEdge_timed (pin polarity timeout : Nat) (sampleRollover : Bool)
    (startTime sampleEndTime : Nat) (s : DRState) (e : DREdgeEnv) (ht : timeout ≠ 0) :
    drEdge pin polarity timeout sampleRollover startTime sampleEndTime s e
      = drPhases pin polarity (drWindow sampleRollover startTime sampleEndTime)
          (drTimedBody pin (drMiss sampleRollover startTime sampleEndTime)) s e := by
  unfold drEdge drWindow drMiss
  cases sampleRollover <;> simp [ht]

/-- C14, counterexample: pin 5, polarity 1, timeout 1 ms (10078 ticks), start
tick 100, so the window ends at 10178 without rollover.  The pin is high at
entry and stays high; the second poll of the first wait loop reads the timer at
20000, past the deadline, and the loop ends there with the pin register still
showing the high level, the third sample unread.  The routine then records the
three edges at once and reports a delta of 10 ticks with one counted miss. -/
theorem drWait_ends_on_deadline_with_level_unchanged :
    drWait false (drWindowPlain 10178) (drTimedBody 5 (drMissPlain 10178))
        { currentTime := 100, pinRegValue := 2, timeoutCounter := 0, log := [] }
        [(5000, 2), (20000, 2), (30000, 0)]
      = some ({ currentTime := 20000, pinRegValue := 2, timeoutCounter := 1,
                log := [HwAction.TimerSampleNow, HwAction.PinRegRead 5,
                  HwAction.TimerSampleNow, HwAction.PinRegRead 5] }, [(30000, 0)])
    ∧ drHigh 2 = true
    ∧ (AdiMeasureDR { MS_TO_TICKS_MULT := 10078, ADI_MICROSECONDS_SLEEP_OFFSET := 0, StallTime := 0 }
        [5, 0, 1, 0, 0, 0, 0, 1, 0, 0, 0]
        { startTime := 100, getValue1 := 0, getValue2 := 0, uninitValidPin := 0,
          edges := [{ first := 2, phase1 := [(5000, 2), (20000, 2), (30000, 0)],
                      phase2 := [(40000, 2)], edgeTime := 20010 },
                    { first := 2, phase1 := [], phase2 := [], edgeTime := 20020 },
                    { first := 2, phase1 := [], phase2 := [], edgeTime := 20030 }],
          dmaStatus := 0 }).map (fun o => o.BulkBuffer)
      = some [10, 0, 0, 0, 0x5E, 0x27, 0, 0, 1] := by
  decide

theorem drTimed_log (pin : Nat) (miss : Nat → Bool) (trace : List (Nat × Nat)) (s : DRState) :
    ∀ j, j ≤ trace.length →
      (stateAfter (drTimedBody pin miss) s trace j).log = s.log ++ pollLog pin j := by
  intro j
  induction j with
  | zero => intro _; simp [stateAfter, pollLog]
  | succ j ih =>
    intro hj
    rw [stateAfter_succ _ (0, 0) _ _ _ (by omega), pollLog_length_free, ← ih (by omega)]
    rfl

theorem drLevelKeep_eq_true (awaitHigh : Bool) (reg : Nat) :
    drLevelKeep awaitHigh reg = true ↔ drHigh reg ≠ awaitHigh := by
  cases awaitHigh <;> cases h : drHigh reg <;> simp [drLevelKeep, h]

/-- A wait loop whose condition fails at entry reads no sample. -/
theorem drWait_skip (awaitHigh : Bool) (window : Nat → Bool)
    (body : DRState → Nat × Nat → DRState) (s : DRState) (trace : List (Nat × Nat))
    (h : (drLevelKeep awaitHigh s.pinRegValue && window s.currentTime) = false) :
    drWait awaitHigh window body s trace = some (s, trace) := by
  unfold drWait
  cases trace with
  | nil => simp only [pollLoop, h, Bool.not_false, if_true]
  | cons x xs => simp only [pollLoop, h, Bool.not_false, if_true]

/-- A timed wait loop entered with its condition true ends at the first sample
that shows the awaited level or lies outside the window, with that sample in its
variables and `k + 1` polls in the log. -/
theorem drWait_first_stop (pin : Nat) (miss : Nat → Bool) (awaitHigh : Bool)
    (window : Nat → Bool) (s : DRState) (trace : List (Nat × Nat)) (k : Nat)
    (hlevel : drHigh s.pinRegValue ≠ awaitHigh) (hwin : window s.currentTime = true)
    (hk : drFirstStop awaitHigh window trace k) :
    ∃ s2, drWait awaitHigh window (drTimedBody pin miss) s trace = some (s2, trace.drop (k + 1))
      ∧ s2.currentTime = clockAt trace k ∧ s2.pinRegValue = pinRegAt trace k
      ∧ s2.log = s.log ++ pollLog pin (k + 1) := by
  obtain ⟨hlen, hstop, hfirst⟩ := hk
  have hstart : (fun s : DRState => !(drLevelKeep awaitHigh s.pinRegValue
      && window s.currentTime)) s = false := by
    simp only [(drLevelKeep_eq_true awaitHigh s.pinRegValue).2 hlevel, hwin, Bool.and_self,
      Bool.not_true]
  have hdone : ∀ j, j < trace.length →
      ((fun s : DRState => !(drLevelKeep awaitHigh s.pinRegValue && window s.currentTime))
        (stateAfter (drTimedBody pin miss) s trace (j + 1)) = true
        ↔ drStops awaitHigh window trace j) := by
    intro j hj
    obtain ⟨hc, hp⟩ := drTimed_cur pin miss trace s j hj
    simp only [hc, hp, drStops, pinRegAt]
    have hl := drLevelKeep_eq_true awaitHigh (trace.getD j (0, 0)).2
    cases hkeep : drLevelKeep awaitHigh (trace.getD j (0, 0)).2
      <;> cases hw : window (clockAt trace j)
      <;> simp_all
  have hloop := pollLoop_first_hit
    (fun s : DRState => !(drLevelKeep awaitHigh s.pinRegValue && window s.currentTime))
    (drTimedBody pin miss) s trace k hstart hlen ((hdone k hlen).2 hstop)
    (fun j hj => by
      have hn := hfirst j hj
      rw [← hdone j (by omega)] at hn
      simpa using hn)
  obtain ⟨hc, hp⟩ := drTimed_cur pin miss trace s k hlen
  exact ⟨_, hloop, hc, hp, drTimed_log pin miss trace s (k + 1) hlen⟩

/-- The timer sample taken at entry lies inside the window of a request with a
nonzero timeout. -/
theorem drWindow_at_start (timeout startTime : Nat) (ht : timeout ≠ 0) (hlt : timeout < 2 ^ 32) :
    drWindow (drSampleRollover timeout startTime) startTime
      (drSampleEndTime timeout startTime) startTime = true := by
  unfold drWindow drSampleEndTime
  by_cases h : drSampleRollover timeout startTime = true
  · simp [h, drWindowRoll]
  · simp only [h, Bool.false_eq_true, if_false, drWindowPlain, u32, decide_eq_true_eq]
    simp only [drSampleRollover, Bool.and_eq_true, decide_eq_true_eq, not_and] at h
    have h2 := h (by omega)
    omega


/-- C14, amended: the passes of `AdiMeasureDR` with a nonzero timeout.  A poll
iteration stops a wait loop if its pin sample shows the awaited level or its
timer sample is outside the window (`drStops`).  For a pass entered inside the
window, with and without rollover of the window: for `polarity == 1` the first
loop ends at its first stopping iteration `k1`; if the timer sample of `k1` is
outside the window the pass ends there, whatever the pin shows, and otherwise
the second loop ends at its first stopping iteration `k2`; with the pin low at
entry only the second loop runs, to its first stopping iteration.  For another
polarity the second loop, which awaits the low level, likewise ends at its first
stopping iteration; the first loop, whose own condition has no window test, ends
at the first iteration that shows the high level.  A pass entered outside the
window polls nothing.  In each case the variables hold the samples of the last
iteration and the log shows the `k + 1` polls made.  For the whole routine: on a
pin high at entry a request for `polarity == 1` returns after `k + 1` polls if
poll `k` is the first stopping iteration and its timer sample is outside the
window (the later timer samples being outside it too).  Outside the window means
at or after `sampleEndTime` without rollover, below `startTime` and above
`sampleEndTime` with rollover. -/
theorem AdiMeasureDR_wait_ends_at_level_or_deadline (pin timeout : Nat) (sampleRollover : Bool)
    (startTime sampleEndTime : Nat) (s : DRState) (e : DREdgeEnv) (ht : timeout ≠ 0) :
    (∀ k1 k2, drHigh e.first = true →
      drWindow sampleRollover startTime sampleEndTime s.currentTime = true →
      drFirstStop false (drWindow sampleRollover startTime sampleEndTime) e.phase1 k1 →
      drWindow sampleRollover startTime sampleEndTime (clockAt e.phase1 k1) = true →
      drFirstStop true (drWindow sampleRollover startTime sampleEndTime) e.phase2 k2 →
      ∃ s3, drEdge pin 1 timeout sampleRollover startTime sampleEndTime s e = some s3
        ∧ s3.currentTime = clockAt e.phase2 k2 ∧ s3.pinRegValue = pinRegAt e.phase2 k2
        ∧ s3.log = s.log ++ [HwAction.PinRegRead pin] ++ pollLog pin (k1 + 1)
            ++ pollLog pin (k2 + 1))
    ∧ (∀ k1, drHigh e.first = true →
      drWindow sampleRollover startTime sampleEndTime s.currentTime = true →
      drFirstStop false (drWindow sampleRollover startTime sampleEndTime) e.phase1 k1 →
      drWindow sampleRollover startTime sampleEndTime (clockAt e.phase1 k1) = false →
      ∃ s2, drEdge pin 1 timeout sampleRollover startTime sampleEndTime s e = some s2
        ∧ s2.currentTime = clockAt e.phase1 k1 ∧ s2.pinRegValue = pinRegAt e.phase1 k1
        ∧ s2.log = s.log ++ [HwAction.PinRegRead pin] ++ pollLog pin (k1 + 1))
    ∧ (∀ k2, drHigh e.first = false →
      drWindow sampleRollover startTime sampleEndTime s.currentTime = true →
      drFirstStop true (drWindow sampleRollover startTime sampleEndTime) e.phase2 k2 →
      ∃ s3, drEdge pin 1 timeout sampleRollover startTime sampleEndTime s e = some s3
        ∧ s3.currentTime = clockAt e.phase2 k2 ∧ s3.pinRegValue = pinRegAt e.phase2 k2
        ∧ s3.log = s.log ++ [HwAction.PinRegRead pin] ++ pollLog pin (k2 + 1))
    ∧ (∀ polarity k2, polarity ≠ 1 → drHigh e.first = true →
      drWindow sampleRollover startTime sampleEndTime s.currentTime = true →
      drFirstStop false (drWindow sampleRollover startTime sampleEndTime) e.phase2 k2 →
      ∃ s3, drEdge pin polarity timeout sampleRollover startTime sampleEndTime s e = some s3
        ∧ s3.currentTime = clockAt e.phase2 k2 ∧ s3.pinRegValue = pinRegAt e.phase2 k2
        ∧ s3.log = s.log ++ [HwAction.PinRegRead pin] ++ pollLog pin (k2 + 1))
    ∧ (∀ polarity k1 k2, polarity ≠ 1 → drHigh e.first = false →
      drWindow sampleRollover startTime sampleEndTime s.currentTime = true →
      drFirstStop true (fun _ => true) e.phase1 k1 →
      drWindow sampleRollover startTime sampleEndTime (clockAt e.phase1 k1) = true →
      drFirstStop false (drWindow sampleRollover startTime sampleEndTime) e.phase2 k2 →
      ∃ s3, drEdge pin polarity timeout sampleRollover startTime sampleEndTime s e = some s3
        ∧ s3.currentTime = clockAt e.phase2 k2 ∧ s3.pinRegValue = pinRegAt e.phase2 k2
        ∧ s3.log = s.log ++ [HwAction.PinRegRead pin] ++ pollLog pin (k1 + 1)
            ++ pollLog pin (k2 + 1))
    ∧ (∀ polarity k1, polarity ≠ 1 → drHigh e.first = false →
      drWindow sampleRollover startTime sampleEndTime s.currentTime = true →
      drFirstStop true (fun _ => true) e.phase1 k1 →
      drWindow sampleRollover startTime sampleEndTime (clockAt e.phase1 k1) = false →
      ∃ s2, drEdge pin polarity timeout sampleRollover startTime sampleEndTime s e = some s2
        ∧ s2.currentTime = clockAt e.phase1 k1 ∧ s2.pinRegValue = pinRegAt e.phase1 k1
        ∧ s2.log = s.log ++ [HwAction.PinRegRead pin] ++ pollLog pin (k1 + 1))
    ∧ (∀ polarity, drWindow sampleRollover startTime sampleEndTime s.currentTime = false →
      drEdge pin polarity timeout sampleRollover startTime sampleEndTime s e
        = some { currentTime := s.currentTime, pinRegValue := e.first,
                 timeoutCounter := s.timeoutCounter,
                 log := s.log ++ [HwAction.PinRegRead pin] })
    ∧ (∀ (b : Board) (USBBuffer : List Nat) (env : MeasureDREnv) (e1 e2 : DREdgeEnv) (k : Nat),
      drValidPin env ≠ 0 → usbWord16 USBBuffer 0 = pin → usbByte USBBuffer 2 = 1 →
      AdiMStoTicks b (usbWord32 USBBuffer 7) = timeout → env.startTime = startTime →
      drSampleRollover timeout startTime = sampleRollover →
      drSampleEndTime timeout startTime = sampleEndTime →
      env.edges = [e, e1, e2] → drHigh e.first = true →
      drFirstStop false (drWindow sampleRollover startTime sampleEndTime) e.phase1 k →
      drWindow sampleRollover startTime sampleEndTime (clockAt e.phase1 k) = false →
      drWindow sampleRollover startTime sampleEndTime e.edgeTime = false →
      drWindow sampleRollover startTime sampleEndTime e1.edgeTime = false →
      ∃ c, AdiMeasureDR b USBBuffer env
        = some (measureDRSend b
            (sub32 (drElapsed startTime e1.edgeTime) (drElapsed startTime e.edgeTime)) c
            (measureDREntryLog USBBuffer env ++ [HwAction.PinRegRead pin]
              ++ pollLog pin (k + 1)
              ++ [HwAction.TimerSampleNow, HwAction.PinRegRead pin, HwAction.TimerSampleNow,
                  HwAction.PinRegRead pin, HwAction.TimerSampleNow])
            env.dmaStatus))
    ∧ (∀ t, drWindow false startTime sampleEndTime t = false ↔ sampleEndTime ≤ t)
    ∧ (∀ t, drWindow true startTime sampleEndTime t = false
        ↔ (t < startTime ∧ sampleEndTime < t)) := by
  -- A pass for `polarity == 1`, pin high at entry, inside the window: the first loop ends at
  -- its first stopping sample `k1`; if that sample is inside the window the second loop runs
  -- and ends at its first stopping sample `k2`.
  have one_both :
      ∀
        (pin : Nat) (miss w : Nat → Bool) (s : DRState) (e : DREdgeEnv) (k1 k2 : Nat)
        (hhigh : drHigh e.first = true) (hwin : w s.currentTime = true)
        (hk1 : drFirstStop false w e.phase1 k1) (hin : w (clockAt e.phase1 k1) = true)
        (hk2 : drFirstStop true w e.phase2 k2),
        ∃ s3, drPhases pin 1 w (drTimedBody pin miss) s e = some s3
          ∧ s3.currentTime = clockAt e.phase2 k2 ∧ s3.pinRegValue = pinRegAt e.phase2 k2
          ∧ s3.log = s.log ++ [HwAction.PinRegRead pin] ++ pollLog pin (k1 + 1)
              ++ pollLog pin (k2 + 1) := by
    intro pin miss w s e k1 k2 hhigh hwin hk1 hin hk2
    obtain ⟨s2, h2, hc2, hp2, hl2⟩ := drWait_first_stop pin miss false w
      { currentTime := s.currentTime, pinRegValue := e.first, timeoutCounter := s.timeoutCounter,
        log := s.log ++ [HwAction.PinRegRead pin] } e.phase1 k1 (by simp [hhigh]) hwin hk1
    have hlow : drHigh s2.pinRegValue ≠ true := by
      rw [hp2]
      cases hk1.2.1 with
      | inl h => rw [h]; simp
      | inr h => rw [hin] at h; simp at h
    obtain ⟨s3, h3, hc3, hp3, hl3⟩ := drWait_first_stop pin miss true w s2 e.phase2 k2 hlow
      (by rw [hc2]; exact hin) hk2
    refine ⟨s3, ?_, hc3, hp3, by rw [hl3, hl2]⟩
    simp only [drPhases, eq_self_iff_true, if_true, hhigh, h2, h3]
  -- A pass for `polarity == 1`, pin high at entry, inside the window: if the first stopping
  -- sample `k1` of the first loop is outside the window, the pass ends there and the second
  -- loop reads nothing, whatever the pin shows.
  have one_deadline :
      ∀
        (pin : Nat) (miss w : Nat → Bool) (s : DRState) (e : DREdgeEnv) (k1 : Nat)
        (hhigh : drHigh e.first = true) (hwin : w s.currentTime = true)
        (hk1 : drFirstStop false w e.phase1 k1) (hout : w (clockAt e.phase1 k1) = false),
        ∃ s2, drPhases pin 1 w (drTimedBody pin miss) s e = some s2
          ∧ s2.currentTime = clockAt e.phase1 k1 ∧ s2.pinRegValue = pinRegAt e.phase1 k1
          ∧ s2.log = s.log ++ [HwAction.PinRegRead pin] ++ pollLog pin (k1 + 1) := by
    intro pin miss w s e k1 hhigh hwin hk1 hout
    obtain ⟨s2, h2, hc2, hp2, hl2⟩ := drWait_first_stop pin miss false w
      { currentTime := s.currentTime, pinRegValue := e.first, timeoutCounter := s.timeoutCounter,
        log := s.log ++ [HwAction.PinRegRead pin] } e.phase1 k1 (by simp [hhigh]) hwin hk1
    have h3 : drWait true w (drTimedBody pin miss) s2 e.phase2 = some (s2, e.phase2) :=
      drWait_skip _ _ _ _ _ (by rw [hc2, hout]; simp)
    refine ⟨s2, ?_, hc2, hp2, hl2⟩
    simp only [drPhases, eq_self_iff_true, if_true, hhigh, h2, h3]
  -- A pass for `polarity == 1`, pin low at entry, inside the window: the first loop is not
  -- entered and the second ends at its first stopping sample.
  have one_low :
      ∀
        (pin : Nat) (miss w : Nat → Bool) (s : DRState) (e : DREdgeEnv) (k2 : Nat)
        (hlow : drHigh e.first = false) (hwin : w s.currentTime = true)
        (hk2 : drFirstStop true w e.phase2 k2),
        ∃ s3, drPhases pin 1 w (drTimedBody pin miss) s e = some s3
          ∧ s3.currentTime = clockAt e.phase2 k2 ∧ s3.pinRegValue = pinRegAt e.phase2 k2
          ∧ s3.log = s.log ++ [HwAction.PinRegRead pin] ++ pollLog pin (k2 + 1) := by
    intro pin miss w s e k2 hlow hwin hk2
    obtain ⟨s3, h3, hc3, hp3, hl3⟩ := drWait_first_stop pin miss true w
      { currentTime := s.currentTime, pinRegValue := e.first, timeoutCounter := s.timeoutCounter,
        log := s.log ++ [HwAction.PinRegRead pin] } e.phase2 k2 (by simp [hlow]) hwin hk2
    refine ⟨s3, ?_, hc3, hp3, hl3⟩
    simp only [drPhases, eq_self_iff_true, if_true, hlow, Bool.false_eq_true, if_false, h3]
  -- A pass for another polarity, pin high at entry, inside the window: the first loop is not
  -- entered and the second, which awaits the low level, ends at its first stopping sample.
  have other_high :
      ∀
        (pin polarity : Nat) (miss w : Nat → Bool) (s : DRState) (e : DREdgeEnv) (k2 : Nat)
        (hpol : polarity ≠ 1) (hhigh : drHigh e.first = true) (hwin : w s.currentTime = true)
        (hk2 : drFirstStop false w e.phase2 k2),
        ∃ s3, drPhases pin polarity w (drTimedBody pin miss) s e = some s3
          ∧ s3.currentTime = clockAt e.phase2 k2 ∧ s3.pinRegValue = pinRegAt e.phase2 k2
          ∧ s3.log = s.log ++ [HwAction.PinRegRead pin] ++ pollLog pin (k2 + 1) := by
    intro pin polarity miss w s e k2 hpol hhigh hwin hk2
    obtain ⟨s3, h3, hc3, hp3, hl3⟩ := drWait_first_stop pin miss false w
      { currentTime := s.currentTime, pinRegValue := e.first, timeoutCounter := s.timeoutCounter,
        log := s.log ++ [HwAction.PinRegRead pin] } e.phase2 k2 (by simp [hhigh]) hwin hk2
    refine ⟨s3, ?_, hc3, hp3, hl3⟩
    simp only [drPhases, hpol, if_false, hhigh, Bool.not_true, Bool.false_and, Bool.false_eq_true,
      h3]
  -- A pass for another polarity, pin low at entry, inside the window: the first loop, whose
  -- own condition has no window test, ends at the first sample that shows the high level; if
  -- that sample is inside the window the second loop runs and ends at its first stopping
  -- sample.
  have other_low_both :
      ∀
        (pin polarity : Nat) (miss w : Nat → Bool) (s : DRState) (e : DREdgeEnv) (k1 k2 : Nat)
        (hpol : polarity ≠ 1) (hlow : drHigh e.first = false) (hwin : w s.currentTime = true)
        (hk1 : drFirstStop true (fun _ => true) e.phase1 k1) (hin : w (clockAt e.phase1 k1) = true)
        (hk2 : drFirstStop false w e.phase2 k2),
        ∃ s3, drPhases pin polarity w (drTimedBody pin miss) s e = some s3
          ∧ s3.currentTime = clockAt e.phase2 k2 ∧ s3.pinRegValue = pinRegAt e.phase2 k2
          ∧ s3.log = s.log ++ [HwAction.PinRegRead pin] ++ pollLog pin (k1 + 1)
              ++ pollLog pin (k2 + 1) := by
    intro pin polarity miss w s e k1 k2 hpol hlow hwin hk1 hin hk2
    obtain ⟨s2, h2, hc2, hp2, hl2⟩ := drWait_first_stop pin miss true (fun _ => true)
      { currentTime := s.currentTime, pinRegValue := e.first, timeoutCounter := s.timeoutCounter,
        log := s.log ++ [HwAction.PinRegRead pin] } e.phase1 k1 (by simp [hlow]) rfl hk1
    have hhigh2 : drHigh s2.pinRegValue ≠ false := by
      rw [hp2]
      cases hk1.2.1 with
      | inl h => rw [h]; simp
      | inr h => simp at h
    obtain ⟨s3, h3, hc3, hp3, hl3⟩ := drWait_first_stop pin miss false w s2 e.phase2 k2 hhigh2
      (by rw [hc2]; exact hin) hk2
    refine ⟨s3, ?_, hc3, hp3, by rw [hl3, hl2]⟩
    simp only [drPhases, hpol, if_false, hlow, hwin, Bool.not_false, Bool.and_self, if_true, h2, h3]
  -- A pass for another polarity, pin low at entry, inside the window: if the first sample that
  -- shows the high level is outside the window, the pass ends there.
  have other_low_deadline :
      ∀
        (pin polarity : Nat) (miss w : Nat → Bool) (s : DRState) (e : DREdgeEnv) (k1 : Nat)
        (hpol : polarity ≠ 1) (hlow : drHigh e.first = false) (hwin : w s.currentTime = true)
        (hk1 : drFirstStop true (fun _ => true) e.phase1 k1)
        (hout : w (clockAt e.phase1 k1) = false),
        ∃ s2, drPhases pin polarity w (drTimedBody pin miss) s e = some s2
          ∧ s2.currentTime = clockAt e.phase1 k1 ∧ s2.pinRegValue = pinRegAt e.phase1 k1
          ∧ s2.log = s.log ++ [HwAction.PinRegRead pin] ++ pollLog pin (k1 + 1) := by
    intro pin polarity miss w s e k1 hpol hlow hwin hk1 hout
    obtain ⟨s2, h2, hc2, hp2, hl2⟩ := drWait_first_stop pin miss true (fun _ => true)
      { currentTime := s.currentTime, pinRegValue := e.first, timeoutCounter := s.timeoutCounter,
        log := s.log ++ [HwAction.PinRegRead pin] } e.phase1 k1 (by simp [hlow]) rfl hk1
    have h3 : drWait false w (drTimedBody pin miss) s2 e.phase2 = some (s2, e.phase2) :=
      drWait_skip _ _ _ _ _ (by rw [hc2, hout]; simp)
    refine ⟨s2, ?_, hc2, hp2, hl2⟩
    simp only [drPhases, hpol, if_false, hlow, hwin, Bool.not_false, Bool.and_self, if_true, h2, h3]
  -- A pass entered outside the window reads the pin register once and polls nothing, for every
  -- polarity.
  have outside :
      ∀
        (pin polarity : Nat) (w : Nat → Bool) (body : DRState → Nat × Nat → DRState) (s : DRState)
        (e : DREdgeEnv) (hout : w s.currentTime = false),
        drPhases pin polarity w body s e
          = some { currentTime := s.currentTime, pinRegValue := e.first,
                   timeoutCounter := s.timeoutCounter,
                   log := s.log ++ [HwAction.PinRegRead pin] } := by
    intro pin polarity w body s e hout
    have hskip : ∀ awaitHigh trace, drWait awaitHigh w body
        { currentTime := s.currentTime, pinRegValue := e.first, timeoutCounter := s.timeoutCounter,
          log := s.log ++ [HwAction.PinRegRead pin] } trace
        = some ({ currentTime := s.currentTime, pinRegValue := e.first,
                  timeoutCounter := s.timeoutCounter,
                  log := s.log ++ [HwAction.PinRegRead pin] }, trace) :=
      fun awaitHigh trace => drWait_skip _ _ _ _ _ (by simp [hout])
    by_cases hpol : polarity = 1
    · by_cases hhigh : drHigh e.first = true
      · simp only [drPhases, hpol, if_true, hhigh, hskip]
      · simp only [drPhases, hpol, if_true, hhigh, Bool.false_eq_true, if_false, hskip]
    · simp only [drPhases, hpol, if_false, hout, Bool.and_false, Bool.false_eq_true, hskip]
  -- On a pin that is high at entry, `AdiMeasureDR` for `polarity == 1` with a nonzero timeout
  -- returns once a timer sample of its first wait loop is outside the window, provided the
  -- timer samples taken after the passes are outside the window too: the first pass polls `k +
  -- 1` times and the other passes poll nothing.
  have deadline_returns :
      ∀
        (b : Board) (USBBuffer : List Nat) (env : MeasureDREnv) (e0 e1 e2 : DREdgeEnv) (k : Nat)
        (hvalid : drValidPin env ≠ 0) (hpol : usbByte USBBuffer 2 = 1)
        (ht : AdiMStoTicks b (usbWord32 USBBuffer 7) ≠ 0) (hedges : env.edges = [e0, e1, e2])
        (hhigh : drHigh e0.first = true)
        (hk : drFirstStop false (drWindow (drSampleRollover (AdiMStoTicks b (usbWord32 USBBuffer 7)) env.startTime) env.startTime (drSampleEndTime (AdiMStoTicks b (usbWord32 USBBuffer 7)) env.startTime)) e0.phase1 k)
        (hout : drWindow (drSampleRollover (AdiMStoTicks b (usbWord32 USBBuffer 7)) env.startTime) env.startTime (drSampleEndTime (AdiMStoTicks b (usbWord32 USBBuffer 7)) env.startTime) (clockAt e0.phase1 k) = false)
        (h0 : drWindow (drSampleRollover (AdiMStoTicks b (usbWord32 USBBuffer 7)) env.startTime) env.startTime (drSampleEndTime (AdiMStoTicks b (usbWord32 USBBuffer 7)) env.startTime) e0.edgeTime = false)
        (h1 : drWindow (drSampleRollover (AdiMStoTicks b (usbWord32 USBBuffer 7)) env.startTime) env.startTime (drSampleEndTime (AdiMStoTicks b (usbWord32 USBBuffer 7)) env.startTime) e1.edgeTime = false),
        ∃ c, AdiMeasureDR b USBBuffer env
          = some (measureDRSend b
              (sub32 (drElapsed env.startTime e1.edgeTime) (drElapsed env.startTime e0.edgeTime)) c
              (measureDREntryLog USBBuffer env ++ [HwAction.PinRegRead (usbWord16 USBBuffer 0)]
                ++ pollLog (usbWord16 USBBuffer 0) (k + 1)
                ++ [HwAction.TimerSampleNow,
                    HwAction.PinRegRead (usbWord16 USBBuffer 0), HwAction.TimerSampleNow,
                    HwAction.PinRegRead (usbWord16 USBBuffer 0), HwAction.TimerSampleNow])
              env.dmaStatus) := by
    intro b USBBuffer env e0 e1 e2 k hvalid hpol ht hedges hhigh hk hout h0 h1
    have hlt : AdiMStoTicks b (usbWord32 USBBuffer 7) < 2 ^ 32 := Nat.mod_lt _ (by decide)
    have hW0 := drWindow_at_start _ env.startTime ht hlt
    obtain ⟨v0, hv0, hc0, hp0, hl0⟩ := one_deadline (usbWord16 USBBuffer 0)
      (drMiss (drSampleRollover (AdiMStoTicks b (usbWord32 USBBuffer 7)) env.startTime)
        env.startTime (drSampleEndTime (AdiMStoTicks b (usbWord32 USBBuffer 7)) env.startTime))
      (drWindow (drSampleRollover (AdiMStoTicks b (usbWord32 USBBuffer 7)) env.startTime)
        env.startTime (drSampleEndTime (AdiMStoTicks b (usbWord32 USBBuffer 7)) env.startTime))
      { currentTime := env.startTime, pinRegValue := 0, timeoutCounter := 0,
        log := measureDREntryLog USBBuffer env } e0 k hhigh hW0 hk hout
    have hE1 : ∀ (p c : Nat) (l : List HwAction),
        drPhases (usbWord16 USBBuffer 0) 1
          (drWindow (drSampleRollover (AdiMStoTicks b (usbWord32 USBBuffer 7)) env.startTime)
            env.startTime (drSampleEndTime (AdiMStoTicks b (usbWord32 USBBuffer 7)) env.startTime))
          (drTimedBody (usbWord16 USBBuffer 0)
            (drMiss (drSampleRollover (AdiMStoTicks b (usbWord32 USBBuffer 7)) env.startTime)
              env.startTime
              (drSampleEndTime (AdiMStoTicks b (usbWord32 USBBuffer 7)) env.startTime)))
          { currentTime := e0.edgeTime, pinRegValue := p, timeoutCounter := c, log := l } e1
          = some { currentTime := e0.edgeTime, pinRegValue := e1.first, timeoutCounter := c,
                   log := l ++ [HwAction.PinRegRead (usbWord16 USBBuffer 0)] } :=
      fun p c l => outside _ _ _ _ _ _ h0
    have hE2 : ∀ (p c : Nat) (l : List HwAction),
        drPhases (usbWord16 USBBuffer 0) 1
          (drWindow (drSampleRollover (AdiMStoTicks b (usbWord32 USBBuffer 7)) env.startTime)
            env.startTime (drSampleEndTime (AdiMStoTicks b (usbWord32 USBBuffer 7)) env.startTime))
          (drTimedBody (usbWord16 USBBuffer 0)
            (drMiss (drSampleRollover (AdiMStoTicks b (usbWord32 USBBuffer 7)) env.startTime)
              env.startTime
              (drSampleEndTime (AdiMStoTicks b (usbWord32 USBBuffer 7)) env.startTime)))
          { currentTime := e1.edgeTime, pinRegValue := p, timeoutCounter := c, log := l } e2
          = some { currentTime := e1.edgeTime, pinRegValue := e2.first, timeoutCounter := c,
                   log := l ++ [HwAction.PinRegRead (usbWord16 USBBuffer 0)] } :=
      fun p c l => outside _ _ _ _ _ _ h1
    refine ⟨v0.timeoutCounter, ?_⟩
    simp only [AdiMeasureDR, hvalid, ne_eq, not_false_eq_true, if_true, measureDRSamples,
      drSampleLoop, forFrom, drSampleBody, hedges, drEdge_timed _ _ _ _ _ _ _ _ ht, hpol, hv0,
      hE1, hE2, hl0]
    simp [timeWaitedAt]
  refine ⟨?_, ?_, ?_, ?_, ?_, ?_, ?_, ?_, ?_, ?_⟩
  · intro k1 k2 hhigh hwin hk1 hin hk2
    rw [drEdge_timed _ _ _ _ _ _ _ _ ht]
    exact one_both _ _ _ _ _ _ _ hhigh hwin hk1 hin hk2
  · intro k1 hhigh hwin hk1 hout
    rw [drEdge_timed _ _ _ _ _ _ _ _ ht]
    exact one_deadline _ _ _ _ _ _ hhigh hwin hk1 hout
  · intro k2 hlow hwin hk2
    rw [drEdge_timed _ _ _ _ _ _ _ _ ht]
    exact one_low _ _ _ _ _ _ hlow hwin hk2
  · intro polarity k2 hpol hhigh hwin hk2
    rw [drEdge_timed _ _ _ _ _ _ _ _ ht]
    exact other_high _ _ _ _ _ _ _ hpol hhigh hwin hk2
  · intro polarity k1 k2 hpol hlow hwin hk1 hin hk2
    rw [drEdge_timed _ _ _ _ _ _ _ _ ht]
    exact other_low_both _ _ _ _ _ _ _ _ hpol hlow hwin hk1 hin hk2
  · intro polarity k1 hpol hlow hwin hk1 hout
    rw [drEdge_timed _ _ _ _ _ _ _ _ ht]
    exact other_low_deadline _ _ _ _ _ _ _ hpol hlow hwin hk1 hout
  · intro polarity hout
    rw [drEdge_timed _ _ _ _ _ _ _ _ ht]
    exact outside _ _ _ _ _ _ hout
  · intro b USBBuffer env e1 e2 k hvalid hpin hpol htime hstart hroll hend hedges hhigh hk hout
      h0 h1
    subst hpin htime hstart hroll hend
    exact deadline_returns b USBBuffer env e e1 e2 k hvalid hpol ht hedges hhigh hk
      hout h0 h1
  · intro t
    simp [drWindow, drWindowPlain]
  · intro t
    simp [drWindow, drWindowRoll]

/-- C14, amended, at a concrete run: pin 5, polarity 1, timeout 1 ms (10078
ticks), start tick 100, window end 10178 without rollover.  The pin is high at
entry and stays high; the second poll of the first wait loop reads the timer at
20000, outside the window, so `k = 1` and the routine returns after two polls,
with the delta 20020 - 20010 of the two recorded times. -/
theorem AdiMeasureDR_wait_ends_at_level_or_deadline_witness :
    (∃ c, AdiMeasureDR
        { MS_TO_TICKS_MULT := 10078, ADI_MICROSECONDS_SLEEP_OFFSET := 0, StallTime := 0 }
        [5, 0, 1, 0, 0, 0, 0, 1, 0, 0, 0]
        { startTime := 100, getValue1 := 0, getValue2 := 0, uninitValidPin := 0,
          edges := [{ first := 2, phase1 := [(5000, 2), (20000, 2), (30000, 0)],
                      phase2 := [(40000, 2)], edgeTime := 20010 },
                    { first := 2, phase1 := [], phase2 := [], edgeTime := 20020 },
                    { first := 2, phase1 := [], phase2 := [], edgeTime := 20030 }],
          dmaStatus := 0 }
      = some (measureDRSend
          { MS_TO_TICKS_MULT := 10078, ADI_MICROSECONDS_SLEEP_OFFSET := 0, StallTime := 0 }
          (sub32 (drElapsed 100 20020) (drElapsed 100 20010)) c
          (measureDREntryLog [5, 0, 1, 0, 0, 0, 0, 1, 0, 0, 0]
              { startTime := 100, getValue1 := 0, getValue2 := 0, uninitValidPin := 0,
                edges := [{ first := 2, phase1 := [(5000, 2), (20000, 2), (30000, 0)],
                            phase2 := [(40000, 2)], edgeTime := 20010 },
                          { first := 2, phase1 := [], phase2 := [], edgeTime := 20020 },
                          { first := 2, phase1 := [], phase2 := [], edgeTime := 20030 }],
                dmaStatus := 0 }
            ++ [HwAction.PinRegRead 5] ++ pollLog 5 (1 + 1)
            ++ [HwAction.TimerSampleNow, HwAction.PinRegRead 5, HwAction.TimerSampleNow,
                HwAction.PinRegRead 5, HwAction.TimerSampleNow])
          0))
    ∧ (AdiMeasureDR
        { MS_TO_TICKS_MULT := 10078, ADI_MICROSECONDS_SLEEP_OFFSET := 0, StallTime := 0 }
        [5, 0, 1, 0, 0, 0, 0, 1, 0, 0, 0]
        { startTime := 100, getValue1 := 0, getValue2 := 0, uninitValidPin := 0,
          edges := [{ first := 2, phase1 := [(5000, 2), (20000, 2), (30000, 0)],
                      phase2 := [(40000, 2)], edgeTime := 20010 },
                    { first := 2, phase1 := [], phase2 := [], edgeTime := 20020 },
                    { first := 2, phase1 := [], phase2 := [], edgeTime := 20030 }],
          dmaStatus := 0 }).map (fun o => o.log)
      = some [HwAction.TimerSampleNow, HwAction.GpioSimpleGetValue 5, HwAction.PinRegRead 5,
          HwAction.TimerSampleNow, HwAction.PinRegRead 5,
          HwAction.TimerSampleNow, HwAction.PinRegRead 5,
          HwAction.TimerSampleNow, HwAction.PinRegRead 5, HwAction.TimerSampleNow,
          HwAction.PinRegRead 5, HwAction.TimerSampleNow, HwAction.DmaSend 9] :=
  ⟨(AdiMeasureDR_wait_ends_at_level_or_deadline 5 10078 false 100 10178
    { currentTime := 100, pinRegValue := 0, timeoutCounter := 0, log := [] }
    { first := 2, phase1 := [(5000, 2), (20000, 2), (30000, 0)], phase2 := [(40000, 2)],
      edgeTime := 20010 }
    (by decide)).2.2.2.2.2.2.2.1
    { MS_TO_TICKS_MULT := 10078, ADI_MICROSECONDS_SLEEP_OFFSET := 0, StallTime := 0 }
    [5, 0, 1, 0, 0, 0, 0, 1, 0, 0, 0]
    { startTime := 100, getValue1 := 0, getValue2 := 0, uninitValidPin := 0,
      edges := [{ first := 2, phase1 := [(5000, 2), (20000, 2), (30000, 0)],
                  phase2 := [(40000, 2)], edgeTime := 20010 },
                { first := 2, phase1 := [], phase2 := [], edgeTime := 20020 },
                { first := 2, phase1 := [], phase2 := [], edgeTime := 20030 }],
      dmaStatus := 0 }
    { first := 2, phase1 := [], phase2 := [], edgeTime := 20020 }
    { first := 2, phase1 := [], phase2 := [], edgeTime := 20030 }
    1 (by decide) (by decide) (by decide) (by decide) (by decide) (by decide) (by decide)
    (by decide) (by decide) (by decide) (by decide) (by decide) (by decide),
    by decide⟩

/-- C15, the code at a failing input: pin 5, polarity 1, timeout 1 ms (10078
ticks), start tick `0xFFFFFFF0`, so the window rolls over and ends at 10063.
The counting test `currentTime <= startTime || currentTime >= sampleEndTime`
holds for every tick.  The six polls of the run read the timer at `0xFFFFFFF5`,
`0xFFFFFFFA`, `0xFFFFFFFC`, `0xFFFFFFFD`, 3 and 7, all strictly inside the
window, and byte 8 of the record reports six misses. -/
theorem AdiMeasureDR_rollover_counts_ticks_inside_window :
    (∀ t, drMissRoll 0xFFFFFFF0 10063 t = true)
    ∧ drSampleRollover 10078 0xFFFFFFF0 = true
    ∧ drSampleEndTime 10078 0xFFFFFFF0 = 10063
    ∧ (0xFFFFFFF0 < 0xFFFFFFF5 ∧ 0xFFFFFFF0 < 0xFFFFFFFA ∧ 0xFFFFFFF0 < 0xFFFFFFFC
      ∧ 0xFFFFFFF0 < 0xFFFFFFFD ∧ 3 < 10063 ∧ 7 < 10063)
    ∧ (AdiMeasureDR { MS_TO_TICKS_MULT := 10078, ADI_MICROSECONDS_SLEEP_OFFSET := 0, StallTime := 0 }
        [5, 0, 1, 0, 0, 0, 0, 1, 0, 0, 0]
        { startTime := 0xFFFFFFF0, getValue1 := 0, getValue2 := 0, uninitValidPin := 0,
          edges := [{ first := 0, phase1 := [], phase2 := [(0xFFFFFFF5, 0), (0xFFFFFFFA, 2)],
                      edgeTime := 0xFFFFFFFB },
                    { first := 2, phase1 := [(0xFFFFFFFC, 0)], phase2 := [(0xFFFFFFFD, 2)],
                      edgeTime := 0xFFFFFFFE },
                    { first := 2, phase1 := [(3, 0)], phase2 := [(7, 2)], edgeTime := 9 }],
          dmaStatus := 0 }).map (fun o => o.BulkBuffer.drop 8)
      = some [6] := by
  refine ⟨fun t => ?_, by decide⟩
  simp only [drMissRoll, Bool.or_eq_true, decide_eq_true_eq]
  omega

/-- C16, counterexample: pin 5, polarity 0, timeout 1 ms, start tick 100.  The
pin is low at entry and the loop that waits for the high level polls 256 times
with the timer at 20000, past the window end 10178: 256 counted misses.  Byte 8
of the record is 0, not 255. -/
theorem AdiMeasureDR_256_misses_reported_as_zero :
    (AdiMeasureDR { MS_TO_TICKS_MULT := 10078, ADI_MICROSECONDS_SLEEP_OFFSET := 0, StallTime := 0 }
        [5, 0, 0, 0, 0, 0, 0, 1, 0, 0, 0]
        { startTime := 100, getValue1 := 0, getValue2 := 0, uninitValidPin := 0,
          edges := [{ first := 0, phase1 := List.replicate 255 (20000, 0) ++ [(20000, 2)],
                      phase2 := [], edgeTime := 20010 },
                    { first := 2, phase1 := [], phase2 := [], edgeTime := 20020 },
                    { first := 2, phase1 := [], phase2 := [], edgeTime := 20030 }],
          dmaStatus := 0 }).map (fun o => o.BulkBuffer.drop 8)
      = some [0]
    ∧ (measureDRSamples { MS_TO_TICKS_MULT := 10078, ADI_MICROSECONDS_SLEEP_OFFSET := 0, StallTime := 0 }
        [5, 0, 0, 0, 0, 0, 0, 1, 0, 0, 0]
        { startTime := 100, getValue1 := 0, getValue2 := 0, uninitValidPin := 0,
          edges := [{ first := 0, phase1 := List.replicate 255 (20000, 0) ++ [(20000, 2)],
                      phase2 := [], edgeTime := 20010 },
                    { first := 2, phase1 := [], phase2 := [], edgeTime := 20020 },
                    { first := 2, phase1 := [], phase2 := [], edgeTime := 20030 }],
          dmaStatus := 0 }).map (fun s => s.vars.timeoutCounter)
      = some 256
    ∧ min 256 255 = 255 := by
  set_option maxRecDepth 100000 in decide

/-- Two loops with the same condition whose bodies commute with a map of the
state run in step. -/
theorem pollLoop_map {σ α : Type} (f : σ → σ) (done : σ → Bool) (B G : σ → α → σ)
    (hdone : ∀ g, done (f g) = done g) (hstep : ∀ g x, B (f g) x = f (G g x)) :
    ∀ (xs : List α) (g : σ),
      pollLoop done B (f g) xs = (pollLoop done G g xs).map (fun p => (f p.1, p.2)) := by
  intro xs
  induction xs with
  | nil =>
    intro g
    simp only [pollLoop, hdone]
    split <;> rfl
  | cons x xs ih =>
    intro g
    simp only [pollLoop, hdone]
    split
    · rfl
    · rw [hstep, ih]

theorem forFrom_map {σ : Type} (f : σ → σ) (B G : Nat → σ → Option σ)
    (hstep : ∀ i g, B i (f g) = (G i g).map f) :
    ∀ (n i : Nat) (g : σ), forFrom B n i (f g) = (forFrom G n i g).map f := by
  intro n
  induction n with
  | zero => intro i g; rfl
  | succ n ih =>
    intro i g
    simp only [forFrom, hstep]
    cases G i g with
    | none => rfl
    | some g2 => exact ih (i + 1) g2

theorem drTimedBody_wrap (pin : Nat) (miss : Nat → Bool) (g : DRState) (x : Nat × Nat) :
    drTimedBody pin miss (drWrap g) x = drWrap (drTallyBody pin miss g x) := by
  simp only [drTimedBody, drTallyBody, drWrap, drCountMiss, u32, DRState.mk.injEq, true_and,
    and_true]
  split
  · omega
  · rfl

theorem drUntimedBody_wrap (pin : Nat) (g : DRState) (x : Nat × Nat) :
    drUntimedBody pin (drWrap g) x = drWrap (drUntimedBody pin g x) := rfl

theorem drWait_wrap (awaitHigh : Bool) (window : Nat → Bool)
    (B G : DRState → Nat × Nat → DRState) (hstep : ∀ g x, B (drWrap g) x = drWrap (G g x))
    (g : DRState) (trace : List (Nat × Nat)) :
    drWait awaitHigh window B (drWrap g) trace
      = (drWait awaitHigh window G g trace).map (fun p => (drWrap p.1, p.2)) :=
  pollLoop_map drWrap
    (fun s : DRState => !(drLevelKeep awaitHigh s.pinRegValue && window s.currentTime)) B G
    (fun _ => rfl) hstep trace g

theorem drPhases_wrap (pin polarity : Nat) (window : Nat → Bool)
    (B G : DRState → Nat × Nat → DRState) (hstep : ∀ g x, B (drWrap g) x = drWrap (G g x))
    (g : DRState) (e : DREdgeEnv) :
    drPhases pin polarity window B (drWrap g) e
      = (drPhases pin polarity window G g e).map drWrap := by
  have h1 : ({ currentTime := (drWrap g).currentTime, pinRegValue := e.first,
               timeoutCounter := (drWrap g).timeoutCounter,
               log := (drWrap g).log ++ [HwAction.PinRegRead pin] } : DRState)
      = drWrap { currentTime := g.currentTime, pinRegValue := e.first,
                 timeoutCounter := g.timeoutCounter,
                 log := g.log ++ [HwAction.PinRegRead pin] } := rfl
  have hcur : (drWrap g).currentTime = g.currentTime := rfl
  simp only [drPhases, h1]
  simp only [hcur]
  by_cases hp : polarity = 1
  · simp only [hp, if_true]
    by_cases hh : drHigh e.first = true
    · simp only [hh, if_true, drWait_wrap _ _ B G hstep]
      cases drWait false window G
          ({ currentTime := g.currentTime, pinRegValue := e.first,
             timeoutCounter := g.timeoutCounter,
             log := g.log ++ [HwAction.PinRegRead pin] } : DRState) e.phase1 with
      | none => rfl
      | some p =>
        simp only [Option.map_some', drWait_wrap _ _ B G hstep]
        cases drWait true window G p.1 e.phase2 with
        | none => rfl
        | some q => rfl
    · simp only [hh, Bool.false_eq_true, if_false, drWait_wrap _ _ B G hstep]
      cases drWait true window G
          ({ currentTime := g.currentTime, pinRegValue := e.first,
             timeoutCounter := g.timeoutCounter,
             log := g.log ++ [HwAction.PinRegRead pin] } : DRState) e.phase2 with
      | none => rfl
      | some q => rfl
  · simp only [hp, if_false]
    by_cases hh : (!drHigh e.first && window g.currentTime) = true
    · simp only [hh, if_true, drWait_wrap _ _ B G hstep]
      cases drWait true (fun _ => true) G
          ({ currentTime := g.currentTime, pinRegValue := e.first,
             timeoutCounter := g.timeoutCounter,
             log := g.log ++ [HwAction.PinRegRead pin] } : DRState) e.phase1 with
      | none => rfl
      | some p =>
        simp only [Option.map_some', drWait_wrap _ _ B G hstep]
        cases drWait false window G p.1 e.phase2 with
        | none => rfl
        | some q => rfl
    · simp only [hh, Bool.false_eq_true, if_false, drWait_wrap _ _ B G hstep]
      cases drWait false window G
          ({ currentTime := g.currentTime, pinRegValue := e.first,
             timeoutCounter := g.timeoutCounter,
             log := g.log ++ [HwAction.PinRegRead pin] } : DRState) e.phase2 with
      | none => rfl
      | some q => rfl

theorem drEdge_wrap (pin polarity timeout : Nat) (sampleRollover : Bool)
    (startTime sampleEndTime : Nat) (g : DRState) (e : DREdgeEnv) :
    drEdge pin polarity timeout sampleRollover startTime sampleEndTime (drWrap g) e
      = (drEdgeTally pin polarity timeout sampleRollover startTime sampleEndTime g e).map
          drWrap := by
  unfold drEdge drEdgeTally
  split
  · split
    · exact drPhases_wrap _ _ _ _ _ (drTimedBody_wrap _ _) _ _
    · exact drPhases_wrap _ _ _ _ _ (drTimedBody_wrap _ _) _ _
  · exact drPhases_wrap _ _ _ _ _ (drUntimedBody_wrap _) _ _

theorem drSampleBody_wrap (pin polarity timeout : Nat) (sampleRollover : Bool)
    (startTime sampleEndTime : Nat) (i : Nat) (g : DRLoopState) :
    drSampleBody pin polarity timeout sampleRollover startTime sampleEndTime i (drLoopWrap g)
      = (drSampleBodyTally pin polarity timeout sampleRollover startTime sampleEndTime i g).map
          drLoopWrap := by
  obtain ⟨vars, stores, edges⟩ := g
  cases edges with
  | nil => rfl
  | cons e es =>
    simp only [drSampleBody, drSampleBodyTally, drLoopWrap, drEdge_wrap]
    cases drEdgeTally pin polarity timeout sampleRollover startTime sampleEndTime vars e with
    | none => rfl
    | some v => rfl

theorem measureDRSamples_wrap (b : Board) (USBBuffer : List Nat) (env : MeasureDREnv) :
    measureDRSamples b USBBuffer env
      = (forFrom (drSampleBodyTally (usbWord16 USBBuffer 0) (usbByte USBBuffer 2)
            (AdiMStoTicks b (usbWord32 USBBuffer 7))
            (drSampleRollover (AdiMStoTicks b (usbWord32 USBBuffer 7)) env.startTime)
            env.startTime (drSampleEndTime (AdiMStoTicks b (usbWord32 USBBuffer 7)) env.startTime))
          (2 + 1) 0
          { vars := { currentTime := env.startTime, pinRegValue := 0, timeoutCounter := 0,
                      log := measureDREntryLog USBBuffer env }
            stores := [], edges := env.edges }).map drLoopWrap :=
  forFrom_map drLoopWrap
    (drSampleBody (usbWord16 USBBuffer 0) (usbByte USBBuffer 2)
      (AdiMStoTicks b (usbWord32 USBBuffer 7))
      (drSampleRollover (AdiMStoTicks b (usbWord32 USBBuffer 7)) env.startTime) env.startTime
      (drSampleEndTime (AdiMStoTicks b (usbWord32 USBBuffer 7)) env.startTime))
    (drSampleBodyTally (usbWord16 USBBuffer 0) (usbByte USBBuffer 2)
      (AdiMStoTicks b (usbWord32 USBBuffer 7))
      (drSampleRollover (AdiMStoTicks b (usbWord32 USBBuffer 7)) env.startTime) env.startTime
      (drSampleEndTime (AdiMStoTicks b (usbWord32 USBBuffer 7)) env.startTime))
    (fun i g => drSampleBody_wrap _ _ _ _ _ _ i g) (2 + 1) 0
    { vars := { currentTime := env.startTime, pinRegValue := 0, timeoutCounter := 0,
                log := measureDREntryLog USBBuffer env }
      stores := [], edges := env.edges }

/-- The sample loop of `AdiMeasureDR` and the tally: the `uint32_t` counter of a
run is the number of counted polls modulo `2 ^ 32`, and a run returns exactly
when its tally is defined. -/
theorem measureDRSamples_tally (b : Board) (USBBuffer : List Nat) (env : MeasureDREnv) :
    (∀ n, measureDRMisses b USBBuffer env = some n →
      ∃ s, measureDRSamples b USBBuffer env = some s ∧ s.vars.timeoutCounter = n % 2 ^ 32)
    ∧ (∀ s, measureDRSamples b USBBuffer env = some s →
      ∃ n, measureDRMisses b USBBuffer env = some n ∧ s.vars.timeoutCounter = n % 2 ^ 32) := by
  rw [measureDRSamples_wrap]
  simp only [measureDRMisses]
  generalize forFrom (drSampleBodyTally (usbWord16 USBBuffer 0) (usbByte USBBuffer 2)
      (AdiMStoTicks b (usbWord32 USBBuffer 7))
      (drSampleRollover (AdiMStoTicks b (usbWord32 USBBuffer 7)) env.startTime)
      env.startTime (drSampleEndTime (AdiMStoTicks b (usbWord32 USBBuffer 7)) env.startTime))
    (2 + 1) 0
    { vars := { currentTime := env.startTime, pinRegValue := 0, timeoutCounter := 0,
                log := measureDREntryLog USBBuffer env }
      stores := [], edges := env.edges } = r
  cases r with
  | none => simp
  | some g =>
    constructor
    · intro n hn
      simp only [Option.map_some', Option.some.injEq] at hn
      exact ⟨drLoopWrap g, rfl, by rw [← hn]; rfl⟩
    · intro s hs
      simp only [Option.map_some', Option.some.injEq] at hs
      exact ⟨g.vars.timeoutCounter, rfl, by rw [← hs]; rfl⟩

/-- The tally of a timed wait loop after `j` polls: the tally at entry plus the
number of polled samples whose timer value meets the counting test. -/
theorem drTally_count (pin : Nat) (miss : Nat → Bool) (trace : List (Nat × Nat)) :
    ∀ (s : DRState) (j : Nat),
      (stateAfter (drTallyBody pin miss) s trace j).timeoutCounter
        = s.timeoutCounter + ((trace.take j).filter (fun x => miss x.1)).length := by
  induction trace with
  | nil => intro s j; simp [stateAfter]
  | cons x xs ih =>
    intro s j
    cases j with
    | zero => simp [stateAfter]
    | succ j =>
      rw [stateAfter_cons_succ, ih]
      simp only [drTallyBody, List.take_succ_cons, List.filter_cons]
      split
      · simp only [List.length_cons]
        omega
      · rfl

/-- C16, amended: the `timeoutCounter` of `AdiMeasureDR` does not saturate.  For
every run on a valid pin and every number `n`: if the wait loops of the run
count `n` polls as misses, the routine returns a 9-byte record whose byte 8 is
`n mod 256`; and every record the routine returns comes from a run with such a
number of counted polls.  In a wait loop that number grows by the number of
polled samples whose timer value meets the counting test, and each poll keeps
the `uint32_t` counter of the routine equal to it modulo `2 ^ 32`. -/
theorem AdiMeasureDR_counter_byte (b : Board) (USBBuffer : List Nat) (env : MeasureDREnv)
    (hvalid : drValidPin env ≠ 0) :
    (∀ n, measureDRMisses b USBBuffer env = some n →
      ∃ o, AdiMeasureDR b USBBuffer env = some o ∧ o.count = 9
        ∧ o.BulkBuffer.length = 9 ∧ o.BulkBuffer.getD 8 0 = n % 256)
    ∧ (∀ o, AdiMeasureDR b USBBuffer env = some o →
      ∃ n, measureDRMisses b USBBuffer env = some n ∧ o.BulkBuffer.getD 8 0 = n % 256)
    ∧ (∀ (pin : Nat) (miss : Nat → Bool) (s : DRState) (trace : List (Nat × Nat)) (j : Nat),
      (stateAfter (drTallyBody pin miss) s trace j).timeoutCounter
        = s.timeoutCounter + ((trace.take j).filter (fun x => miss x.1)).length)
    ∧ (∀ (pin : Nat) (miss : Nat → Bool) (s g : DRState) (x : Nat × Nat),
      s.timeoutCounter = g.timeoutCounter % 2 ^ 32 →
      (drTimedBody pin miss s x).timeoutCounter
        = (drTallyBody pin miss g x).timeoutCounter % 2 ^ 32) := by
  obtain ⟨hfwd, hbwd⟩ := measureDRSamples_tally b USBBuffer env
  have hbyte : ∀ (deltat c : Nat) (log : List HwAction) (n : Nat), c = n % 2 ^ 32 →
      (measureDRSend b deltat c log env.dmaStatus).BulkBuffer.getD 8 0 = n % 256 := by
    intro deltat c log n hc
    simp only [measureDRSend, storeLE32, u8]
    simp only [List.cons_append, List.nil_append, List.getD_cons_succ, List.getD_cons_zero]
    omega
  refine ⟨?_, ?_, ?_, ?_⟩
  · intro n hn
    obtain ⟨s, hs, hc⟩ := hfwd n hn
    refine ⟨measureDRSend b (sub32 (timeWaitedAt s.stores 1) (timeWaitedAt s.stores 0))
      s.vars.timeoutCounter s.vars.log env.dmaStatus, ?_, rfl, ?_, hbyte _ _ _ n hc⟩
    · simp only [AdiMeasureDR, hvalid, hs, ne_eq, not_false_eq_true, if_true]
    · simp [measureDRSend, storeLE32]
  · intro o ho
    simp only [AdiMeasureDR, hvalid, ne_eq, not_false_eq_true, if_true] at ho
    split at ho
    · simp at ho
    · rename_i s hs
      obtain ⟨n, hn, hc⟩ := hbwd s hs
      simp only [Option.some.injEq] at ho
      subst ho
      exact ⟨n, hn, hbyte _ _ _ n hc⟩
  · intro pin miss s trace j
    exact drTally_count pin miss trace s j
  · intro pin miss s g x hs
    simp only [drTimedBody, drTallyBody, drCountMiss, u32, hs]
    split
    · omega
    · rfl

/-- C16, amended, at a concrete run: pin 5, polarity 0, timeout 1 ms, start tick
100.  The pin is low at entry and the loop that waits for the high level polls
257 times with the timer at 20000, past the window end 10178: the run counts
257 polls and byte 8 of the record is 1. -/
theorem AdiMeasureDR_counter_byte_witness :
    (∃ o, AdiMeasureDR
        { MS_TO_TICKS_MULT := 10078, ADI_MICROSECONDS_SLEEP_OFFSET := 0, StallTime := 0 }
        [5, 0, 0, 0, 0, 0, 0, 1, 0, 0, 0]
        { startTime := 100, getValue1 := 0, getValue2 := 0, uninitValidPin := 0,
          edges := [{ first := 0, phase1 := List.replicate 256 (20000, 0) ++ [(20000, 2)],
                      phase2 := [], edgeTime := 20010 },
                    { first := 2, phase1 := [], phase2 := [], edgeTime := 20020 },
                    { first := 2, phase1 := [], phase2 := [], edgeTime := 20030 }],
          dmaStatus := 0 } = some o
      ∧ o.count = 9 ∧ o.BulkBuffer.length = 9 ∧ o.BulkBuffer.getD 8 0 = 257 % 256)
    ∧ (AdiMeasureDR
        { MS_TO_TICKS_MULT := 10078, ADI_MICROSECONDS_SLEEP_OFFSET := 0, StallTime := 0 }
        [5, 0, 0, 0, 0, 0, 0, 1, 0, 0, 0]
        { startTime := 100, getValue1 := 0, getValue2 := 0, uninitValidPin := 0,
          edges := [{ first := 0, phase1 := List.replicate 256 (20000, 0) ++ [(20000, 2)],
                      phase2 := [], edgeTime := 20010 },
                    { first := 2, phase1 := [], phase2 := [], edgeTime := 20020 },
                    { first := 2, phase1 := [], phase2 := [], edgeTime := 20030 }],
          dmaStatus := 0 }).map (fun o => o.BulkBuffer.drop 8)
      = some [1] :=
  ⟨(AdiMeasureDR_counter_byte
    { MS_TO_TICKS_MULT := 10078, ADI_MICROSECONDS_SLEEP_OFFSET := 0, StallTime := 0 }
    [5, 0, 0, 0, 0, 0, 0, 1, 0, 0, 0]
    { startTime := 100, getValue1 := 0, getValue2 := 0, uninitValidPin := 0,
      edges := [{ first := 0, phase1 := List.replicate 256 (20000, 0) ++ [(20000, 2)],
                  phase2 := [], edgeTime := 20010 },
                { first := 2, phase1 := [], phase2 := [], edgeTime := 20020 },
                { first := 2, phase1 := [], phase2 := [], edgeTime := 20030 }],
      dmaStatus := 0 }
    (by decide)).1 257 (by set_option maxRecDepth 100000 in decide),
    by set_option maxRecDepth 100000 in decide⟩

/-- C17, the code at a failing input: pin 5, polarity 1, no timeout.  The first
read of the pin fails with status 0x45 and the read after the reconfiguration
succeeds, so the pin is valid, but `validPin` is assigned on neither path
taken.  When the unassigned local holds 0 the routine skips the measurement,
polls nothing and reports the delta `0xFFFFFFFF`; when it holds 1 the same
request measures the edges (delta 1000). -/
theorem AdiMeasureDR_second_read_ok_validPin_unassigned :
    AdiMeasureDR { MS_TO_TICKS_MULT := 10078, ADI_MICROSECONDS_SLEEP_OFFSET := 0, StallTime := 0 }
        [5, 0, 1, 0, 0, 0, 0, 0, 0, 0, 0]
        { startTime := 1000, getValue1 := 0x45, getValue2 := 0, uninitValidPin := 0,
          edges := [{ first := 2, phase1 := [(0, 2), (0, 0)], phase2 := [(0, 0), (0, 2)],
                      edgeTime := 1500 },
                    { first := 2, phase1 := [(0, 0)], phase2 := [(0, 2)], edgeTime := 2500 },
                    { first := 2, phase1 := [(0, 0)], phase2 := [(0, 2)], edgeTime := 3500 }],
          dmaStatus := 0 }
      = some { status := 0
               log := [HwAction.TimerSampleNow, HwAction.GpioSimpleGetValue 5,
                 HwAction.GpioSetSimpleConfig 5 inputConfig, HwAction.GpioSimpleGetValue 5,
                 HwAction.DmaSend 9]
               BulkBuffer := [0xFF, 0xFF, 0xFF, 0xFF, 0x5E, 0x27, 0, 0, 0]
               count := 9 }
    ∧ (AdiMeasureDR { MS_TO_TICKS_MULT := 10078, ADI_MICROSECONDS_SLEEP_OFFSET := 0, StallTime := 0 }
        [5, 0, 1, 0, 0, 0, 0, 0, 0, 0, 0]
        { startTime := 1000, getValue1 := 0x45, getValue2 := 0, uninitValidPin := 1,
          edges := [{ first := 2, phase1 := [(0, 2), (0, 0)], phase2 := [(0, 0), (0, 2)],
                      edgeTime := 1500 },
                    { first := 2, phase1 := [(0, 0)], phase2 := [(0, 2)], edgeTime := 2500 },
                    { first := 2, phase1 := [(0, 0)], phase2 := [(0, 2)], edgeTime := 3500 }],
          dmaStatus := 0 }).map (fun o => o.BulkBuffer)
      = some [0xE8, 3, 0, 0, 0x5E, 0x27, 0, 0, 0] := by
  decide

/-! ### The invalid-pin path of `AdiPulseWait` and the result records -/

/-- C18: in `AdiPulseWait`, if the pin cannot be read at first and still cannot
be read after it is reconfigured as an input, the routine sets up the timer,
makes the two reads and the configuration in between, and hands over the
result: neither the delay phase nor the level wait samples the timer or the
pin.  The record has 12 bytes; its elapsed ticks are `0xFFFFFFFF` and its
status is that of the failed second read, which is not success. -/
theorem AdiPulseWait_unreadable_pin (b : Board) (USBBuffer : List Nat) (env : PulseWaitEnv)
    (h1 : env.getValue1 ≠ CY_U3P_SUCCESS) (h2 : env.getValue2 ≠ CY_U3P_SUCCESS)
    (hword : env.getValue2 < 2 ^ 32) :
    ∃ o, AdiPulseWait b USBBuffer env = some o
      ∧ o.log = [HwAction.TimerIntrOff, HwAction.TimerPeriodMax, HwAction.TimerZero,
          HwAction.GpioSimpleGetValue (usbWord16 USBBuffer 0),
          HwAction.GpioSetSimpleConfig (usbWord16 USBBuffer 0) inputConfig,
          HwAction.GpioSimpleGetValue (usbWord16 USBBuffer 0), HwAction.DmaSend 12]
      ∧ o.status = env.getValue2 ∧ o.status ≠ CY_U3P_SUCCESS
      ∧ o.count = 12 ∧ o.BulkBuffer.length = 12
      ∧ readLE32 (o.BulkBuffer.take 4) = env.getValue2
      ∧ readLE32 ((o.BulkBuffer.drop 4).take 4) = 0xFFFFFFFF := by
  have hv := validateInputPin_unreadable (usbWord16 USBBuffer 0) env.getValue1 env.getValue2 h1 h2
  refine ⟨pulseWaitSend env.getValue2 0xFFFFFFFF env.uninitRollOverCount
    [HwAction.TimerIntrOff, HwAction.TimerPeriodMax, HwAction.TimerZero,
      HwAction.GpioSimpleGetValue (usbWord16 USBBuffer 0),
      HwAction.GpioSetSimpleConfig (usbWord16 USBBuffer 0) inputConfig,
      HwAction.GpioSimpleGetValue (usbWord16 USBBuffer 0)], ?_, ?_, ?_, ?_, ?_, ?_, ?_, ?_⟩
  · simp only [AdiPulseWait, pulseWaitEntry, hv]
    simp
  · simp [pulseWaitSend]
  · simp [pulseWaitSend]
  · simpa [pulseWaitSend] using h2
  · simp [pulseWaitSend]
  · simp [pulseWaitSend, storeLE32]
  · have hs := readLE32_storeLE32 env.getValue2 hword
    simp only [pulseWaitSend, storeLE32_eq] at hs ⊢
    simpa using hs
  · simp only [pulseWaitSend, storeLE32_eq]
    simp [readLE32]

/-- C18 at a concrete request: both reads of pin 5 fail with status 0x45. -/
theorem AdiPulseWait_unreadable_pin_witness :
    ∃ o, AdiPulseWait { MS_TO_TICKS_MULT := 10078, ADI_MICROSECONDS_SLEEP_OFFSET := 0, StallTime := 0 }
        [5, 0, 1, 2, 0, 0, 0, 0xE8, 3, 0, 0, 0, 0, 0, 0]
        { getValue1 := 0x45, getValue2 := 0x45, uninitRollOverCount := 77,
          delayClock := [100, 30000], poll := [(30100, 0), (30200, 2)] } = some o
      ∧ o.log = [HwAction.TimerIntrOff, HwAction.TimerPeriodMax, HwAction.TimerZero,
          HwAction.GpioSimpleGetValue 5, HwAction.GpioSetSimpleConfig 5 inputConfig,
          HwAction.GpioSimpleGetValue 5, HwAction.DmaSend 12]
      ∧ o.status = 0x45 ∧ o.status ≠ CY_U3P_SUCCESS
      ∧ o.count = 12 ∧ o.BulkBuffer.length = 12
      ∧ readLE32 (o.BulkBuffer.take 4) = 0x45
      ∧ readLE32 ((o.BulkBuffer.drop 4).take 4) = 0xFFFFFFFF :=
  AdiPulseWait_unreadable_pin
    { MS_TO_TICKS_MULT := 10078, ADI_MICROSECONDS_SLEEP_OFFSET := 0, StallTime := 0 }
    [5, 0, 1, 2, 0, 0, 0, 0xE8, 3, 0, 0, 0, 0, 0, 0]
    { getValue1 := 0x45, getValue2 := 0x45, uninitRollOverCount := 77,
      delayClock := [100, 30000], poll := [(30100, 0), (30200, 2)] }
    (by decide) (by decide) (by decide)

theorem readLE32_littleEndian32 (x : Nat) (hx : x < 2 ^ 32) :
    readLE32 (littleEndian32 x) = x := by
  simp only [readLE32, littleEndian32, List.getD_cons_zero, List.getD_cons_succ]
  omega

theorem AdiPulseWait_sends_record (b : Board) (USBBuffer : List Nat) (env : PulseWaitEnv)
    (o : Outcome) (h : AdiPulseWait b USBBuffer env = some o) :
    ∃ elapsedTicks rolloverCount log,
      o = pulseWaitSend o.status elapsedTicks rolloverCount log := by
  simp only [AdiPulseWait] at h
  split at h
  · split at h
    · simp at h
    · split at h
      · simp at h
      · simp only [Option.some.injEq] at h
        subst h
        exact ⟨_, _, _, rfl⟩
  · simp only [Option.some.injEq] at h
    subst h
    exact ⟨_, _, _, rfl⟩

theorem busyPulseMeasure_sends_record (b : Board) (busyPin busyPolarity timeout status : Nat)
    (SpiTriggerMode : Bool) (triggerPin triggerPolarity driveTime : Nat) (log : List HwAction)
    (env : BusyPulseEnv) (o : Outcome)
    (h : busyPulseMeasure b busyPin busyPolarity timeout status SpiTriggerMode triggerPin
      triggerPolarity driveTime log env = some o) :
    ∃ elapsedTicks rolloverCount,
      o.count = 16 ∧ o.BulkBuffer = storeLE32 o.status ++ storeLE32 elapsedTicks
        ++ storeLE32 rolloverCount ++ storeLE32 b.MS_TO_TICKS_MULT := by
  simp only [busyPulseMeasure] at h
  split at h
  · simp at h
  · split at h
    · simp at h
    · simp only [Option.some.injEq] at h
      subst h
      exact ⟨_, _, rfl, rfl⟩

theorem AdiMeasureBusyPulse_sends_record (b : Board) (USBBuffer : List Nat)
    (env : BusyPulseEnv) (o : Outcome) (h : AdiMeasureBusyPulse b USBBuffer env = some o) :
    (o.count = 0 ∧ o.BulkBuffer = []) ∨
    ∃ elapsedTicks rolloverCount,
      o.count = 16 ∧ o.BulkBuffer = storeLE32 o.status ++ storeLE32 elapsedTicks
        ++ storeLE32 rolloverCount ++ storeLE32 b.MS_TO_TICKS_MULT := by
  simp only [AdiMeasureBusyPulse] at h
  split at h
  · split at h
    · split at h
      · simp at h
      · exact Or.inr (busyPulseMeasure_sends_record _ _ _ _ _ _ _ _ _ _ _ _ h)
    · split at h
      · simp only [Option.some.injEq] at h
        subst h
        exact Or.inl ⟨rfl, rfl⟩
      · exact Or.inr (busyPulseMeasure_sends_record _ _ _ _ _ _ _ _ _ _ _ _ h)
  · simp only [Option.some.injEq] at h
    subst h
    exact Or.inr ⟨_, _, rfl, rfl⟩

/-- C19: for every 32-bit status, elapsed tick count and rollover count, the
record built by `AdiPulseWait` has 12 bytes and the record built by
`AdiMeasureBusyPulse` has 16; bytes 0..3, 4..7 and 8..11 are the little-endian
encodings of the status, the elapsed ticks and the rollover count, in that
order, so reading the three groups back gives the exact triple; bytes 12..15 of
the busy-pulse record are the little-endian scale factor.  Every result either
routine sends is such a record (the busy-pulse routine sends nothing when it
returns early on a failed override). -/
theorem result_records_little_endian (b : Board) (USBBuffer : List Nat)
    (status elapsedTicks rolloverCount triggerPin setConfigRestore : Nat) (log : List HwAction)
    (hs : status < 2 ^ 32) (he : elapsedTicks < 2 ^ 32) (hr : rolloverCount < 2 ^ 32)
    (hrs : setConfigRestore < 2 ^ 32) :
    ((pulseWaitSend status elapsedTicks rolloverCount log).count = 12
      ∧ (pulseWaitSend status elapsedTicks rolloverCount log).BulkBuffer
          = littleEndian32 status ++ littleEndian32 elapsedTicks ++ littleEndian32 rolloverCount
      ∧ readLE32 ((pulseWaitSend status elapsedTicks rolloverCount log).BulkBuffer.take 4)
          = status
      ∧ readLE32 (((pulseWaitSend status elapsedTicks rolloverCount log).BulkBuffer.drop 4).take 4)
          = elapsedTicks
      ∧ readLE32 (((pulseWaitSend status elapsedTicks rolloverCount log).BulkBuffer.drop 8).take 4)
          = rolloverCount)
    ∧ ((busyPulseFinish b status triggerPin elapsedTicks rolloverCount log setConfigRestore).count
          = 16
      ∧ (busyPulseFinish b status triggerPin elapsedTicks rolloverCount log
            setConfigRestore).BulkBuffer
          = littleEndian32 (busyPulseFinish b status triggerPin elapsedTicks rolloverCount log
              setConfigRestore).status
            ++ littleEndian32 elapsedTicks ++ littleEndian32 rolloverCount
            ++ littleEndian32 b.MS_TO_TICKS_MULT
      ∧ readLE32 ((busyPulseFinish b status triggerPin elapsedTicks rolloverCount log
            setConfigRestore).BulkBuffer.take 4)
          = (busyPulseFinish b status triggerPin elapsedTicks rolloverCount log
              setConfigRestore).status
      ∧ readLE32 (((busyPulseFinish b status triggerPin elapsedTicks rolloverCount log
            setConfigRestore).BulkBuffer.drop 4).take 4) = elapsedTicks
      ∧ readLE32 (((busyPulseFinish b status triggerPin elapsedTicks rolloverCount log
            setConfigRestore).BulkBuffer.drop 8).take 4) = rolloverCount)
    ∧ (∀ env o, AdiPulseWait b USBBuffer env = some o →
        ∃ e r, o.count = 12
          ∧ o.BulkBuffer = littleEndian32 o.status ++ littleEndian32 e ++ littleEndian32 r)
    ∧ (∀ env o, AdiMeasureBusyPulse b USBBuffer env = some o →
        (o.count = 0 ∧ o.BulkBuffer = []) ∨
        ∃ e r, o.count = 16
          ∧ o.BulkBuffer = littleEndian32 o.status ++ littleEndian32 e ++ littleEndian32 r
              ++ littleEndian32 b.MS_TO_TICKS_MULT) := by
  have hle : ∀ x, storeLE32 x = littleEndian32 x := fun x => storeLE32_eq x
  have hfin : (busyPulseFinish b status triggerPin elapsedTicks rolloverCount log
      setConfigRestore).status < 2 ^ 32 := by
    simp only [busyPulseFinish]
    split
    · exact hrs
    · exact hs
  have h1 := readLE32_littleEndian32 status hs
  have h2 := readLE32_littleEndian32 elapsedTicks he
  have h3 := readLE32_littleEndian32 rolloverCount hr
  have h4 := readLE32_littleEndian32 _ hfin
  refine ⟨⟨rfl, ?_, ?_, ?_, ?_⟩, ⟨rfl, ?_, ?_, ?_, ?_⟩, ?_, ?_⟩
  · simp only [pulseWaitSend, hle]
  · simp only [pulseWaitSend, hle]
    simpa [littleEndian32] using h1
  · simp only [pulseWaitSend, hle]
    simpa [littleEndian32] using h2
  · simp only [pulseWaitSend, hle]
    simpa [littleEndian32] using h3
  · simp only [busyPulseFinish, hle]
  · simp only [busyPulseFinish, hle] at h4 ⊢
    simpa [littleEndian32] using h4
  · simp only [busyPulseFinish, hle]
    simpa [littleEndian32] using h2
  · simp only [busyPulseFinish, hle]
    simpa [littleEndian32] using h3
  · intro env o h
    obtain ⟨e, r, lg, ho⟩ := AdiPulseWait_sends_record b USBBuffer env o h
    refine ⟨e, r, ?_, ?_⟩
    · rw [ho]; rfl
    · rw [ho]; simp only [pulseWaitSend, hle]
  · intro env o h
    cases AdiMeasureBusyPulse_sends_record b USBBuffer env o h with
    | inl h0 => exact Or.inl h0
    | inr h16 =>
      obtain ⟨e, r, hc, hb⟩ := h16
      exact Or.inr ⟨e, r, hc, by rw [hb]; simp only [hle]⟩

/-- C19 at concrete values: status 0, `0x01020304` elapsed ticks, 5 rollovers. -/
theorem result_records_little_endian_witness :
    (pulseWaitSend 0 0x01020304 5 []).BulkBuffer = [0, 0, 0, 0, 4, 3, 2, 1, 5, 0, 0, 0]
    ∧ readLE32 (((pulseWaitSend 0 0x01020304 5 []).BulkBuffer.drop 4).take 4) = 0x01020304 :=
  have h := result_records_little_endian
    { MS_TO_TICKS_MULT := 10078, ADI_MICROSECONDS_SLEEP_OFFSET := 0, StallTime := 0 }
    [5, 0, 1, 0, 0, 0, 0, 0, 0, 0, 0] 0 0x01020304 5 0xFFFF 0 []
    (by decide) (by decide) (by decide) (by decide)
  ⟨h.1.2.1, h.1.2.2.2.1⟩

theorem measureDRSend_upper_bytes (b : Board) (deltat timeoutCounter : Nat)
    (log : List HwAction) (dmaStatus : Nat) :
    (measureDRSend b deltat timeoutCounter log dmaStatus).BulkBuffer.getD 6 0 = 0
    ∧ (measureDRSend b deltat timeoutCounter log dmaStatus).BulkBuffer.getD 7 0 = 0 := by
  have hle : b.MS_TO_TICKS_MULT &&& 0xFF00 ≤ 0xFF00 := Nat.and_le_right
  have h16 : (b.MS_TO_TICKS_MULT &&& 0xFF00) >>> 16 = 0 := by
    rw [Nat.shiftRight_eq_div_pow]
    exact Nat.div_eq_of_lt (by omega)
  have h24 : (b.MS_TO_TICKS_MULT &&& 0xFF00) >>> 24 = 0 := by
    rw [Nat.shiftRight_eq_div_pow]
    exact Nat.div_eq_of_lt (by omega)
  simp only [measureDRSend, storeLE32, List.cons_append, List.nil_append, List.getD_cons_succ,
    List.getD_cons_zero, h16, h24]
  exact ⟨rfl, rfl⟩

/-- C20, the code at a failing input: the run of C11 with three edges in a
build whose scale factor is `0x12345678`.  The record has 9 bytes, bytes 0..3
are the little-endian delta (1000) and byte 8 the counter, but bytes 6 and 7
are 0 where the little-endian scale factor has `0x34` and `0x12`: they are
computed as `(MS_TO_TICKS_MULT & 0xFF00) >> 16` and `>> 24`, which is 0 for
every value of the constant. -/
theorem AdiMeasureDR_scale_factor_upper_bytes_lost :
    (AdiMeasureDR { MS_TO_TICKS_MULT := 0x12345678, ADI_MICROSECONDS_SLEEP_OFFSET := 0, StallTime := 0 }
        [5, 0, 1, 0, 0, 0, 0, 0, 0, 0, 0]
        { startTime := 1000, getValue1 := 0, getValue2 := 0, uninitValidPin := 0,
          edges := [{ first := 2, phase1 := [(0, 2), (0, 0)], phase2 := [(0, 0), (0, 2)],
                      edgeTime := 1500 },
                    { first := 2, phase1 := [(0, 0)], phase2 := [(0, 2)], edgeTime := 2500 },
                    { first := 2, phase1 := [(0, 0)], phase2 := [(0, 2)], edgeTime := 3500 }],
          dmaStatus := 0 }).map (fun o => (o.BulkBuffer, o.count))
      = some ([0xE8, 3, 0, 0, 0x78, 0x56, 0, 0, 0], 9)
    ∧ littleEndian32 0x12345678 = [0x78, 0x56, 0x34, 0x12]
    ∧ (0x12345678 >>> 16) &&& 0xFF = 0x34 ∧ (0x12345678 >>> 24) &&& 0xFF = 0x12
    ∧ (∀ (b : Board) (deltat timeoutCounter : Nat) (log : List HwAction) (dmaStatus : Nat),
        (measureDRSend b deltat timeoutCounter log dmaStatus).BulkBuffer.getD 6 0 = 0
        ∧ (measureDRSend b deltat timeoutCounter log dmaStatus).BulkBuffer.getD 7 0 = 0) := by
  refine ⟨by decide, by decide, by decide, by decide, ?_⟩
  intro b deltat timeoutCounter log dmaStatus
  exact measureDRSend_upper_bytes b deltat timeoutCounter log dmaStatus

/-! ### The rollover counter -/

theorem rollCount_eq_descents (ts : List Nat) :
    ∀ (last roll : Nat), roll < 2 ^ 32 →
      rollCount last roll ts = (roll + descents last ts) % 2 ^ 32 := by
  induction ts with
  | nil =>
    intro last roll hroll
    simp only [rollCount, descents, Nat.add_zero]
    exact (Nat.mod_eq_of_lt hroll).symm
  | cons t ts ih =>
    intro last roll hroll
    simp only [rollCount, descents]
    by_cases h : t < last
    · simp only [h, if_true]
      rw [ih t (u32 (roll + 1)) (Nat.mod_lt _ (by decide))]
      simp only [u32]
      omega
    · simp only [h, if_false]
      rw [ih t roll hroll]
      simp

theorem pulseWait_roll_step (pin polarity tt tr : Nat) (xs : List (Nat × Nat)) (s : PollState)
    (j : Nat) (hj : j < xs.length) :
    (stateAfter (pulseWaitBody pin polarity tt tr) s xs (j + 1)).rollOverCount
      = if clockAt xs j < (stateAfter (pulseWaitBody pin polarity tt tr) s xs j).currentTime
        then u32 ((stateAfter (pulseWaitBody pin polarity tt tr) s xs j).rollOverCount + 1)
        else (stateAfter (pulseWaitBody pin polarity tt tr) s xs j).rollOverCount := by
  rw [stateAfter_succ _ (0, 0) _ _ _ hj]
  rfl

theorem pulseDrive_roll_step (tt tr : Nat) (xs : List Nat) (s : PollState)
    (j : Nat) (hj : j < xs.length) :
    (stateAfter (pulseDriveBody tt tr) s xs (j + 1)).rollOverCount
      = if xs.getD j 0 < (stateAfter (pulseDriveBody tt tr) s xs j).currentTime
        then u32 ((stateAfter (pulseDriveBody tt tr) s xs j).rollOverCount + 1)
        else (stateAfter (pulseDriveBody tt tr) s xs j).rollOverCount := by
  rw [stateAfter_succ _ 0 _ _ _ hj]
  rfl

theorem busyPulse_roll_step
    (busyPin busyPolarity timeout triggerPin triggerPolarity driveTime : Nat)
    (xs : List (Nat × Nat)) (s : BusyState) (j : Nat) (hj : j < xs.length) :
    (stateAfter (busyPulseBody busyPin busyPolarity timeout triggerPin triggerPolarity driveTime)
        s xs (j + 1)).rollOverCount
      = if clockAt xs j < (stateAfter (busyPulseBody busyPin busyPolarity timeout triggerPin
            triggerPolarity driveTime) s xs j).currentTime
        then u32 ((stateAfter (busyPulseBody busyPin busyPolarity timeout triggerPin
            triggerPolarity driveTime) s xs j).rollOverCount + 1)
        else (stateAfter (busyPulseBody busyPin busyPolarity timeout triggerPin
            triggerPolarity driveTime) s xs j).rollOverCount := by
  rw [stateAfter_succ _ (0, 0) _ _ _ hj]
  rfl

/-- C21: in the drive loop of `AdiPulseDrive`, the level-wait loop of
`AdiPulseWait` and the measurement loop of `AdiMeasureBusyPulse`, each iteration
adds one to the rollover counter (a `uint32_t`) if the new timer sample is below
the previous one and leaves it unchanged otherwise; at loop exit the counter is
the number of descents of the samples the loop has taken, counted from its
initial `currentTime`, reduced modulo `2^32`, hence that number itself whenever
it is below `2^32`. -/
theorem rollover_counter_counts_descents
    (pin polarity timeoutTicks timeoutRollover currentTime : Nat) (log : List HwAction)
    (poll : List (Nat × Nat))
    (timerTicks timerRollovers : Nat) (clock : List Nat)
    (busyPin busyPolarity timeout triggerPin triggerPolarity driveTime : Nat)
    (SpiTriggerMode : Bool) :
    ((∀ j, j < poll.length →
        (stateAfter (pulseWaitBody pin polarity timeoutTicks timeoutRollover)
            { currentTime := currentTime, lastTime := 0, rollOverCount := 0,
              exitCondition := false, log := log } poll (j + 1)).rollOverCount
          = if clockAt poll j < (stateAfter (pulseWaitBody pin polarity timeoutTicks
                timeoutRollover)
                { currentTime := currentTime, lastTime := 0, rollOverCount := 0,
                  exitCondition := false, log := log } poll j).currentTime
            then u32 ((stateAfter (pulseWaitBody pin polarity timeoutTicks timeoutRollover)
                { currentTime := currentTime, lastTime := 0, rollOverCount := 0,
                  exitCondition := false, log := log } poll j).rollOverCount + 1)
            else (stateAfter (pulseWaitBody pin polarity timeoutTicks timeoutRollover)
                { currentTime := currentTime, lastTime := 0, rollOverCount := 0,
                  exitCondition := false, log := log } poll j).rollOverCount)
      ∧ (∀ s rest, pulseWaitLoop pin polarity timeoutTicks timeoutRollover currentTime log poll
            = some (s, rest) →
          ∃ k, k < poll.length ∧ rest = poll.drop (k + 1)
            ∧ s.rollOverCount
                = descents currentTime ((poll.take (k + 1)).map Prod.fst) % 2 ^ 32
            ∧ (descents currentTime ((poll.take (k + 1)).map Prod.fst) < 2 ^ 32 →
                s.rollOverCount = descents currentTime ((poll.take (k + 1)).map Prod.fst))))
    ∧ ((∀ j, j < clock.length →
        (stateAfter (pulseDriveBody timerTicks timerRollovers)
            { currentTime := 0, lastTime := 0, rollOverCount := 0, exitCondition := false,
              log := log } clock (j + 1)).rollOverCount
          = if clock.getD j 0 < (stateAfter (pulseDriveBody timerTicks timerRollovers)
                { currentTime := 0, lastTime := 0, rollOverCount := 0, exitCondition := false,
                  log := log } clock j).currentTime
            then u32 ((stateAfter (pulseDriveBody timerTicks timerRollovers)
                { currentTime := 0, lastTime := 0, rollOverCount := 0, exitCondition := false,
                  log := log } clock j).rollOverCount + 1)
            else (stateAfter (pulseDriveBody timerTicks timerRollovers)
                { currentTime := 0, lastTime := 0, rollOverCount := 0, exitCondition := false,
                  log := log } clock j).rollOverCount)
      ∧ (∀ s rest, pulseDriveLoop timerTicks timerRollovers log clock = some (s, rest) →
          ∃ k, k < clock.length ∧ rest = clock.drop (k + 1)
            ∧ s.rollOverCount = descents 0 (clock.take (k + 1)) % 2 ^ 32
            ∧ (descents 0 (clock.take (k + 1)) < 2 ^ 32 →
                s.rollOverCount = descents 0 (clock.take (k + 1)))))
    ∧ ((∀ j, j < poll.length →
        (stateAfter (busyPulseBody busyPin busyPolarity timeout triggerPin triggerPolarity
            driveTime)
            { currentTime := 0, lastTime := 0, rollOverCount := 0, exitCondition := false,
              SpiTriggerMode := SpiTriggerMode, log := log } poll (j + 1)).rollOverCount
          = if clockAt poll j < (stateAfter (busyPulseBody busyPin busyPolarity timeout
                triggerPin triggerPolarity driveTime)
                { currentTime := 0, lastTime := 0, rollOverCount := 0, exitCondition := false,
                  SpiTriggerMode := SpiTriggerMode, log := log } poll j).currentTime
            then u32 ((stateAfter (busyPulseBody busyPin busyPolarity timeout triggerPin
                triggerPolarity driveTime)
                { currentTime := 0, lastTime := 0, rollOverCount := 0, exitCondition := false,
                  SpiTriggerMode := SpiTriggerMode, log := log } poll j).rollOverCount + 1)
            else (stateAfter (busyPulseBody busyPin busyPolarity timeout triggerPin
                triggerPolarity driveTime)
                { currentTime := 0, lastTime := 0, rollOverCount := 0, exitCondition := false,
                  SpiTriggerMode := SpiTriggerMode, log := log } poll j).rollOverCount)
      ∧ (∀ s rest, busyPulseLoop busyPin busyPolarity timeout triggerPin triggerPolarity
            driveTime SpiTriggerMode log poll = some (s, rest) →
          ∃ k, k < poll.length ∧ rest = poll.drop (k + 1)
            ∧ s.rollOverCount = descents 0 ((poll.take (k + 1)).map Prod.fst) % 2 ^ 32
            ∧ (descents 0 ((poll.take (k + 1)).map Prod.fst) < 2 ^ 32 →
                s.rollOverCount = descents 0 ((poll.take (k + 1)).map Prod.fst)))) := by
  refine ⟨⟨fun j hj => pulseWait_roll_step _ _ _ _ _ _ j hj, ?_⟩,
    ⟨fun j hj => pulseDrive_roll_step _ _ _ _ j hj, ?_⟩,
    ⟨fun j hj => busyPulse_roll_step _ _ _ _ _ _ _ _ j hj, ?_⟩⟩
  · intro s rest h
    obtain ⟨k, hk, hrest, hs, _, _⟩ :=
      pollLoop_some_first_hit (fun s : PollState => s.exitCondition) _ _ _ _ _ rfl h
    have hroll : s.rollOverCount
        = descents currentTime ((poll.take (k + 1)).map Prod.fst) % 2 ^ 32 := by
      rw [hs, pulseWait_roll, rollCount_eq_descents _ _ _ (show (0 : Nat) < 2 ^ 32 by decide)]
      simp
    exact ⟨k, hk, hrest, hroll, fun hlt => by rw [hroll, Nat.mod_eq_of_lt hlt]⟩
  · intro s rest h
    obtain ⟨k, hk, hrest, hs, _, _⟩ :=
      pollLoop_some_first_hit (fun s : PollState => s.exitCondition) _ _ _ _ _ rfl h
    have hroll : s.rollOverCount = descents 0 (clock.take (k + 1)) % 2 ^ 32 := by
      rw [hs, pulseDrive_roll, rollCount_eq_descents _ _ _ (show (0 : Nat) < 2 ^ 32 by decide)]
      simp
    exact ⟨k, hk, hrest, hroll, fun hlt => by rw [hroll, Nat.mod_eq_of_lt hlt]⟩
  · intro s rest h
    obtain ⟨k, hk, hrest, hs, _, _⟩ :=
      pollLoop_some_first_hit (fun s : BusyState => s.exitCondition) _ _ _ _ _ rfl h
    have hroll : s.rollOverCount
        = descents 0 ((poll.take (k + 1)).map Prod.fst) % 2 ^ 32 := by
      rw [hs, busyPulse_roll, rollCount_eq_descents _ _ _ (show (0 : Nat) < 2 ^ 32 by decide)]
      simp
    exact ⟨k, hk, hrest, hroll, fun hlt => by rw [hroll, Nat.mod_eq_of_lt hlt]⟩

/-- C21 at a concrete level wait: timeout pair (1000, 1), pin never at the
target level; the second sample (100 after 4000) is the one descent, and the
loop ends at the third sample with a counter of 1. -/
theorem rollover_counter_counts_descents_witness :
    ∃ k, k < [(4000, 0), (100, 0), (5000, 0)].length
      ∧ ([] : List (Nat × Nat)) = [(4000, 0), (100, 0), (5000, 0)].drop (k + 1)
      ∧ 1 = descents 0 (([(4000, 0), (100, 0), (5000, 0)].take (k + 1)).map Prod.fst) % 2 ^ 32
      ∧ (descents 0 (([(4000, 0), (100, 0), (5000, 0)].take (k + 1)).map Prod.fst) < 2 ^ 32 →
          1 = descents 0 (([(4000, 0), (100, 0), (5000, 0)].take (k + 1)).map Prod.fst)) :=
  (rollover_counter_counts_descents 5 1 1000 1 0 [] [(4000, 0), (100, 0), (5000, 0)]
    1000 1 [4000, 100, 5000] 4 1 0 7 1 0 true).1.2
    { currentTime := 5000, lastTime := 100, rollOverCount := 1, exitCondition := true,
      log := [HwAction.TimerSampleNow, HwAction.PinRegRead 5, HwAction.TimerSampleNow,
        HwAction.PinRegRead 5, HwAction.TimerSampleNow, HwAction.PinRegRead 5] }
    [] (by decide)

/-! ### Claims on `AdiSleepForMicroSeconds` -/

theorem clock_cur (xs : List Nat) (s : ClockState) (j : Nat) (hj : j < xs.length) :
    (stateAfter clockBody s xs (j + 1)).currentTime = xs.getD j 0 := by
  rw [stateAfter_succ _ 0 _ _ _ hj]
  rfl

theorem clock_log (xs : List Nat) (s : ClockState) :
    ∀ j, j ≤ xs.length → (stateAfter clockBody s xs j).log = s.log ++ clockLog j := by
  intro j
  induction j with
  | zero => intro _; simp [stateAfter, clockLog]
  | succ j ih =>
    intro hj
    rw [stateAfter_succ _ 0 _ _ _ (by omega)]
    simp only [clockBody, clockLog]
    rw [ih (by omega), List.append_assoc]

theorem AdiSleepForMicroSeconds_accepted_status (b : Board) (numMicroSeconds : Nat)
    (clock : List Nat) (status : Nat) (log : List HwAction)
    (hle : numMicroSeconds - b.ADI_MICROSECONDS_SLEEP_OFFSET ≤ 426172)
    (h : AdiSleepForMicroSeconds b numMicroSeconds clock = some (status, log)) :
    status = CY_U3P_SUCCESS := by
  unfold AdiSleepForMicroSeconds at h
  simp only at h
  split at h
  · split at h
    · omega
    · split at h
      · simp at h
      · simp only [Option.some.injEq, Prod.mk.injEq] at h
        exact h.1.symm
  · simp only [Option.some.injEq, Prod.mk.injEq] at h
    exact h.1.symm

/-- C22: for every duration above `ADI_MICROSECONDS_SLEEP_OFFSET`, with
`d = numMicroSeconds - ADI_MICROSECONDS_SLEEP_OFFSET`, `AdiSleepForMicroSeconds`
returns `CY_U3P_ERROR_BAD_ARGUMENT` if and only if `d > 426172`, and it does so
after the timer reset and the debug print only, without a timer sample.  With
`MS_TO_TICKS_MULT = 10078` the rejected durations are exactly those whose
product `d * MS_TO_TICKS_MULT` exceeds `0xFFFFFFFF`, so the 32-bit multiply of
an accepted duration is exact. -/
theorem AdiSleepForMicroSeconds_rejects_iff_overflow (b : Board) (numMicroSeconds : Nat)
    (clock : List Nat)
    (hgt : numMicroSeconds > b.ADI_MICROSECONDS_SLEEP_OFFSET)
    (hmult : b.MS_TO_TICKS_MULT = 10078) :
    ((∃ log, AdiSleepForMicroSeconds b numMicroSeconds clock
          = some (CY_U3P_ERROR_BAD_ARGUMENT, log))
        ↔ numMicroSeconds - b.ADI_MICROSECONDS_SLEEP_OFFSET > 426172)
    ∧ (numMicroSeconds - b.ADI_MICROSECONDS_SLEEP_OFFSET > 426172 →
        AdiSleepForMicroSeconds b numMicroSeconds clock
          = some (CY_U3P_ERROR_BAD_ARGUMENT, [HwAction.TimerZero, HwAction.DebugPrint]))
    ∧ (numMicroSeconds - b.ADI_MICROSECONDS_SLEEP_OFFSET > 426172
        ↔ (numMicroSeconds - b.ADI_MICROSECONDS_SLEEP_OFFSET) * b.MS_TO_TICKS_MULT > 0xFFFFFFFF)
    ∧ (numMicroSeconds - b.ADI_MICROSECONDS_SLEEP_OFFSET ≤ 426172 →
        u32 ((numMicroSeconds - b.ADI_MICROSECONDS_SLEEP_OFFSET) * b.MS_TO_TICKS_MULT)
          = (numMicroSeconds - b.ADI_MICROSECONDS_SLEEP_OFFSET) * b.MS_TO_TICKS_MULT) := by
  have hrej : numMicroSeconds - b.ADI_MICROSECONDS_SLEEP_OFFSET > 426172 →
      AdiSleepForMicroSeconds b numMicroSeconds clock
        = some (CY_U3P_ERROR_BAD_ARGUMENT, [HwAction.TimerZero, HwAction.DebugPrint]) := by
    intro hd
    unfold AdiSleepForMicroSeconds
    simp only [hgt, hd, if_true]
  refine ⟨⟨?_, fun hd => ⟨_, hrej hd⟩⟩, hrej, ?_, ?_⟩
  · rintro ⟨log, h⟩
    by_contra hd
    have := AdiSleepForMicroSeconds_accepted_status b numMicroSeconds clock _ log (by omega) h
    exact absurd this (by decide)
  · rw [hmult]
    omega
  · intro hd
    rw [hmult]
    simp only [u32]
    omega

/-- C22 at concrete durations: with a sleep offset of 14 and the scale factor
10078, 426187 microseconds (`d = 426173`) are rejected. -/
theorem AdiSleepForMicroSeconds_rejects_iff_overflow_witness :
    AdiSleepForMicroSeconds
        { MS_TO_TICKS_MULT := 10078, ADI_MICROSECONDS_SLEEP_OFFSET := 14, StallTime := 0 }
        426187 [5, 10]
      = some (CY_U3P_ERROR_BAD_ARGUMENT, [HwAction.TimerZero, HwAction.DebugPrint]) :=
  (AdiSleepForMicroSeconds_rejects_iff_overflow
    { MS_TO_TICKS_MULT := 10078, ADI_MICROSECONDS_SLEEP_OFFSET := 14, StallTime := 0 }
    426187 [5, 10] (by decide) rfl).2.1 (by decide)

/-- C23: `AdiSleepForMicroSeconds` returns success without a timer sample when
`numMicroSeconds` does not exceed `ADI_MICROSECONDS_SLEEP_OFFSET`.  For an
accepted longer duration `d = numMicroSeconds - ADI_MICROSECONDS_SLEEP_OFFSET`,
in a build where a millisecond is at least 1000 ticks and 426172 milliseconds'
worth of ticks fit in 32 bits, it resets the timer and samples it until the
first sample that is at least `d * MS_TO_TICKS_MULT / 1000`, every earlier
sample being below that target, and returns success there. -/
theorem AdiSleepForMicroSeconds_polls_to_target (b : Board) (numMicroSeconds : Nat)
    (clock : List Nat) :
    (numMicroSeconds ≤ b.ADI_MICROSECONDS_SLEEP_OFFSET →
      AdiSleepForMicroSeconds b numMicroSeconds clock
        = some (CY_U3P_SUCCESS, [HwAction.TimerZero]))
    ∧ (∀ k, numMicroSeconds > b.ADI_MICROSECONDS_SLEEP_OFFSET →
        numMicroSeconds - b.ADI_MICROSECONDS_SLEEP_OFFSET ≤ 426172 →
        1000 ≤ b.MS_TO_TICKS_MULT → 426172 * b.MS_TO_TICKS_MULT < 2 ^ 32 →
        k < clock.length →
        (numMicroSeconds - b.ADI_MICROSECONDS_SLEEP_OFFSET) * b.MS_TO_TICKS_MULT / 1000
          ≤ clock.getD k 0 →
        (∀ j, j < k → clock.getD j 0
          < (numMicroSeconds - b.ADI_MICROSECONDS_SLEEP_OFFSET) * b.MS_TO_TICKS_MULT / 1000) →
        AdiSleepForMicroSeconds b numMicroSeconds clock
          = some (CY_U3P_SUCCESS, [HwAction.TimerZero] ++ clockLog (k + 1))) := by
  refine ⟨fun hle => ?_, fun k hgt hd hmin hmax hk hhit hfirst => ?_⟩
  · unfold AdiSleepForMicroSeconds
    have : ¬ numMicroSeconds > b.ADI_MICROSECONDS_SLEEP_OFFSET := by omega
    simp only [this, if_false]
  · have hprod : (numMicroSeconds - b.ADI_MICROSECONDS_SLEEP_OFFSET) * b.MS_TO_TICKS_MULT
        < 2 ^ 32 :=
      lt_of_le_of_lt (Nat.mul_le_mul_right _ hd) hmax
    have hu : u32 ((numMicroSeconds - b.ADI_MICROSECONDS_SLEEP_OFFSET) * b.MS_TO_TICKS_MULT)
        = (numMicroSeconds - b.ADI_MICROSECONDS_SLEEP_OFFSET) * b.MS_TO_TICKS_MULT :=
      Nat.mod_eq_of_lt hprod
    have hpos : 0 < (numMicroSeconds - b.ADI_MICROSECONDS_SLEEP_OFFSET) * b.MS_TO_TICKS_MULT
        / 1000 := by
      have h1 : 1 ≤ numMicroSeconds - b.ADI_MICROSECONDS_SLEEP_OFFSET := by omega
      have h2 : 1000 ≤ (numMicroSeconds - b.ADI_MICROSECONDS_SLEEP_OFFSET)
          * b.MS_TO_TICKS_MULT :=
        le_trans hmin (Nat.le_mul_of_pos_left _ h1)
      exact Nat.div_pos h2 (by decide)
    have hloop := pollLoop_first_hit
      (fun s : ClockState => !decide (s.currentTime
        < (numMicroSeconds - b.ADI_MICROSECONDS_SLEEP_OFFSET) * b.MS_TO_TICKS_MULT / 1000))
      clockBody { currentTime := 0, log := [HwAction.TimerZero] } clock k
      (by simpa using hpos) hk
      (by beta_reduce; rw [clock_cur _ _ _ hk]; simpa using hhit)
      (fun j hj => by beta_reduce; rw [clock_cur _ _ _ (by omega)]; simpa using hfirst j hj)
    have hlog := clock_log clock { currentTime := 0, log := [HwAction.TimerZero] } (k + 1) hk
    unfold AdiSleepForMicroSeconds
    have hnot : ¬ numMicroSeconds - b.ADI_MICROSECONDS_SLEEP_OFFSET > 426172 := by omega
    simp only [hgt, hnot, if_true, if_false, hu, hloop, hlog]

/-- C23 at concrete durations: sleep offset 14, scale factor 10078.  A request
of 10 microseconds returns at once; a request of 114 (`d = 100`, target 1007
ticks) returns at the third sample. -/
theorem AdiSleepForMicroSeconds_polls_to_target_witness :
    AdiSleepForMicroSeconds
        { MS_TO_TICKS_MULT := 10078, ADI_MICROSECONDS_SLEEP_OFFSET := 14, StallTime := 0 }
        10 [400, 800] = some (CY_U3P_SUCCESS, [HwAction.TimerZero])
    ∧ AdiSleepForMicroSeconds
        { MS_TO_TICKS_MULT := 10078, ADI_MICROSECONDS_SLEEP_OFFSET := 14, StallTime := 0 }
        114 [400, 800, 1200, 1600]
      = some (CY_U3P_SUCCESS, [HwAction.TimerZero] ++ clockLog 3) :=
  ⟨(AdiSleepForMicroSeconds_polls_to_target
      { MS_TO_TICKS_MULT := 10078, ADI_MICROSECONDS_SLEEP_OFFSET := 14, StallTime := 0 }
      10 [400, 800]).1 (by decide),
    (AdiSleepForMicroSeconds_polls_to_target
      { MS_TO_TICKS_MULT := 10078, ADI_MICROSECONDS_SLEEP_OFFSET := 14, StallTime := 0 }
      114 [400, 800, 1200, 1600]).2 2 (by decide) (by decide) (by decide) (by decide)
      (by decide) (by decide) (by decide)⟩

/-! ### The frame of `AdiPulseDrive` and the invalid-pin records -/

/-- C24: in `AdiPulseDrive`, when the pin is configured as a driven output at
the first attempt or by the one override, disable and reconfigure recovery, and
the drive loop ends at its sample `k`, the routine then writes the pin with the
logical opposite of the requested polarity, overrides and disables it,
configures it as an input with both drivers off, and returns the status of that
last configuration.  When the recovery configuration fails as well, it returns
that status after the debug print, with no timer sample and no write of the pin
level. -/
theorem AdiPulseDrive_restores_pin (USBBuffer : List Nat) (env : PulseDriveEnv) :
    (∀ k, (env.setConfig1 = CY_U3P_SUCCESS ∨ env.setConfig2 = CY_U3P_SUCCESS) →
      k < env.clock.length →
      pulseDriveHit (usbWord32 USBBuffer 3) (usbWord32 USBBuffer 7) env.clock k →
      (∀ j, j < k →
        ¬ pulseDriveHit (usbWord32 USBBuffer 3) (usbWord32 USBBuffer 7) env.clock j) →
      AdiPulseDrive USBBuffer env = some
        { status := env.setConfigRestore
          log := pulseDriveEntryLog USBBuffer env ++ clockLog (k + 1)
            ++ [HwAction.GpioSetValue (usbWord16 USBBuffer 0) (logNot (usbByte USBBuffer 2)),
              HwAction.DeviceGpioOverride (usbWord16 USBBuffer 0) true,
              HwAction.GpioDisable (usbWord16 USBBuffer 0),
              HwAction.GpioSetSimpleConfig (usbWord16 USBBuffer 0) inputConfig]
          BulkBuffer := [], count := 0 })
    ∧ (env.setConfig1 = CY_U3P_SUCCESS →
        pulseDriveEntryLog USBBuffer env
          = [HwAction.GpioSetSimpleConfig (usbWord16 USBBuffer 0)
              (outputConfig (usbByte USBBuffer 2)),
            HwAction.TimerZero, HwAction.TimerIntrOff, HwAction.TimerPeriodMax])
    ∧ (env.setConfig1 ≠ CY_U3P_SUCCESS →
        pulseDriveEntryLog USBBuffer env
          = [HwAction.GpioSetSimpleConfig (usbWord16 USBBuffer 0)
              (outputConfig (usbByte USBBuffer 2)),
            HwAction.TimerZero, HwAction.TimerIntrOff, HwAction.TimerPeriodMax,
            HwAction.DeviceGpioOverride (usbWord16 USBBuffer 0) true,
            HwAction.GpioDisable (usbWord16 USBBuffer 0),
            HwAction.GpioSetSimpleConfig (usbWord16 USBBuffer 0)
              (outputConfig (usbByte USBBuffer 2))])
    ∧ (env.setConfig1 ≠ CY_U3P_SUCCESS → env.setConfig2 ≠ CY_U3P_SUCCESS →
        AdiPulseDrive USBBuffer env = some
          { status := env.setConfig2
            log := [HwAction.GpioSetSimpleConfig (usbWord16 USBBuffer 0)
                (outputConfig (usbByte USBBuffer 2)),
              HwAction.TimerZero, HwAction.TimerIntrOff, HwAction.TimerPeriodMax,
              HwAction.DeviceGpioOverride (usbWord16 USBBuffer 0) true,
              HwAction.GpioDisable (usbWord16 USBBuffer 0),
              HwAction.GpioSetSimpleConfig (usbWord16 USBBuffer 0)
                (outputConfig (usbByte USBBuffer 2)),
              HwAction.DebugPrint]
            BulkBuffer := [], count := 0 })
    ∧ (inputConfig.inputEn = true ∧ inputConfig.driveLowEn = false
        ∧ inputConfig.driveHighEn = false)
    ∧ (logNot (usbByte USBBuffer 2) = 0 ↔ usbByte USBBuffer 2 ≠ 0)
    ∧ (logNot (usbByte USBBuffer 2) = 1 ↔ usbByte USBBuffer 2 = 0) := by
  have hentry0 : env.setConfig1 = CY_U3P_SUCCESS →
      pulseDriveEntryLog USBBuffer env
        = [HwAction.GpioSetSimpleConfig (usbWord16 USBBuffer 0)
            (outputConfig (usbByte USBBuffer 2)),
          HwAction.TimerZero, HwAction.TimerIntrOff, HwAction.TimerPeriodMax] := by
    intro h
    simp [pulseDriveEntryLog, h]
  have hentry1 : env.setConfig1 ≠ CY_U3P_SUCCESS →
      pulseDriveEntryLog USBBuffer env
        = [HwAction.GpioSetSimpleConfig (usbWord16 USBBuffer 0)
            (outputConfig (usbByte USBBuffer 2)),
          HwAction.TimerZero, HwAction.TimerIntrOff, HwAction.TimerPeriodMax,
          HwAction.DeviceGpioOverride (usbWord16 USBBuffer 0) true,
          HwAction.GpioDisable (usbWord16 USBBuffer 0),
          HwAction.GpioSetSimpleConfig (usbWord16 USBBuffer 0)
            (outputConfig (usbByte USBBuffer 2))] := by
    intro h
    simp [pulseDriveEntryLog, h]
  refine ⟨?_, hentry0, hentry1, ?_, ⟨rfl, rfl, rfl⟩, ?_, ?_⟩
  · intro k hcfg hk hhit hfirst
    have hloop := pollLoop_first_hit (fun s : PollState => s.exitCondition)
      (pulseDriveBody (usbWord32 USBBuffer 3) (usbWord32 USBBuffer 7))
      { currentTime := 0, lastTime := 0, rollOverCount := 0, exitCondition := false,
        log := pulseDriveEntryLog USBBuffer env } env.clock k rfl hk
      ((pulseDrive_exit_iff _ _ _ _ rfl rfl k hk).2 hhit)
      (fun j hj => by
        have hn := hfirst j hj
        rw [← pulseDrive_exit_iff _ _ env.clock
          { currentTime := 0, lastTime := 0, rollOverCount := 0, exitCondition := false,
            log := pulseDriveEntryLog USBBuffer env } rfl rfl j (by omega)] at hn
        simpa using hn)
    have hlog : (stateAfter (pulseDriveBody (usbWord32 USBBuffer 3) (usbWord32 USBBuffer 7))
        { currentTime := 0, lastTime := 0, rollOverCount := 0, exitCondition := false,
          log := pulseDriveEntryLog USBBuffer env } env.clock (k + 1)).log
        = pulseDriveEntryLog USBBuffer env ++ clockLog (k + 1) :=
      pulseDrive_log (usbWord32 USBBuffer 3) (usbWord32 USBBuffer 7) env.clock _ (k + 1) hk
    have hnot : ¬ (env.setConfig1 ≠ CY_U3P_SUCCESS ∧ env.setConfig2 ≠ CY_U3P_SUCCESS) := by
      rintro ⟨h1, h2⟩
      cases hcfg with
      | inl h => exact h1 h
      | inr h => exact h2 h
    simp only [AdiPulseDrive, hnot, if_false]
    unfold pulseDriveLoop
    rw [hloop]
    simp only [hlog]
  · intro h1 h2
    have hboth : env.setConfig1 ≠ CY_U3P_SUCCESS ∧ env.setConfig2 ≠ CY_U3P_SUCCESS := ⟨h1, h2⟩
    simp only [AdiPulseDrive]
    rw [if_pos hboth, hentry1 h1]
    rfl
  · unfold logNot
    split <;> simp_all
  · unfold logNot
    split <;> simp_all

/-- C24 at concrete requests for pin 5, polarity 1, `timerTicks = 1000`: with
the first configuration failing and the recovery succeeding the loop ends at
the third sample and the pin is written low and made an input; with both
configurations failing (status 0x45) the routine returns 0x45 at once. -/
theorem AdiPulseDrive_restores_pin_witness :
    AdiPulseDrive [5, 0, 1, 0xE8, 3, 0, 0, 0, 0, 0, 0]
        { setConfig1 := 0x45, setConfig2 := 0, clock := [400, 800, 1200, 1600],
          setConfigRestore := 0 }
      = some
        { status := 0
          log := pulseDriveEntryLog [5, 0, 1, 0xE8, 3, 0, 0, 0, 0, 0, 0]
              { setConfig1 := 0x45, setConfig2 := 0, clock := [400, 800, 1200, 1600],
                setConfigRestore := 0 } ++ clockLog 3
            ++ [HwAction.GpioSetValue 5 0, HwAction.DeviceGpioOverride 5 true,
              HwAction.GpioDisable 5, HwAction.GpioSetSimpleConfig 5 inputConfig]
          BulkBuffer := [], count := 0 }
    ∧ AdiPulseDrive [5, 0, 1, 0xE8, 3, 0, 0, 0, 0, 0, 0]
        { setConfig1 := 0x45, setConfig2 := 0x45, clock := [400, 800, 1200, 1600],
          setConfigRestore := 0 }
      = some
        { status := 0x45
          log := [HwAction.GpioSetSimpleConfig 5 (outputConfig 1),
            HwAction.TimerZero, HwAction.TimerIntrOff, HwAction.TimerPeriodMax,
            HwAction.DeviceGpioOverride 5 true, HwAction.GpioDisable 5,
            HwAction.GpioSetSimpleConfig 5 (outputConfig 1), HwAction.DebugPrint]
          BulkBuffer := [], count := 0 } :=
  ⟨(AdiPulseDrive_restores_pin [5, 0, 1, 0xE8, 3, 0, 0, 0, 0, 0, 0]
      { setConfig1 := 0x45, setConfig2 := 0, clock := [400, 800, 1200, 1600],
        setConfigRestore := 0 }).1 2 (Or.inr rfl) (by decide) (by decide) (by decide),
    (AdiPulseDrive_restores_pin [5, 0, 1, 0xE8, 3, 0, 0, 0, 0, 0, 0]
      { setConfig1 := 0x45, setConfig2 := 0x45, clock := [400, 800, 1200, 1600],
        setConfigRestore := 0 }).2.2.2.1 (by decide) (by decide)⟩

/-- C25, the code at a failing input: requests on a pin whose two reads fail
with status 0x45.  `rollOverCount` is assigned only inside the valid-pin branch,
so on this path bytes 8..11 of the record are whatever the local holds: two
runs with the same request and the same read statuses, the local holding 0 in
one and 77 in the other, send different records, in `AdiPulseWait` and in
`AdiMeasureBusyPulse` alike. -/
theorem invalid_pin_record_carries_unassigned_rollover :
    (AdiPulseWait { MS_TO_TICKS_MULT := 10078, ADI_MICROSECONDS_SLEEP_OFFSET := 0, StallTime := 0 }
        [5, 0, 1, 0, 0, 0, 0, 0xE8, 3, 0, 0, 0, 0, 0, 0]
        { getValue1 := 0x45, getValue2 := 0x45, uninitRollOverCount := 0, delayClock := [],
          poll := [] }).map (fun o => o.BulkBuffer)
      = some [0x45, 0, 0, 0, 0xFF, 0xFF, 0xFF, 0xFF, 0, 0, 0, 0]
    ∧ (AdiPulseWait { MS_TO_TICKS_MULT := 10078, ADI_MICROSECONDS_SLEEP_OFFSET := 0, StallTime := 0 }
        [5, 0, 1, 0, 0, 0, 0, 0xE8, 3, 0, 0, 0, 0, 0, 0]
        { getValue1 := 0x45, getValue2 := 0x45, uninitRollOverCount := 77, delayClock := [],
          poll := [] }).map (fun o => o.BulkBuffer)
      = some [0x45, 0, 0, 0, 0xFF, 0xFF, 0xFF, 0xFF, 77, 0, 0, 0]
    ∧ (AdiMeasureBusyPulse { MS_TO_TICKS_MULT := 10078, ADI_MICROSECONDS_SLEEP_OFFSET := 0, StallTime := 0 }
        [4, 0, 1, 0, 0, 0, 0, 0, 7, 0, 1, 1, 0, 0, 0]
        { getValue1 := 0x45, getValue2 := 0x45, uninitRollOverCount := 0, stallClock := [],
          overrideStatus := 0, disableStatus := 0, setConfigTrigger := 0, busyWait := [],
          baseline := 0, poll := [], setConfigRestore := 0 }).map (fun o => o.BulkBuffer)
      = some [0x45, 0, 0, 0, 0xFF, 0xFF, 0xFF, 0xFF, 0, 0, 0, 0, 0x5E, 0x27, 0, 0]
    ∧ (AdiMeasureBusyPulse { MS_TO_TICKS_MULT := 10078, ADI_MICROSECONDS_SLEEP_OFFSET := 0, StallTime := 0 }
        [4, 0, 1, 0, 0, 0, 0, 0, 7, 0, 1, 1, 0, 0, 0]
        { getValue1 := 0x45, getValue2 := 0x45, uninitRollOverCount := 77, stallClock := [],
          overrideStatus := 0, disableStatus := 0, setConfigTrigger := 0, busyWait := [],
          baseline := 0, poll := [], setConfigRestore := 0 }).map (fun o => o.BulkBuffer)
      = some [0x45, 0, 0, 0, 0xFF, 0xFF, 0xFF, 0xFF, 77, 0, 0, 0, 0x5E, 0x27, 0, 0] := by
  decide

end FX3
